import Mathlib

/-!
# EspWifi: configuration store, portal form handling and provisioning state machine

A shallow embedding of `src/EspWifi.h` and `src/EspWifiConf.cpp`.

* `char` cells are bytes (`Fin 256`; `char` is unsigned on the ESP targets), text
  buffers are lists of cells, a C string is the content of a buffer up to its
  first NUL.
* `int` values are `Int`; `unsigned long` values are `Nat` reduced modulo `2^32`
  wherever the C arithmetic wraps.
* The object is the record `EspWifi`; every member function is a function from
  records to records.  The five built-in value buffers (`_thingName`, `_apPassword`,
  `_wifiSsid`, `_wifiPassword`, `_apTimeoutStr`) live inside the five built-in
  parameters that point to them.  Every parameter is taken to have a value buffer
  of its own, and the chain from `_firstParameter` to hold the five built-in
  parameters followed by the user's, each added once.
* Calls into the surroundings (network adapter, web server, user callbacks, pins)
  are appended to the `log` of the record; what the surroundings answer (clock,
  link status, client count, request) is an explicit input.  User callbacks are
  taken not to re-enter the object.
-/

namespace EspWifiConf

/-- One `char` / `uint8_t` cell. -/
abbrev Byte := Fin 256

/-- The value of `ESPWIFI_CONFIG_START`. -/
def ESPWIFI_CONFIG_START : Int := 0

/-- The value of `ESPWIFI_CONFIG_VESION_LENGTH`. -/
def ESPWIFI_CONFIG_VESION_LENGTH : Nat := 4

/-- The value of `ESPWIFI_WORD_LEN`. -/
def ESPWIFI_WORD_LEN : Int := 33

/-- The value of `ESPWIFI_DEFAULT_WIFI_CONNECTION_TIMEOUT_MS`. -/
def ESPWIFI_DEFAULT_WIFI_CONNECTION_TIMEOUT_MS : Nat := 30000

/-- The value of `ESPWIFI_DEFAULT_AP_MODE_TIMEOUT_MS`. -/
def ESPWIFI_DEFAULT_AP_MODE_TIMEOUT_MS : Nat := 30000

/-- The value of `ESPWIFI_ADMIN_USER_NAME`. -/
def ESPWIFI_ADMIN_USER_NAME : String := "admin"

/-- Number of values of an `unsigned long` (32 bits on the ESP targets). -/
def ULONG_SIZE : Nat := 4294967296

/-- Conversion of a value to `unsigned long`. -/
def toULong (n : Nat) : Nat := n % ULONG_SIZE

/-- Subtraction `a - b` of two `unsigned long` values, wrapping around. -/
def ulongSub (a b : Nat) : Nat := (toULong a + ULONG_SIZE - toULong b) % ULONG_SIZE

/-- Conversion of an `int` to `unsigned long`. -/
def intToULong (i : Int) : Nat := (i % (ULONG_SIZE : Int)).toNat

/-! ## C strings -/

/-- The text held by a buffer: its cells before the first NUL. -/
def cstr (buf : List Byte) : List Byte := buf.takeWhile (fun b => b != 0)

/-- The C library `strlen`. -/
def strlen (buf : List Byte) : Nat := (cstr buf).length

/-- The C library `strncpy (dst, src, n)`: the first `n` cells of `dst` become the
text of `src` cut to `n` cells and padded with NUL; cells of `dst` from `n` on are
kept. -/
def strncpy (dst src : List Byte) (n : Nat) : List Byte :=
  (cstr src).take n ++ List.replicate (n - ((cstr src).take n).length) 0 ++ dst.drop n

/-- The C library `isspace` on one cell. -/
def isSpace (b : Byte) : Bool := b.val == 32 || (9 ≤ b.val && b.val ≤ 13)

/-- The C library `isdigit` on one cell. -/
def isDigit (b : Byte) : Bool := 48 ≤ b.val && b.val ≤ 57

/-- The digit loop of `atoi`. -/
def atoiDigits : List Byte → Int → Int
  | [], acc => acc
  | b :: bs, acc => if isDigit b then atoiDigits bs (acc * 10 + ((b.val : Int) - 48)) else acc

/-- The C library `atoi`: blanks, an optional sign, then decimal digits (the
result is not reduced to 32 bits: overflow is undefined in C). -/
def atoi (s : List Byte) : Int :=
  match s.dropWhile isSpace with
  | [] => 0
  | b :: bs =>
    if b.val == 45 then - atoiDigits bs 0
    else if b.val == 43 then atoiDigits bs 0
    else atoiDigits (b :: bs) 0

/-- Arduino `String::toCharArray (target, len)` for a `String` holding `value`:
nothing happens for `len = 0`; an empty value only sets the first cell to NUL;
otherwise `min (len - 1, value.length)` cells are copied and a NUL is put behind
them.  The other cells of `target` are kept. -/
def toCharArray (value target : List Byte) (len : Nat) : List Byte :=
  if len = 0 then target
  else if value.length = 0 then target.set 0 0
  else
    let n := min (len - 1) value.length
    value.take n ++ [0] ++ target.drop (n + 1)

/-! ## Persistent byte region -/

/-- Modelled from the spec: the persistent byte-region collaborator (`EEPROM`) is
not part of src/.  `begin (size)` gives a region of `size` cells holding what is
stored. -/
def eepromBegin (stored : Nat → Byte) (size : Int) : List Byte :=
  (List.range size.toNat).map stored

/-- Modelled from the spec: the persistent byte-region collaborator (`EEPROM`) is
not part of src/.  `read (address)` gives the cell; outside the region the answer
is 0, as in the Arduino cores. -/
def eepromRead (data : List Byte) (address : Int) : Byte :=
  if address < 0 ∨ (data.length : Int) ≤ address then 0 else data.getD address.toNat 0

/-- Modelled from the spec: the persistent byte-region collaborator (`EEPROM`) is
not part of src/.  `write (address, value)` sets the cell; outside the region
nothing is written, as in the Arduino cores. -/
def eepromWrite (data : List Byte) (address : Int) (value : Byte) : List Byte :=
  if address < 0 ∨ (data.length : Int) ≤ address then data else data.set address.toNat value

/-! ## Data model -/

/-- The class `EspWifiParameter`. `id = none` is the `NULL` id of a separator. -/
structure EspWifiParameter where
  label : Option String
  id : Option String
  valueBuffer : List Byte
  length : Int
  type : Option String
  placeholder : Option String
  defaultValue : Option (List Byte)
  customHtml : Option String
  visible : Bool
  errorMessage : Option String
  deriving DecidableEq, Repr

namespace EspWifiParameter

/-- The member `getId`. -/
def getId (p : EspWifiParameter) : Option String := p.id

/-- The member `getLength`. -/
def getLength (p : EspWifiParameter) : Int := p.length

/-- The test `strcmp ("password", current->type) == 0`. -/
def isPassword (p : EspWifiParameter) : Bool := p.type == some "password"

end EspWifiParameter

/-- The constructor `EspWifiParameter (label, id, valueBuffer, length, type,
placeholder, defaultValue, customHtml, visible)`. -/
def mkParameter (label id : Option String) (valueBuffer : List Byte) (length : Int)
    (type : Option String) (placeholder : Option String)
    (defaultValue : Option (List Byte)) (customHtml : Option String) (visible : Bool) :
    EspWifiParameter :=
  { label := label, id := id, valueBuffer := valueBuffer, length := length, type := type,
    placeholder := placeholder, defaultValue := defaultValue, customHtml := customHtml,
    visible := visible, errorMessage := none }

/-- The constructor `EspWifiSeparator (label)`; `EspWifiSeparator ()` is `label = none`. -/
def EspWifiSeparator (label : Option String) : EspWifiParameter :=
  mkParameter label none [] 0 none none none none true

/-- The values `ESPWIFI_STATE_*` of `_state`. -/
inductive State where
  | BOOT
  | NOT_CONFIGURED
  | AP_MODE
  | CONNECTING
  | ONLINE
  deriving DecidableEq, Repr

/-- The values `ESPWIFI_AP_CONNECTION_STATE_*` of `_apConnectionStatus`. -/
inductive ApConnectionState where
  | NC
  | C
  | DC
  deriving DecidableEq, Repr

/-- The struct `EspWifiAuthInfo`, by the texts its two pointers point to. -/
structure EspWifiAuthInfo where
  ssid : List Byte
  password : List Byte
  deriving DecidableEq, Repr

/-- Where the two pointers of `_wifiAuthInfo` point: to the stored buffers
`_wifiSsid` / `_wifiPassword`, or to texts handed over by the failure handler. -/
inductive AuthPointer where
  | stored
  | alternate (info : EspWifiAuthInfo)
  deriving DecidableEq, Repr

/-- The handler in `_wifiConnectionFailureHandler`: the built-in
`handleConnectWifiFailure`, or user code. -/
inductive FailureHandler where
  | builtin
  | user
  deriving DecidableEq, Repr

/-- Calls into the surroundings, in the order they are made. -/
inductive Event where
  | pinModeConfig
  | pinModeStatus
  | digitalWrite (level : Nat)
  | hostname (name : List Byte)
  | apConnectionHandler (apName password : List Byte)
  | wifiConnectionHandler (ssid password : List Byte)
  | wifiDisconnect
  | stopAp
  | dnsStart
  | dnsProcessNextRequest
  | updateServerSetup
  | updateCredentials (password : List Byte)
  | serverBegin
  | wifiConnectionCallback
  | configSavedCallback
  | eepromCommit
  | requestAuthentication
  | sendConfigPage
  | sendSavedPage
  | stateChanging (oldState newState : State)
  | stateChanged (oldState newState : State)
  deriving DecidableEq, Repr

/-- One HTTP request as the web server shows it to `handleConfig`: its arguments
in order, and the answer of `authenticate (user, password)`. -/
structure Request where
  args : List (String × List Byte)
  authenticate : String → List Byte → Bool

namespace Request

/-- The server call `hasArg (name)`. -/
def hasArg (r : Request) (name : String) : Bool := r.args.any (fun a => a.1 == name)

/-- The server call `arg (name)`: the first argument of that name, or the empty text. -/
def arg (r : Request) (name : String) : List Byte :=
  match r.args.find? (fun a => a.1 == name) with
  | some a => a.2
  | none => []

end Request

/-- The class `EspWifi`: its data members. -/
structure EspWifi where
  initialApPassword : List Byte
  configVersion : List Byte
  hasUpdateServer : Bool
  configPin : Int
  statusPin : Int
  hasUpdatePath : Bool
  forceDefaultPassword : Bool
  skipApStartup : Bool
  thingNameParameter : EspWifiParameter
  apPasswordParameter : EspWifiParameter
  wifiSsidParameter : EspWifiParameter
  wifiPasswordParameter : EspWifiParameter
  apTimeoutParameter : EspWifiParameter
  userParameters : List EspWifiParameter
  apTimeoutMs : Nat
  wifiConnectionTimeoutMs : Nat
  state : State
  apStartTimeMs : Nat
  apConnectionStatus : ApConnectionState
  hasWifiConnectionCallback : Bool
  hasConfigSavedCallback : Bool
  formValidator : Option (Request → Bool)
  wifiConnectionFailureHandler : FailureHandler
  internalBlinkOnMs : Nat
  internalBlinkOffMs : Nat
  blinkOnMs : Nat
  blinkOffMs : Nat
  blinkState : Nat
  lastBlinkTime : Nat
  wifiConnectionStart : Nat
  wifiAuthInfo : AuthPointer
  eeprom : List Byte
  log : List Event

/-- What the surroundings answer during one call of `doLoop`. -/
structure TickInput where
  /-- answer of `millis ()` in `doBlink` -/
  millisBlink : Nat
  /-- answer of `millis ()` in `checkApTimeout` and `checkWifiConnection` -/
  millisCheck : Nat
  /-- answer of `millis ()` in `stateChanged` -/
  millisEntry : Nat
  /-- answer of `WiFi.softAPgetStationNum ()` -/
  softAPgetStationNum : Nat
  /-- whether `WiFi.status ()` is `WL_CONNECTED` -/
  wifiConnected : Bool
  /-- answer of a user failure handler: `none` is `NULL` -/
  userFailureResult : Option EspWifiAuthInfo
  /-- the request that `handleClient` hands to `handleConfig`, if any -/
  configRequest : Option Request

namespace EspWifi

/-! ## Parameter chain -/

/-- The chain from `_firstParameter`: the five built-in parameters in the order
the constructor adds them, then the parameters added by the user. -/
def parameters (s : EspWifi) : List EspWifiParameter :=
  s.thingNameParameter :: s.apPasswordParameter :: s.wifiSsidParameter ::
    s.wifiPasswordParameter :: s.apTimeoutParameter :: s.userParameters

/-- Storing the parameters of the chain back after a walk that changed them. -/
def setParameters (s : EspWifi) : List EspWifiParameter → EspWifi
  | a :: b :: c :: d :: e :: rest =>
    { s with thingNameParameter := a, apPasswordParameter := b, wifiSsidParameter := c,
             wifiPasswordParameter := d, apTimeoutParameter := e, userParameters := rest }
  | _ => s

/-- The buffer `_thingName`. -/
def thingName (s : EspWifi) : List Byte := s.thingNameParameter.valueBuffer

/-- The buffer `_apPassword`. -/
def apPassword (s : EspWifi) : List Byte := s.apPasswordParameter.valueBuffer

/-- The buffer `_wifiSsid`. -/
def wifiSsid (s : EspWifi) : List Byte := s.wifiSsidParameter.valueBuffer

/-- The buffer `_wifiPassword`. -/
def wifiPassword (s : EspWifi) : List Byte := s.wifiPasswordParameter.valueBuffer

/-- The buffer `_apTimeoutStr`. -/
def apTimeoutStr (s : EspWifi) : List Byte := s.apTimeoutParameter.valueBuffer

/-- The first cell `buf[0]` of a buffer. -/
def firstChar (buf : List Byte) : Byte := buf.headD 0

/-- Appending one call to the log. -/
def emit (e : Event) (s : EspWifi) : EspWifi := { s with log := s.log ++ [e] }

/-- The texts behind the two pointers of `_wifiAuthInfo`. -/
def currentAuthInfo (s : EspWifi) : EspWifiAuthInfo :=
  match s.wifiAuthInfo with
  | .stored => { ssid := cstr s.wifiSsid, password := cstr s.wifiPassword }
  | .alternate info => info

/-- The member `addParameter`. -/
def addParameter (parameter : EspWifiParameter) (s : EspWifi) : Bool × EspWifi :=
  (true, { s with userParameters := s.userParameters ++ [parameter] })

/-! ## Config store -/

/-- The member `configInit`: the sizes of all parameters of the chain are added
up and the region is opened with the version tag in front. -/
def configInit (stored : Nat → Byte) (s : EspWifi) : EspWifi :=
  let size : Int := s.parameters.foldl (fun size current => size + current.getLength) 0
  { s with eeprom :=
      eepromBegin stored (ESPWIFI_CONFIG_START + (ESPWIFI_CONFIG_VESION_LENGTH : Int) + size) }

/-- The member `readEepromValue`. -/
def readEepromValue (data : List Byte) (start : Int) (valueBuffer : List Byte)
    (length : Int) : List Byte :=
  (List.range length.toNat).foldl
    (fun buf (t : Nat) => buf.set t (eepromRead data (start + (t : Int)))) valueBuffer

/-- The member `writeEepromValue`. -/
def writeEepromValue (data : List Byte) (start : Int) (valueBuffer : List Byte)
    (length : Int) : List Byte :=
  (List.range length.toNat).foldl
    (fun d (t : Nat) => eepromWrite d (start + (t : Int)) (valueBuffer.getD t 0)) data

/-- The cell `_configVersion[t]`. -/
def configVersionAt (s : EspWifi) (t : Nat) : Byte := s.configVersion.getD t 0

/-- The member `configTestVersion`. -/
def configTestVersion (s : EspWifi) : Bool :=
  (List.range ESPWIFI_CONFIG_VESION_LENGTH).all
    (fun (t : Nat) => eepromRead s.eeprom (ESPWIFI_CONFIG_START + (t : Int)) == s.configVersionAt t)

/-- The member `configSaveConfigVersion`, on the region. -/
def configSaveConfigVersion (s : EspWifi) : List Byte :=
  (List.range ESPWIFI_CONFIG_VESION_LENGTH).foldl
    (fun d (t : Nat) => eepromWrite d (ESPWIFI_CONFIG_START + (t : Int)) (s.configVersionAt t)) s.eeprom

/-- The loop of `configLoad` from the parameter `current` on, at offset `start`. -/
def loadParameters (data : List Byte) : Int → List EspWifiParameter → List EspWifiParameter
  | _, [] => []
  | start, current :: rest =>
    if current.getId.isSome then
      let buf := readEepromValue data start current.valueBuffer current.getLength
      let buf :=
        match current.defaultValue with
        | some defaultValue =>
          if strlen buf = 0 then strncpy buf defaultValue current.getLength.toNat else buf
        | none => buf
      { current with valueBuffer := buf } ::
        loadParameters data (start + current.getLength) rest
    else
      current :: loadParameters data start rest

/-- The member `configLoad`. -/
def configLoad (s : EspWifi) : Bool × EspWifi :=
  if s.configTestVersion then
    let start : Int := ESPWIFI_CONFIG_START + (ESPWIFI_CONFIG_VESION_LENGTH : Int)
    (true, s.setParameters (loadParameters s.eeprom start s.parameters))
  else
    (false, s)

/-- The loop of `configSave` from the parameter `current` on, at offset `start`. -/
def saveParameters : List Byte → Int → List EspWifiParameter → List Byte
  | data, _, [] => data
  | data, start, current :: rest =>
    if current.getId.isSome then
      saveParameters (writeEepromValue data start current.valueBuffer current.getLength)
        (start + current.getLength) rest
    else
      saveParameters data start rest

/-- The member `configSave`. -/
def configSave (s : EspWifi) : EspWifi :=
  let start : Int := ESPWIFI_CONFIG_START + (ESPWIFI_CONFIG_VESION_LENGTH : Int)
  let s := { s with eeprom := saveParameters s.configSaveConfigVersion start s.parameters }
  let s := emit .eepromCommit s
  let s := { s with apTimeoutMs := intToULong (atoi s.apTimeoutStr * 1000) }
  if s.hasConfigSavedCallback then emit .configSavedCallback s else s

/-- The member `init`; `configPinLow` is whether `digitalRead (_configPin)` is `LOW`. -/
def init (configPinLow : Bool) (stored : Nat → Byte) (s : EspWifi) : Bool × EspWifi :=
  let s :=
    if 0 ≤ s.configPin then
      { (emit .pinModeConfig s) with forceDefaultPassword := configPinLow }
    else s
  let s := if 0 ≤ s.statusPin then emit (.digitalWrite 0) (emit .pinModeStatus s) else s
  let s := configInit stored s
  let (validConfig, s) := configLoad s
  let s :=
    if !validConfig then
      { s with
        apPasswordParameter :=
          { s.apPasswordParameter with valueBuffer := s.apPassword.set 0 0 },
        wifiSsidParameter :=
          { s.wifiSsidParameter with valueBuffer := s.wifiSsid.set 0 0 },
        wifiPasswordParameter :=
          { s.wifiPasswordParameter with valueBuffer := s.wifiPassword.set 0 0 },
        apTimeoutMs := ESPWIFI_DEFAULT_AP_MODE_TIMEOUT_MS }
    else
      { s with apTimeoutMs := intToULong (atoi s.apTimeoutStr * 1000) }
  (validConfig, emit (.hostname (cstr s.thingName)) s)

/-! ## Portal request handler -/

/-- The server call `arg (id)` for the id of a parameter. -/
def argOf (req : Request) (id : Option String) : List Byte := req.arg (id.getD "")

/-- The member `readParamValue` (a negative `len`, which C would turn into a huge
`unsigned int`, is taken as 0). -/
def readParamValue (req : Request) (paramName : Option String) (target : List Byte)
    (len : Int) : List Byte :=
  toCharArray (argOf req paramName) target len.toNat

/-- The first loop of `validateForm` on one parameter. -/
def clearErrorMessage (current : EspWifiParameter) : EspWifiParameter :=
  { current with errorMessage := none }

/-- The device-name rule of `validateForm`: `valid` and the object before and
after the block. -/
def validateThingName (req : Request) (vs : Bool × EspWifi) : Bool × EspWifi :=
  let l := (argOf req vs.2.thingNameParameter.getId).length
  if 3 > l then
    (false, { vs.2 with thingNameParameter := { vs.2.thingNameParameter with
        errorMessage := some "Give a name with at least 3 characters." } })
  else vs

/-- The AP-password rule of `validateForm`. -/
def validateApPassword (req : Request) (vs : Bool × EspWifi) : Bool × EspWifi :=
  let l := (argOf req vs.2.apPasswordParameter.getId).length
  if 0 < l ∧ l < 8 then
    (false, { vs.2 with apPasswordParameter := { vs.2.apPasswordParameter with
        errorMessage := some "Password length must be at least 8 characters." } })
  else vs

/-- The WiFi-password rule of `validateForm`. -/
def validateWifiPassword (req : Request) (vs : Bool × EspWifi) : Bool × EspWifi :=
  let l := (argOf req vs.2.wifiPasswordParameter.getId).length
  if 0 < l ∧ l < 8 then
    (false, { vs.2 with wifiPasswordParameter := { vs.2.wifiPasswordParameter with
        errorMessage := some "Password length must be at least 8 characters." } })
  else vs

/-- The member `validateForm`: the error messages are cleaned, the external
validator is called if there is one, then the three built-in rules run in turn. -/
def validateForm (req : Request) (s : EspWifi) : Bool × EspWifi :=
  let s := s.setParameters (s.parameters.map clearErrorMessage)
  let valid :=
    match s.formValidator with
    | some formValidator => formValidator req
    | none => true
  validateWifiPassword req (validateApPassword req (validateThingName req (valid, s)))

/-- The save loop of `handleConfig` from the parameter `current` on; `temp` is
the local buffer of that name. -/
def applyParameters (req : Request) : List Byte → List EspWifiParameter → List EspWifiParameter
  | _, [] => []
  | temp, current :: rest =>
    if current.getId.isSome ∧ current.visible then
      if current.isPassword ∧ current.getLength ≤ ESPWIFI_WORD_LEN then
        let temp := readParamValue req current.getId temp current.getLength
        if firstChar temp ≠ 0 then
          { current with valueBuffer := strncpy current.valueBuffer temp current.getLength.toNat }
            :: applyParameters req temp rest
        else
          current :: applyParameters req temp rest
      else
        { current with valueBuffer :=
            readParamValue req current.getId current.valueBuffer current.getLength }
          :: applyParameters req temp rest
    else
      current :: applyParameters req temp rest

/-- The member `handleConfig` for the request `req`.  The pages are not built:
only which page is sent is logged.  The cells of the local `temp` start as NUL. -/
def handleConfig (req : Request) (s : EspWifi) : EspWifi :=
  if s.state = State.ONLINE ∧ ¬ req.authenticate ESPWIFI_ADMIN_USER_NAME (cstr s.apPassword) then
    emit .requestAuthentication s
  else if ¬ req.hasArg "iotSave" then
    emit .sendConfigPage s
  else
    let (valid, s) := validateForm req s
    if ¬ valid then
      emit .sendConfigPage s
    else
      let temp : List Byte := List.replicate ESPWIFI_WORD_LEN.toNat 0
      let s := s.setParameters (applyParameters req temp s.parameters)
      let s := configSave s
      emit .sendSavedPage s

/-! ## Blink signal -/

/-- The member `stopCustomBlink`. -/
def stopCustomBlink (s : EspWifi) : EspWifi :=
  { s with blinkOnMs := s.internalBlinkOnMs, blinkOffMs := s.internalBlinkOffMs }

/-- The member `blink`; the `byte` argument is reduced modulo 256, the products
wrap around as `unsigned long`. -/
def blink (repeatMs : Nat) (dutyCyclePercent : Nat) (s : EspWifi) : EspWifi :=
  if toULong repeatMs = 0 then
    stopCustomBlink s
  else
    { s with
      blinkOnMs := toULong (toULong repeatMs * (dutyCyclePercent % 256)) / 100,
      blinkOffMs :=
        toULong (toULong repeatMs * intToULong (100 - ((dutyCyclePercent % 256 : Nat) : Int)))
          / 100 }

/-- The member `fineBlink`. -/
def fineBlink (onMs offMs : Nat) (s : EspWifi) : EspWifi :=
  { s with blinkOnMs := toULong onMs, blinkOffMs := toULong offMs }

/-- The member `blinkInternal`. -/
def blinkInternal (repeatMs : Nat) (dutyCyclePercent : Nat) (s : EspWifi) : EspWifi :=
  let s := blink repeatMs dutyCyclePercent s
  { s with internalBlinkOnMs := s.blinkOnMs, internalBlinkOffMs := s.blinkOffMs }

/-- The member `doBlink`; `now` is the answer of `millis ()`. `LOW` is 0. -/
def doBlink (now : Nat) (s : EspWifi) : EspWifi :=
  if 0 ≤ s.statusPin then
    let delayMs := if s.blinkState = 0 then s.blinkOnMs else s.blinkOffMs
    if delayMs < ulongSub now s.lastBlinkTime then
      let blinkState := ((1 - (s.blinkState : Int)) % 256).toNat
      emit (.digitalWrite blinkState)
        { s with blinkState := blinkState, lastBlinkTime := toULong now }
    else s
  else s

/-! ## Provisioning state machine -/

/-- The member `isWifiModePossible`, as the header defines it: it holds when the
default password is forced or no AP password is stored. -/
def isWifiModePossible (s : EspWifi) : Bool :=
  s.forceDefaultPassword || (firstChar s.apPassword == 0)

/-- The static member `handleConnectWifiFailure`: it returns `NULL`. -/
def handleConnectWifiFailure : Option EspWifiAuthInfo := none

/-- The call of `_wifiConnectionFailureHandler`. -/
def callWifiConnectionFailureHandler (inp : TickInput) (s : EspWifi) : Option EspWifiAuthInfo :=
  match s.wifiConnectionFailureHandler with
  | .builtin => handleConnectWifiFailure
  | .user => inp.userFailureResult

/-- The member `setupAp`. -/
def setupAp (s : EspWifi) : EspWifi :=
  let s :=
    if s.state = State.NOT_CONFIGURED then
      emit (.apConnectionHandler (cstr s.thingName) (cstr s.initialApPassword)) s
    else
      emit (.apConnectionHandler (cstr s.thingName) (cstr s.apPassword)) s
  emit .dnsStart s

/-- The member `stopAp`. -/
def stopAp (s : EspWifi) : EspWifi := emit .stopAp s

/-- The member `stateChanged`. -/
def stateChanged (inp : TickInput) (oldState newState : State) (s : EspWifi) : EspWifi :=
  match newState with
  | .AP_MODE | .NOT_CONFIGURED =>
    let s := if newState = State.AP_MODE then blinkInternal 300 90 s else blinkInternal 300 50 s
    let s := setupAp s
    let s := if s.hasUpdateServer then emit .updateServerSetup s else s
    let s := emit .serverBegin s
    { s with apConnectionStatus := .NC, apStartTimeMs := toULong inp.millisEntry }
  | .CONNECTING =>
    let s := if oldState = State.AP_MODE ∨ oldState = State.NOT_CONFIGURED then stopAp s else s
    let s := blinkInternal 1000 50 s
    let s := { s with wifiConnectionStart := toULong inp.millisEntry }
    emit (.wifiConnectionHandler s.currentAuthInfo.ssid s.currentAuthInfo.password) s
  | .ONLINE =>
    let s := blinkInternal 8000 2 s
    let s := if s.hasUpdateServer then emit (.updateCredentials (cstr s.apPassword)) s else s
    let s := emit .serverBegin s
    if s.hasWifiConnectionCallback then emit .wifiConnectionCallback s else s
  | .BOOT => s

/-- The member `changeState`. -/
def changeState (inp : TickInput) (newState : State) (s : EspWifi) : EspWifi :=
  let newState :=
    match newState with
    | .AP_MODE => if isWifiModePossible s then State.NOT_CONFIGURED else State.AP_MODE
    | other => other
  let s := emit (.stateChanging s.state newState) s
  let oldState := s.state
  let s := { s with state := newState }
  let s := stateChanged inp oldState newState s
  emit (.stateChanged oldState newState) s

/-- The member `checkApTimeout`. -/
def checkApTimeout (inp : TickInput) (s : EspWifi) : EspWifi :=
  if firstChar s.wifiSsid ≠ 0 ∧ firstChar s.apPassword ≠ 0 ∧ ¬ s.forceDefaultPassword then
    if s.apConnectionStatus = .DC ∨
        (s.apTimeoutMs < ulongSub inp.millisCheck s.apStartTimeMs ∧
          s.apConnectionStatus ≠ .C) then
      changeState inp .CONNECTING s
    else s
  else s

/-- The member `checkConnection`. -/
def checkConnection (inp : TickInput) (s : EspWifi) : EspWifi :=
  if s.apConnectionStatus = .NC ∧ inp.softAPgetStationNum > 0 then
    { s with apConnectionStatus := .C }
  else if s.apConnectionStatus = .C ∧ inp.softAPgetStationNum = 0 then
    let s := { s with apConnectionStatus := .DC }
    if s.forceDefaultPassword then { s with forceDefaultPassword := false } else s
  else s

/-- The member `checkWifiConnection`. -/
def checkWifiConnection (inp : TickInput) (s : EspWifi) : Bool × EspWifi :=
  if ¬ inp.wifiConnected then
    if s.wifiConnectionTimeoutMs < ulongSub inp.millisCheck s.wifiConnectionStart then
      let s := emit .wifiDisconnect s
      match callWifiConnectionFailureHandler inp s with
      | some newWifiAuthInfo =>
        let s := { s with wifiAuthInfo := .alternate newWifiAuthInfo }
        (false, changeState inp .CONNECTING s)
      | none =>
        (false, changeState inp .AP_MODE s)
    else (false, s)
  else (true, s)

/-- The server call `handleClient`, as far as it reaches this object: a config
request is handed to `handleConfig`. -/
def handleClient (inp : TickInput) (s : EspWifi) : EspWifi :=
  match inp.configRequest with
  | some req => handleConfig req s
  | none => s

/-- The member `doLoop`. -/
def doLoop (inp : TickInput) (s : EspWifi) : EspWifi :=
  let s := doBlink inp.millisBlink s
  match s.state with
  | .BOOT =>
    let startupState :=
      if s.skipApStartup then
        if isWifiModePossible s then State.AP_MODE else State.CONNECTING
      else State.AP_MODE
    changeState inp startupState s
  | .NOT_CONFIGURED | .AP_MODE =>
    let s := checkConnection inp s
    let s := checkApTimeout inp s
    let s := emit .dnsProcessNextRequest s
    handleClient inp s
  | .CONNECTING =>
    let (connected, s) := checkWifiConnection inp s
    if connected then changeState inp .ONLINE s else s
  | .ONLINE =>
    let s := handleClient inp s
    if ¬ inp.wifiConnected then changeState inp .CONNECTING s else s

/-- Successive calls of `doLoop`, one per input. -/
def doLoops : List TickInput → EspWifi → EspWifi
  | [], s => s
  | inp :: rest, s => doLoops rest (doLoop inp s)

/-- The constructor `ESPWIFI (defaultThingName, dnsServer, server,
initialApPassword, configVersion)` with the member initialisers of the header;
the five buffers start zeroed, and `itoa` of the default AP timeout in seconds
gives the text "30".  The markup text of the timeout field is written without its
quote marks. -/
def construct (defaultThingName initialApPassword configVersion : List Byte) : EspWifi :=
  let zeroed : List Byte := List.replicate ESPWIFI_WORD_LEN.toNat 0
  { initialApPassword := initialApPassword
    configVersion := configVersion
    hasUpdateServer := false
    configPin := -1
    statusPin := -1
    hasUpdatePath := false
    forceDefaultPassword := false
    skipApStartup := false
    thingNameParameter :=
      mkParameter (some "Thing name") (some "iwcThingName")
        (strncpy zeroed defaultThingName ESPWIFI_WORD_LEN.toNat) ESPWIFI_WORD_LEN
        (some "text") none none none true
    apPasswordParameter :=
      mkParameter (some "AP password") (some "iwcApPassword") zeroed ESPWIFI_WORD_LEN
        (some "password") none none none true
    wifiSsidParameter :=
      mkParameter (some "WiFi SSID") (some "iwcWifiSsid") zeroed ESPWIFI_WORD_LEN
        (some "text") none none none true
    wifiPasswordParameter :=
      mkParameter (some "WiFi password") (some "iwcWifiPassword") zeroed ESPWIFI_WORD_LEN
        (some "password") none none none true
    apTimeoutParameter :=
      mkParameter (some "Startup delay (seconds)") (some "iwcApTimeout")
        (strncpy zeroed [51, 48] ESPWIFI_WORD_LEN.toNat) ESPWIFI_WORD_LEN
        (some "number") none none (some "min=1 max=600") false
    userParameters := []
    apTimeoutMs := ESPWIFI_DEFAULT_AP_MODE_TIMEOUT_MS
    wifiConnectionTimeoutMs := ESPWIFI_DEFAULT_WIFI_CONNECTION_TIMEOUT_MS
    state := .BOOT
    apStartTimeMs := 0
    apConnectionStatus := .NC
    hasWifiConnectionCallback := false
    hasConfigSavedCallback := false
    formValidator := none
    wifiConnectionFailureHandler := .builtin
    internalBlinkOnMs := 500
    internalBlinkOffMs := 500
    blinkOnMs := 500
    blinkOffMs := 500
    blinkState := 0
    lastBlinkTime := 0
    wifiConnectionStart := 0
    wifiAuthInfo := .stored
    eeprom := []
    log := [] }



/-! ## Sample objects and inputs -/

/-- A buffer of `ESPWIFI_WORD_LEN` cells holding a text. -/
def wordBuffer (text : List Byte) : List Byte :=
  strncpy (List.replicate ESPWIFI_WORD_LEN.toNat 0) text ESPWIFI_WORD_LEN.toNat

/-- A freshly constructed object: thing name "thing", initial AP password
"initial1", version tag "init". -/
def freshThing : EspWifi :=
  construct [116, 104, 105, 110, 103] [105, 110, 105, 116, 105, 97, 108, 49] [105, 110, 105, 116]

/-- An object in `BOOT` holding a configuration: AP password "password1", station
SSID "home", station password "wifisecret". -/
def configuredThing : EspWifi :=
  { freshThing with
    apPasswordParameter :=
      { freshThing.apPasswordParameter with
        valueBuffer := wordBuffer [112, 97, 115, 115, 119, 111, 114, 100, 49] },
    wifiSsidParameter :=
      { freshThing.wifiSsidParameter with valueBuffer := wordBuffer [104, 111, 109, 101] },
    wifiPasswordParameter :=
      { freshThing.wifiPasswordParameter with
        valueBuffer := wordBuffer [119, 105, 102, 105, 115, 101, 99, 114, 101, 116] } }

/-- The input of a `doLoop` at clock value `now` (all three clock reads give it)
with no AP client, the link down, no answer of a user failure handler and no
request. -/
def quietTick (now : Nat) : TickInput :=
  { millisBlink := now, millisCheck := now, millisEntry := now, softAPgetStationNum := 0,
    wifiConnected := false, userFailureResult := none, configRequest := none }

/-- The configured object after `skipApStartup ()`. -/
def skipApThing : EspWifi := { configuredThing with skipApStartup := true }

/-- The configured object in `CONNECTING`, the attempt started at clock value 0. -/
def connectingThing : EspWifi := { configuredThing with state := State.CONNECTING }

/-- The configured object in `AP_MODE`, entered at clock value 0, no client seen. -/
def apModeThing : EspWifi := { configuredThing with state := State.AP_MODE }

/-- The configured object in `NOT_CONFIGURED` because the config pin forced the
default password, with a client on the AP. -/
def forcedThing : EspWifi :=
  { configuredThing with
    state := State.NOT_CONFIGURED, forceDefaultPassword := true,
    apConnectionStatus := ApConnectionState.C }

/-- The object in `CONNECTING` with a user failure handler. -/
def retryThing : EspWifi :=
  { connectingThing with wifiConnectionFailureHandler := FailureHandler.user }

/-- A tick at clock value 30001 at which the user failure handler hands over the
credentials "guest" / "guestpass". -/
def retryTick : TickInput :=
  { quietTick 30001 with
    userFailureResult :=
      some { ssid := [103, 117, 101, 115, 116],
             password := [103, 117, 101, 115, 116, 112, 97, 115, 115] } }

/-- A fresh object with one user parameter "greeting" of 3 cells that holds an
empty text and declares the default value "hi". -/
def defaultedThing : EspWifi :=
  { freshThing with
    userParameters :=
      [mkParameter (some "Greeting") (some "greeting") [0, 0, 0] 3 (some "text") none
        (some [104, 105]) none true] }

/-- A fresh object with one user parameter "token" of type password. -/
def secretThing : EspWifi :=
  { freshThing with
    userParameters :=
      [mkParameter (some "Token") (some "token") (wordBuffer []) ESPWIFI_WORD_LEN
        (some "password") none none none true] }

/-- A save submission with device name "thing" and the 3 characters "abc" for the
parameter "token". -/
def shortTokenRequest : Request :=
  { args := [("iotSave", [116, 114, 117, 101]), ("iwcThingName", [116, 104, 105, 110, 103]),
             ("token", [97, 98, 99])],
    authenticate := fun _ _ => true }

/-- A save submission with the one-character device name "A". -/
def shortNameRequest : Request :=
  { args := [("iotSave", [116, 114, 117, 101]), ("iwcThingName", [65])],
    authenticate := fun _ _ => true }

/-- The configured object in `ONLINE`. -/
def onlineThing : EspWifi := { configuredThing with state := State.ONLINE }

/-- The request `shortNameRequest` without valid credentials. -/
def unauthenticatedShortNameRequest : Request :=
  { shortNameRequest with authenticate := fun _ _ => false }

/-- A save submission with device name "thing" and the AP password "longenough1". -/
def newApPasswordRequest : Request :=
  { args := [("iotSave", [116, 114, 117, 101]), ("iwcThingName", [116, 104, 105, 110, 103]),
             ("iwcApPassword", [108, 111, 110, 103, 101, 110, 111, 117, 103, 104, 49])],
    authenticate := fun _ _ => true }

/-- The request `newApPasswordRequest` without valid credentials. -/
def unauthenticatedApPasswordRequest : Request :=
  { newApPasswordRequest with authenticate := fun _ _ => false }

/-- A save submission with device name "thing" and the AP password "short1". -/
def shortApPasswordRequest : Request :=
  { args := [("iotSave", [116, 114, 117, 101]), ("iwcThingName", [116, 104, 105, 110, 103]),
             ("iwcApPassword", [115, 104, 111, 114, 116, 49])],
    authenticate := fun _ _ => true }

/-- A save submission with device name "thing" and nothing else. -/
def nameOnlyRequest : Request :=
  { args := [("iotSave", [116, 114, 117, 101]), ("iwcThingName", [116, 104, 105, 110, 103])],
    authenticate := fun _ _ => true }

/-- The configured object with one user parameter "apikey" of type password and
40 cells, holding the text "key1234567". -/
def longSecretThing : EspWifi :=
  { configuredThing with
    userParameters :=
      [mkParameter (some "API key") (some "apikey")
        (strncpy (List.replicate 40 0) [107, 101, 121, 49, 50, 51, 52, 53, 54, 55] 40) 40
        (some "password") none none none true] }

/-- A fresh object with a separator and then the user parameter "greeting" of 3
cells. -/
def separatedThing : EspWifi :=
  { freshThing with
    userParameters :=
      [EspWifiSeparator (some "Extras"),
       mkParameter (some "Greeting") (some "greeting") [0, 0, 0] 3 (some "text") none
        none none true] }

/-- An object in `BOOT` after `skipApStartup ()` that holds the AP password
"password1" and no station SSID. -/
def skipApNoSsidThing : EspWifi :=
  { freshThing with
    skipApStartup := true,
    apPasswordParameter :=
      { freshThing.apPasswordParameter with
        valueBuffer := wordBuffer [112, 97, 115, 115, 119, 111, 114, 100, 49] } }

/-- The configured object in `ONLINE` with a status pin (pin 2). -/
def statusThing : EspWifi := { onlineThing with statusPin := 2 }

/-- A tick at clock value `now` with the link up and no request. -/
def linkedTick (now : Nat) : TickInput := { quietTick now with wifiConnected := true }

/-- A tick at clock value `now` with one client on the AP. -/
def clientTick (now : Nat) : TickInput := { quietTick now with softAPgetStationNum := 1 }

/-- A save submission with device name "thing", AP password "password1", station
SSID "home" and station password "wifisecret". -/
def fullConfigRequest : Request :=
  { args := [("iotSave", [116, 114, 117, 101]), ("iwcThingName", [116, 104, 105, 110, 103]),
             ("iwcApPassword", [112, 97, 115, 115, 119, 111, 114, 100, 49]),
             ("iwcWifiSsid", [104, 111, 109, 101]),
             ("iwcWifiPassword", [119, 105, 102, 105, 115, 101, 99, 114, 101, 116])],
    authenticate := fun _ _ => true }

/-- The ticks of a first configuration: the first tick, a client joins the AP, the
client leaves, the client is back and submits `fullConfigRequest`. -/
def firstConfigurationTicks : List TickInput :=
  [quietTick 0, clientTick 10, quietTick 20,
   { clientTick 30 with configRequest := some fullConfigRequest }]

/-- A fresh object with one user parameter that has no id but 7 cells. -/
def paddedThing : EspWifi :=
  { freshThing with
    userParameters :=
      [mkParameter (some "Pad") none (List.replicate 7 0) 7 (some "text") none none none true] }

/-! ## Notions used to state the properties -/

/-- Follows the spec: the offset of the parameter at place `i` of the chain in the
persistent region, the version tag first and then the capacities of the
parameters with an id that come before it. -/
def specOffset (ps : List EspWifiParameter) (i : Nat) : Int :=
  ESPWIFI_CONFIG_START + (ESPWIFI_CONFIG_VESION_LENGTH : Int) +
    (((ps.take i).filter (fun p => p.getId.isSome)).map (fun p => p.getLength)).sum

/-- Whether a logged call is the one `changeState` makes first. -/
def isStateChanging : Event → Bool
  | .stateChanging _ _ => true
  | _ => false

/-- The number of calls of `changeState` that a log records. -/
def changeStateCalls (log : List Event) : Nat := log.countP isStateChanging

/-- A call of the public blink interface that sets a pattern of its own. -/
inductive BlinkCall where
  | blink (repeatMs : Nat) (dutyCyclePercent : Nat)
  | fineBlink (onMs : Nat) (offMs : Nat)

/-- Successive calls of `blink` and `fineBlink`, one per entry. -/
def customBlinks : List BlinkCall → EspWifi → EspWifi
  | [], s => s
  | BlinkCall.blink repeatMs dutyCyclePercent :: rest, s =>
    customBlinks rest (blink repeatMs dutyCyclePercent s)
  | BlinkCall.fineBlink onMs offMs :: rest, s => customBlinks rest (fineBlink onMs offMs s)

/-- What reaches the object after `init`: a call of `doLoop`, or a portal request
handed to `handleConfig`. -/
inductive Step where
  | tick (inp : TickInput)
  | request (req : Request)

/-- Successive ticks and portal requests, one per entry. -/
def run : List Step → EspWifi → EspWifi
  | [], s => s
  | Step.tick inp :: rest, s => run rest (doLoop inp s)
  | Step.request req :: rest, s => run rest (handleConfig req s)

/-- The offsets that the loop of `readEepromValue` and of `writeEepromValue` hands
to the region: `start + t` for `t` from 0 below `length`. -/
def valueOffsets (start : Int) (length : Int) : List Int :=
  (List.range length.toNat).map (fun (t : Nat) => start + (t : Int))

/-- The offsets that the loop of `configTestVersion` and of
`configSaveConfigVersion` hands to the region. -/
def versionOffsets : List Int :=
  (List.range ESPWIFI_CONFIG_VESION_LENGTH).map (fun (t : Nat) => ESPWIFI_CONFIG_START + (t : Int))

/-- The offsets that the loop over the chain in `configLoad` and in `configSave`
hands to the region from the parameter `current` on, at offset `start`. -/
def parameterOffsets : Int → List EspWifiParameter → List Int
  | _, [] => []
  | start, current :: rest =>
    if current.getId.isSome then
      valueOffsets start current.getLength ++ parameterOffsets (start + current.getLength) rest
    else
      parameterOffsets start rest

/-- The offsets that `configSave` writes. -/
def configSaveOffsets (s : EspWifi) : List Int :=
  versionOffsets ++
    parameterOffsets (ESPWIFI_CONFIG_START + (ESPWIFI_CONFIG_VESION_LENGTH : Int)) s.parameters

/-- The offsets that `configLoad` reads: those of `configTestVersion` (all four at
most) and, when the tag matches, those of the loop over the chain. -/
def configLoadOffsets (s : EspWifi) : List Int :=
  versionOffsets ++
    (if s.configTestVersion then
      parameterOffsets (ESPWIFI_CONFIG_START + (ESPWIFI_CONFIG_VESION_LENGTH : Int)) s.parameters
    else [])

/-- The cells that the loop over the chain in `configSave` hands to the region from
the parameter `current` on, in the order of `parameterOffsets`. -/
def parameterCells : List EspWifiParameter → List Byte
  | [] => []
  | current :: rest =>
    if current.getId.isSome then
      (List.range current.getLength.toNat).map (fun (t : Nat) => current.valueBuffer.getD t 0)
        ++ parameterCells rest
    else
      parameterCells rest

/-- The cells that `configSave` writes, in the order of `configSaveOffsets`. -/
def configSaveCells (s : EspWifi) : List Byte :=
  (List.range ESPWIFI_CONFIG_VESION_LENGTH).map (fun (t : Nat) => s.configVersionAt t) ++
    parameterCells s.parameters

end EspWifi

namespace EspWifi

/-! ## Frame lemmas: the data members a member function leaves alone -/

@[simp] theorem emit_initialApPassword (e : Event) (s : EspWifi) :
    (emit e s).initialApPassword = s.initialApPassword := by
  rfl

@[simp] theorem emit_configVersion (e : Event) (s : EspWifi) :
    (emit e s).configVersion = s.configVersion := by
  rfl

@[simp] theorem emit_hasUpdateServer (e : Event) (s : EspWifi) :
    (emit e s).hasUpdateServer = s.hasUpdateServer := by
  rfl

@[simp] theorem emit_configPin (e : Event) (s : EspWifi) :
    (emit e s).configPin = s.configPin := by
  rfl

@[simp] theorem emit_statusPin (e : Event) (s : EspWifi) :
    (emit e s).statusPin = s.statusPin := by
  rfl

@[simp] theorem emit_hasUpdatePath (e : Event) (s : EspWifi) :
    (emit e s).hasUpdatePath = s.hasUpdatePath := by
  rfl

@[simp] theorem emit_forceDefaultPassword (e : Event) (s : EspWifi) :
    (emit e s).forceDefaultPassword = s.forceDefaultPassword := by
  rfl

@[simp] theorem emit_skipApStartup (e : Event) (s : EspWifi) :
    (emit e s).skipApStartup = s.skipApStartup := by
  rfl

@[simp] theorem emit_thingNameParameter (e : Event) (s : EspWifi) :
    (emit e s).thingNameParameter = s.thingNameParameter := by
  rfl

@[simp] theorem emit_apPasswordParameter (e : Event) (s : EspWifi) :
    (emit e s).apPasswordParameter = s.apPasswordParameter := by
  rfl

@[simp] theorem emit_wifiSsidParameter (e : Event) (s : EspWifi) :
    (emit e s).wifiSsidParameter = s.wifiSsidParameter := by
  rfl

@[simp] theorem emit_wifiPasswordParameter (e : Event) (s : EspWifi) :
    (emit e s).wifiPasswordParameter = s.wifiPasswordParameter := by
  rfl

@[simp] theorem emit_apTimeoutParameter (e : Event) (s : EspWifi) :
    (emit e s).apTimeoutParameter = s.apTimeoutParameter := by
  rfl

@[simp] theorem emit_userParameters (e : Event) (s : EspWifi) :
    (emit e s).userParameters = s.userParameters := by
  rfl

@[simp] theorem emit_apTimeoutMs (e : Event) (s : EspWifi) :
    (emit e s).apTimeoutMs = s.apTimeoutMs := by
  rfl

@[simp] theorem emit_wifiConnectionTimeoutMs (e : Event) (s : EspWifi) :
    (emit e s).wifiConnectionTimeoutMs = s.wifiConnectionTimeoutMs := by
  rfl

@[simp] theorem emit_state (e : Event) (s : EspWifi) :
    (emit e s).state = s.state := by
  rfl

@[simp] theorem emit_apStartTimeMs (e : Event) (s : EspWifi) :
    (emit e s).apStartTimeMs = s.apStartTimeMs := by
  rfl

@[simp] theorem emit_apConnectionStatus (e : Event) (s : EspWifi) :
    (emit e s).apConnectionStatus = s.apConnectionStatus := by
  rfl

@[simp] theorem emit_hasWifiConnectionCallback (e : Event) (s : EspWifi) :
    (emit e s).hasWifiConnectionCallback = s.hasWifiConnectionCallback := by
  rfl

@[simp] theorem emit_hasConfigSavedCallback (e : Event) (s : EspWifi) :
    (emit e s).hasConfigSavedCallback = s.hasConfigSavedCallback := by
  rfl

@[simp] theorem emit_formValidator (e : Event) (s : EspWifi) :
    (emit e s).formValidator = s.formValidator := by
  rfl

@[simp] theorem emit_wifiConnectionFailureHandler (e : Event) (s : EspWifi) :
    (emit e s).wifiConnectionFailureHandler = s.wifiConnectionFailureHandler := by
  rfl

@[simp] theorem emit_internalBlinkOnMs (e : Event) (s : EspWifi) :
    (emit e s).internalBlinkOnMs = s.internalBlinkOnMs := by
  rfl

@[simp] theorem emit_internalBlinkOffMs (e : Event) (s : EspWifi) :
    (emit e s).internalBlinkOffMs = s.internalBlinkOffMs := by
  rfl

@[simp] theorem emit_blinkOnMs (e : Event) (s : EspWifi) :
    (emit e s).blinkOnMs = s.blinkOnMs := by
  rfl

@[simp] theorem emit_blinkOffMs (e : Event) (s : EspWifi) :
    (emit e s).blinkOffMs = s.blinkOffMs := by
  rfl

@[simp] theorem emit_blinkState (e : Event) (s : EspWifi) :
    (emit e s).blinkState = s.blinkState := by
  rfl

@[simp] theorem emit_lastBlinkTime (e : Event) (s : EspWifi) :
    (emit e s).lastBlinkTime = s.lastBlinkTime := by
  rfl

@[simp] theorem emit_wifiConnectionStart (e : Event) (s : EspWifi) :
    (emit e s).wifiConnectionStart = s.wifiConnectionStart := by
  rfl

@[simp] theorem emit_wifiAuthInfo (e : Event) (s : EspWifi) :
    (emit e s).wifiAuthInfo = s.wifiAuthInfo := by
  rfl

@[simp] theorem emit_eeprom (e : Event) (s : EspWifi) :
    (emit e s).eeprom = s.eeprom := by
  rfl

@[simp] theorem setParameters_initialApPassword (s : EspWifi) (ps : List EspWifiParameter) :
    (s.setParameters ps).initialApPassword = s.initialApPassword := by
  unfold setParameters; split <;> rfl

@[simp] theorem setParameters_configVersion (s : EspWifi) (ps : List EspWifiParameter) :
    (s.setParameters ps).configVersion = s.configVersion := by
  unfold setParameters; split <;> rfl

@[simp] theorem setParameters_hasUpdateServer (s : EspWifi) (ps : List EspWifiParameter) :
    (s.setParameters ps).hasUpdateServer = s.hasUpdateServer := by
  unfold setParameters; split <;> rfl

@[simp] theorem setParameters_configPin (s : EspWifi) (ps : List EspWifiParameter) :
    (s.setParameters ps).configPin = s.configPin := by
  unfold setParameters; split <;> rfl

@[simp] theorem setParameters_statusPin (s : EspWifi) (ps : List EspWifiParameter) :
    (s.setParameters ps).statusPin = s.statusPin := by
  unfold setParameters; split <;> rfl

@[simp] theorem setParameters_hasUpdatePath (s : EspWifi) (ps : List EspWifiParameter) :
    (s.setParameters ps).hasUpdatePath = s.hasUpdatePath := by
  unfold setParameters; split <;> rfl

@[simp] theorem setParameters_forceDefaultPassword (s : EspWifi) (ps : List EspWifiParameter) :
    (s.setParameters ps).forceDefaultPassword = s.forceDefaultPassword := by
  unfold setParameters; split <;> rfl

@[simp] theorem setParameters_skipApStartup (s : EspWifi) (ps : List EspWifiParameter) :
    (s.setParameters ps).skipApStartup = s.skipApStartup := by
  unfold setParameters; split <;> rfl

@[simp] theorem setParameters_apTimeoutMs (s : EspWifi) (ps : List EspWifiParameter) :
    (s.setParameters ps).apTimeoutMs = s.apTimeoutMs := by
  unfold setParameters; split <;> rfl

@[simp] theorem setParameters_wifiConnectionTimeoutMs (s : EspWifi) (ps : List EspWifiParameter) :
    (s.setParameters ps).wifiConnectionTimeoutMs = s.wifiConnectionTimeoutMs := by
  unfold setParameters; split <;> rfl

@[simp] theorem setParameters_state (s : EspWifi) (ps : List EspWifiParameter) :
    (s.setParameters ps).state = s.state := by
  unfold setParameters; split <;> rfl

@[simp] theorem setParameters_apStartTimeMs (s : EspWifi) (ps : List EspWifiParameter) :
    (s.setParameters ps).apStartTimeMs = s.apStartTimeMs := by
  unfold setParameters; split <;> rfl

@[simp] theorem setParameters_apConnectionStatus (s : EspWifi) (ps : List EspWifiParameter) :
    (s.setParameters ps).apConnectionStatus = s.apConnectionStatus := by
  unfold setParameters; split <;> rfl

@[simp] theorem setParameters_hasWifiConnectionCallback (s : EspWifi) (ps : List EspWifiParameter) :
    (s.setParameters ps).hasWifiConnectionCallback = s.hasWifiConnectionCallback := by
  unfold setParameters; split <;> rfl

@[simp] theorem setParameters_hasConfigSavedCallback (s : EspWifi) (ps : List EspWifiParameter) :
    (s.setParameters ps).hasConfigSavedCallback = s.hasConfigSavedCallback := by
  unfold setParameters; split <;> rfl

@[simp] theorem setParameters_formValidator (s : EspWifi) (ps : List EspWifiParameter) :
    (s.setParameters ps).formValidator = s.formValidator := by
  unfold setParameters; split <;> rfl

@[simp] theorem setParameters_wifiConnectionFailureHandler (s : EspWifi) (ps : List EspWifiParameter) :
    (s.setParameters ps).wifiConnectionFailureHandler = s.wifiConnectionFailureHandler := by
  unfold setParameters; split <;> rfl

@[simp] theorem setParameters_internalBlinkOnMs (s : EspWifi) (ps : List EspWifiParameter) :
    (s.setParameters ps).internalBlinkOnMs = s.internalBlinkOnMs := by
  unfold setParameters; split <;> rfl

@[simp] theorem setParameters_internalBlinkOffMs (s : EspWifi) (ps : List EspWifiParameter) :
    (s.setParameters ps).internalBlinkOffMs = s.internalBlinkOffMs := by
  unfold setParameters; split <;> rfl

@[simp] theorem setParameters_blinkOnMs (s : EspWifi) (ps : List EspWifiParameter) :
    (s.setParameters ps).blinkOnMs = s.blinkOnMs := by
  unfold setParameters; split <;> rfl

@[simp] theorem setParameters_blinkOffMs (s : EspWifi) (ps : List EspWifiParameter) :
    (s.setParameters ps).blinkOffMs = s.blinkOffMs := by
  unfold setParameters; split <;> rfl

@[simp] theorem setParameters_blinkState (s : EspWifi) (ps : List EspWifiParameter) :
    (s.setParameters ps).blinkState = s.blinkState := by
  unfold setParameters; split <;> rfl

@[simp] theorem setParameters_lastBlinkTime (s : EspWifi) (ps : List EspWifiParameter) :
    (s.setParameters ps).lastBlinkTime = s.lastBlinkTime := by
  unfold setParameters; split <;> rfl

@[simp] theorem setParameters_wifiConnectionStart (s : EspWifi) (ps : List EspWifiParameter) :
    (s.setParameters ps).wifiConnectionStart = s.wifiConnectionStart := by
  unfold setParameters; split <;> rfl

@[simp] theorem setParameters_wifiAuthInfo (s : EspWifi) (ps : List EspWifiParameter) :
    (s.setParameters ps).wifiAuthInfo = s.wifiAuthInfo := by
  unfold setParameters; split <;> rfl

@[simp] theorem setParameters_eeprom (s : EspWifi) (ps : List EspWifiParameter) :
    (s.setParameters ps).eeprom = s.eeprom := by
  unfold setParameters; split <;> rfl

@[simp] theorem setParameters_log (s : EspWifi) (ps : List EspWifiParameter) :
    (s.setParameters ps).log = s.log := by
  unfold setParameters; split <;> rfl

@[simp] theorem stopCustomBlink_initialApPassword (s : EspWifi) :
    (stopCustomBlink s).initialApPassword = s.initialApPassword := by
  rfl

@[simp] theorem stopCustomBlink_configVersion (s : EspWifi) :
    (stopCustomBlink s).configVersion = s.configVersion := by
  rfl

@[simp] theorem stopCustomBlink_hasUpdateServer (s : EspWifi) :
    (stopCustomBlink s).hasUpdateServer = s.hasUpdateServer := by
  rfl

@[simp] theorem stopCustomBlink_configPin (s : EspWifi) :
    (stopCustomBlink s).configPin = s.configPin := by
  rfl

@[simp] theorem stopCustomBlink_statusPin (s : EspWifi) :
    (stopCustomBlink s).statusPin = s.statusPin := by
  rfl

@[simp] theorem stopCustomBlink_hasUpdatePath (s : EspWifi) :
    (stopCustomBlink s).hasUpdatePath = s.hasUpdatePath := by
  rfl

@[simp] theorem stopCustomBlink_forceDefaultPassword (s : EspWifi) :
    (stopCustomBlink s).forceDefaultPassword = s.forceDefaultPassword := by
  rfl

@[simp] theorem stopCustomBlink_skipApStartup (s : EspWifi) :
    (stopCustomBlink s).skipApStartup = s.skipApStartup := by
  rfl

@[simp] theorem stopCustomBlink_thingNameParameter (s : EspWifi) :
    (stopCustomBlink s).thingNameParameter = s.thingNameParameter := by
  rfl

@[simp] theorem stopCustomBlink_apPasswordParameter (s : EspWifi) :
    (stopCustomBlink s).apPasswordParameter = s.apPasswordParameter := by
  rfl

@[simp] theorem stopCustomBlink_wifiSsidParameter (s : EspWifi) :
    (stopCustomBlink s).wifiSsidParameter = s.wifiSsidParameter := by
  rfl

@[simp] theorem stopCustomBlink_wifiPasswordParameter (s : EspWifi) :
    (stopCustomBlink s).wifiPasswordParameter = s.wifiPasswordParameter := by
  rfl

@[simp] theorem stopCustomBlink_apTimeoutParameter (s : EspWifi) :
    (stopCustomBlink s).apTimeoutParameter = s.apTimeoutParameter := by
  rfl

@[simp] theorem stopCustomBlink_userParameters (s : EspWifi) :
    (stopCustomBlink s).userParameters = s.userParameters := by
  rfl

@[simp] theorem stopCustomBlink_apTimeoutMs (s : EspWifi) :
    (stopCustomBlink s).apTimeoutMs = s.apTimeoutMs := by
  rfl

@[simp] theorem stopCustomBlink_wifiConnectionTimeoutMs (s : EspWifi) :
    (stopCustomBlink s).wifiConnectionTimeoutMs = s.wifiConnectionTimeoutMs := by
  rfl

@[simp] theorem stopCustomBlink_state (s : EspWifi) :
    (stopCustomBlink s).state = s.state := by
  rfl

@[simp] theorem stopCustomBlink_apStartTimeMs (s : EspWifi) :
    (stopCustomBlink s).apStartTimeMs = s.apStartTimeMs := by
  rfl

@[simp] theorem stopCustomBlink_apConnectionStatus (s : EspWifi) :
    (stopCustomBlink s).apConnectionStatus = s.apConnectionStatus := by
  rfl

@[simp] theorem stopCustomBlink_hasWifiConnectionCallback (s : EspWifi) :
    (stopCustomBlink s).hasWifiConnectionCallback = s.hasWifiConnectionCallback := by
  rfl

@[simp] theorem stopCustomBlink_hasConfigSavedCallback (s : EspWifi) :
    (stopCustomBlink s).hasConfigSavedCallback = s.hasConfigSavedCallback := by
  rfl

@[simp] theorem stopCustomBlink_formValidator (s : EspWifi) :
    (stopCustomBlink s).formValidator = s.formValidator := by
  rfl

@[simp] theorem stopCustomBlink_wifiConnectionFailureHandler (s : EspWifi) :
    (stopCustomBlink s).wifiConnectionFailureHandler = s.wifiConnectionFailureHandler := by
  rfl

@[simp] theorem stopCustomBlink_internalBlinkOnMs (s : EspWifi) :
    (stopCustomBlink s).internalBlinkOnMs = s.internalBlinkOnMs := by
  rfl

@[simp] theorem stopCustomBlink_internalBlinkOffMs (s : EspWifi) :
    (stopCustomBlink s).internalBlinkOffMs = s.internalBlinkOffMs := by
  rfl

@[simp] theorem stopCustomBlink_blinkState (s : EspWifi) :
    (stopCustomBlink s).blinkState = s.blinkState := by
  rfl

@[simp] theorem stopCustomBlink_lastBlinkTime (s : EspWifi) :
    (stopCustomBlink s).lastBlinkTime = s.lastBlinkTime := by
  rfl

@[simp] theorem stopCustomBlink_wifiConnectionStart (s : EspWifi) :
    (stopCustomBlink s).wifiConnectionStart = s.wifiConnectionStart := by
  rfl

@[simp] theorem stopCustomBlink_wifiAuthInfo (s : EspWifi) :
    (stopCustomBlink s).wifiAuthInfo = s.wifiAuthInfo := by
  rfl

@[simp] theorem stopCustomBlink_eeprom (s : EspWifi) :
    (stopCustomBlink s).eeprom = s.eeprom := by
  rfl

@[simp] theorem stopCustomBlink_log (s : EspWifi) :
    (stopCustomBlink s).log = s.log := by
  rfl

@[simp] theorem blink_initialApPassword (r d : Nat) (s : EspWifi) :
    (blink r d s).initialApPassword = s.initialApPassword := by
  unfold blink; split <;> rfl

@[simp] theorem blink_configVersion (r d : Nat) (s : EspWifi) :
    (blink r d s).configVersion = s.configVersion := by
  unfold blink; split <;> rfl

@[simp] theorem blink_hasUpdateServer (r d : Nat) (s : EspWifi) :
    (blink r d s).hasUpdateServer = s.hasUpdateServer := by
  unfold blink; split <;> rfl

@[simp] theorem blink_configPin (r d : Nat) (s : EspWifi) :
    (blink r d s).configPin = s.configPin := by
  unfold blink; split <;> rfl

@[simp] theorem blink_statusPin (r d : Nat) (s : EspWifi) :
    (blink r d s).statusPin = s.statusPin := by
  unfold blink; split <;> rfl

@[simp] theorem blink_hasUpdatePath (r d : Nat) (s : EspWifi) :
    (blink r d s).hasUpdatePath = s.hasUpdatePath := by
  unfold blink; split <;> rfl

@[simp] theorem blink_forceDefaultPassword (r d : Nat) (s : EspWifi) :
    (blink r d s).forceDefaultPassword = s.forceDefaultPassword := by
  unfold blink; split <;> rfl

@[simp] theorem blink_skipApStartup (r d : Nat) (s : EspWifi) :
    (blink r d s).skipApStartup = s.skipApStartup := by
  unfold blink; split <;> rfl

@[simp] theorem blink_thingNameParameter (r d : Nat) (s : EspWifi) :
    (blink r d s).thingNameParameter = s.thingNameParameter := by
  unfold blink; split <;> rfl

@[simp] theorem blink_apPasswordParameter (r d : Nat) (s : EspWifi) :
    (blink r d s).apPasswordParameter = s.apPasswordParameter := by
  unfold blink; split <;> rfl

@[simp] theorem blink_wifiSsidParameter (r d : Nat) (s : EspWifi) :
    (blink r d s).wifiSsidParameter = s.wifiSsidParameter := by
  unfold blink; split <;> rfl

@[simp] theorem blink_wifiPasswordParameter (r d : Nat) (s : EspWifi) :
    (blink r d s).wifiPasswordParameter = s.wifiPasswordParameter := by
  unfold blink; split <;> rfl

@[simp] theorem blink_apTimeoutParameter (r d : Nat) (s : EspWifi) :
    (blink r d s).apTimeoutParameter = s.apTimeoutParameter := by
  unfold blink; split <;> rfl

@[simp] theorem blink_userParameters (r d : Nat) (s : EspWifi) :
    (blink r d s).userParameters = s.userParameters := by
  unfold blink; split <;> rfl

@[simp] theorem blink_apTimeoutMs (r d : Nat) (s : EspWifi) :
    (blink r d s).apTimeoutMs = s.apTimeoutMs := by
  unfold blink; split <;> rfl

@[simp] theorem blink_wifiConnectionTimeoutMs (r d : Nat) (s : EspWifi) :
    (blink r d s).wifiConnectionTimeoutMs = s.wifiConnectionTimeoutMs := by
  unfold blink; split <;> rfl

@[simp] theorem blink_state (r d : Nat) (s : EspWifi) :
    (blink r d s).state = s.state := by
  unfold blink; split <;> rfl

@[simp] theorem blink_apStartTimeMs (r d : Nat) (s : EspWifi) :
    (blink r d s).apStartTimeMs = s.apStartTimeMs := by
  unfold blink; split <;> rfl

@[simp] theorem blink_apConnectionStatus (r d : Nat) (s : EspWifi) :
    (blink r d s).apConnectionStatus = s.apConnectionStatus := by
  unfold blink; split <;> rfl

@[simp] theorem blink_hasWifiConnectionCallback (r d : Nat) (s : EspWifi) :
    (blink r d s).hasWifiConnectionCallback = s.hasWifiConnectionCallback := by
  unfold blink; split <;> rfl

@[simp] theorem blink_hasConfigSavedCallback (r d : Nat) (s : EspWifi) :
    (blink r d s).hasConfigSavedCallback = s.hasConfigSavedCallback := by
  unfold blink; split <;> rfl

@[simp] theorem blink_formValidator (r d : Nat) (s : EspWifi) :
    (blink r d s).formValidator = s.formValidator := by
  unfold blink; split <;> rfl

@[simp] theorem blink_wifiConnectionFailureHandler (r d : Nat) (s : EspWifi) :
    (blink r d s).wifiConnectionFailureHandler = s.wifiConnectionFailureHandler := by
  unfold blink; split <;> rfl

@[simp] theorem blink_internalBlinkOnMs (r d : Nat) (s : EspWifi) :
    (blink r d s).internalBlinkOnMs = s.internalBlinkOnMs := by
  unfold blink; split <;> rfl

@[simp] theorem blink_internalBlinkOffMs (r d : Nat) (s : EspWifi) :
    (blink r d s).internalBlinkOffMs = s.internalBlinkOffMs := by
  unfold blink; split <;> rfl

@[simp] theorem blink_blinkState (r d : Nat) (s : EspWifi) :
    (blink r d s).blinkState = s.blinkState := by
  unfold blink; split <;> rfl

@[simp] theorem blink_lastBlinkTime (r d : Nat) (s : EspWifi) :
    (blink r d s).lastBlinkTime = s.lastBlinkTime := by
  unfold blink; split <;> rfl

@[simp] theorem blink_wifiConnectionStart (r d : Nat) (s : EspWifi) :
    (blink r d s).wifiConnectionStart = s.wifiConnectionStart := by
  unfold blink; split <;> rfl

@[simp] theorem blink_wifiAuthInfo (r d : Nat) (s : EspWifi) :
    (blink r d s).wifiAuthInfo = s.wifiAuthInfo := by
  unfold blink; split <;> rfl

@[simp] theorem blink_eeprom (r d : Nat) (s : EspWifi) :
    (blink r d s).eeprom = s.eeprom := by
  unfold blink; split <;> rfl

@[simp] theorem blink_log (r d : Nat) (s : EspWifi) :
    (blink r d s).log = s.log := by
  unfold blink; split <;> rfl

@[simp] theorem fineBlink_initialApPassword (a b : Nat) (s : EspWifi) :
    (fineBlink a b s).initialApPassword = s.initialApPassword := by
  rfl

@[simp] theorem fineBlink_configVersion (a b : Nat) (s : EspWifi) :
    (fineBlink a b s).configVersion = s.configVersion := by
  rfl

@[simp] theorem fineBlink_hasUpdateServer (a b : Nat) (s : EspWifi) :
    (fineBlink a b s).hasUpdateServer = s.hasUpdateServer := by
  rfl

@[simp] theorem fineBlink_configPin (a b : Nat) (s : EspWifi) :
    (fineBlink a b s).configPin = s.configPin := by
  rfl

@[simp] theorem fineBlink_statusPin (a b : Nat) (s : EspWifi) :
    (fineBlink a b s).statusPin = s.statusPin := by
  rfl

@[simp] theorem fineBlink_hasUpdatePath (a b : Nat) (s : EspWifi) :
    (fineBlink a b s).hasUpdatePath = s.hasUpdatePath := by
  rfl

@[simp] theorem fineBlink_forceDefaultPassword (a b : Nat) (s : EspWifi) :
    (fineBlink a b s).forceDefaultPassword = s.forceDefaultPassword := by
  rfl

@[simp] theorem fineBlink_skipApStartup (a b : Nat) (s : EspWifi) :
    (fineBlink a b s).skipApStartup = s.skipApStartup := by
  rfl

@[simp] theorem fineBlink_thingNameParameter (a b : Nat) (s : EspWifi) :
    (fineBlink a b s).thingNameParameter = s.thingNameParameter := by
  rfl

@[simp] theorem fineBlink_apPasswordParameter (a b : Nat) (s : EspWifi) :
    (fineBlink a b s).apPasswordParameter = s.apPasswordParameter := by
  rfl

@[simp] theorem fineBlink_wifiSsidParameter (a b : Nat) (s : EspWifi) :
    (fineBlink a b s).wifiSsidParameter = s.wifiSsidParameter := by
  rfl

@[simp] theorem fineBlink_wifiPasswordParameter (a b : Nat) (s : EspWifi) :
    (fineBlink a b s).wifiPasswordParameter = s.wifiPasswordParameter := by
  rfl

@[simp] theorem fineBlink_apTimeoutParameter (a b : Nat) (s : EspWifi) :
    (fineBlink a b s).apTimeoutParameter = s.apTimeoutParameter := by
  rfl

@[simp] theorem fineBlink_userParameters (a b : Nat) (s : EspWifi) :
    (fineBlink a b s).userParameters = s.userParameters := by
  rfl

@[simp] theorem fineBlink_apTimeoutMs (a b : Nat) (s : EspWifi) :
    (fineBlink a b s).apTimeoutMs = s.apTimeoutMs := by
  rfl

@[simp] theorem fineBlink_wifiConnectionTimeoutMs (a b : Nat) (s : EspWifi) :
    (fineBlink a b s).wifiConnectionTimeoutMs = s.wifiConnectionTimeoutMs := by
  rfl

@[simp] theorem fineBlink_state (a b : Nat) (s : EspWifi) :
    (fineBlink a b s).state = s.state := by
  rfl

@[simp] theorem fineBlink_apStartTimeMs (a b : Nat) (s : EspWifi) :
    (fineBlink a b s).apStartTimeMs = s.apStartTimeMs := by
  rfl

@[simp] theorem fineBlink_apConnectionStatus (a b : Nat) (s : EspWifi) :
    (fineBlink a b s).apConnectionStatus = s.apConnectionStatus := by
  rfl

@[simp] theorem fineBlink_hasWifiConnectionCallback (a b : Nat) (s : EspWifi) :
    (fineBlink a b s).hasWifiConnectionCallback = s.hasWifiConnectionCallback := by
  rfl

@[simp] theorem fineBlink_hasConfigSavedCallback (a b : Nat) (s : EspWifi) :
    (fineBlink a b s).hasConfigSavedCallback = s.hasConfigSavedCallback := by
  rfl

@[simp] theorem fineBlink_formValidator (a b : Nat) (s : EspWifi) :
    (fineBlink a b s).formValidator = s.formValidator := by
  rfl

@[simp] theorem fineBlink_wifiConnectionFailureHandler (a b : Nat) (s : EspWifi) :
    (fineBlink a b s).wifiConnectionFailureHandler = s.wifiConnectionFailureHandler := by
  rfl

@[simp] theorem fineBlink_internalBlinkOnMs (a b : Nat) (s : EspWifi) :
    (fineBlink a b s).internalBlinkOnMs = s.internalBlinkOnMs := by
  rfl

@[simp] theorem fineBlink_internalBlinkOffMs (a b : Nat) (s : EspWifi) :
    (fineBlink a b s).internalBlinkOffMs = s.internalBlinkOffMs := by
  rfl

@[simp] theorem fineBlink_blinkState (a b : Nat) (s : EspWifi) :
    (fineBlink a b s).blinkState = s.blinkState := by
  rfl

@[simp] theorem fineBlink_lastBlinkTime (a b : Nat) (s : EspWifi) :
    (fineBlink a b s).lastBlinkTime = s.lastBlinkTime := by
  rfl

@[simp] theorem fineBlink_wifiConnectionStart (a b : Nat) (s : EspWifi) :
    (fineBlink a b s).wifiConnectionStart = s.wifiConnectionStart := by
  rfl

@[simp] theorem fineBlink_wifiAuthInfo (a b : Nat) (s : EspWifi) :
    (fineBlink a b s).wifiAuthInfo = s.wifiAuthInfo := by
  rfl

@[simp] theorem fineBlink_eeprom (a b : Nat) (s : EspWifi) :
    (fineBlink a b s).eeprom = s.eeprom := by
  rfl

@[simp] theorem fineBlink_log (a b : Nat) (s : EspWifi) :
    (fineBlink a b s).log = s.log := by
  rfl

@[simp] theorem blinkInternal_initialApPassword (r d : Nat) (s : EspWifi) :
    (blinkInternal r d s).initialApPassword = s.initialApPassword := by
  unfold blinkInternal blink; split <;> rfl

@[simp] theorem blinkInternal_configVersion (r d : Nat) (s : EspWifi) :
    (blinkInternal r d s).configVersion = s.configVersion := by
  unfold blinkInternal blink; split <;> rfl

@[simp] theorem blinkInternal_hasUpdateServer (r d : Nat) (s : EspWifi) :
    (blinkInternal r d s).hasUpdateServer = s.hasUpdateServer := by
  unfold blinkInternal blink; split <;> rfl

@[simp] theorem blinkInternal_configPin (r d : Nat) (s : EspWifi) :
    (blinkInternal r d s).configPin = s.configPin := by
  unfold blinkInternal blink; split <;> rfl

@[simp] theorem blinkInternal_statusPin (r d : Nat) (s : EspWifi) :
    (blinkInternal r d s).statusPin = s.statusPin := by
  unfold blinkInternal blink; split <;> rfl

@[simp] theorem blinkInternal_hasUpdatePath (r d : Nat) (s : EspWifi) :
    (blinkInternal r d s).hasUpdatePath = s.hasUpdatePath := by
  unfold blinkInternal blink; split <;> rfl

@[simp] theorem blinkInternal_forceDefaultPassword (r d : Nat) (s : EspWifi) :
    (blinkInternal r d s).forceDefaultPassword = s.forceDefaultPassword := by
  unfold blinkInternal blink; split <;> rfl

@[simp] theorem blinkInternal_skipApStartup (r d : Nat) (s : EspWifi) :
    (blinkInternal r d s).skipApStartup = s.skipApStartup := by
  unfold blinkInternal blink; split <;> rfl

@[simp] theorem blinkInternal_thingNameParameter (r d : Nat) (s : EspWifi) :
    (blinkInternal r d s).thingNameParameter = s.thingNameParameter := by
  unfold blinkInternal blink; split <;> rfl

@[simp] theorem blinkInternal_apPasswordParameter (r d : Nat) (s : EspWifi) :
    (blinkInternal r d s).apPasswordParameter = s.apPasswordParameter := by
  unfold blinkInternal blink; split <;> rfl

@[simp] theorem blinkInternal_wifiSsidParameter (r d : Nat) (s : EspWifi) :
    (blinkInternal r d s).wifiSsidParameter = s.wifiSsidParameter := by
  unfold blinkInternal blink; split <;> rfl

@[simp] theorem blinkInternal_wifiPasswordParameter (r d : Nat) (s : EspWifi) :
    (blinkInternal r d s).wifiPasswordParameter = s.wifiPasswordParameter := by
  unfold blinkInternal blink; split <;> rfl

@[simp] theorem blinkInternal_apTimeoutParameter (r d : Nat) (s : EspWifi) :
    (blinkInternal r d s).apTimeoutParameter = s.apTimeoutParameter := by
  unfold blinkInternal blink; split <;> rfl

@[simp] theorem blinkInternal_userParameters (r d : Nat) (s : EspWifi) :
    (blinkInternal r d s).userParameters = s.userParameters := by
  unfold blinkInternal blink; split <;> rfl

@[simp] theorem blinkInternal_apTimeoutMs (r d : Nat) (s : EspWifi) :
    (blinkInternal r d s).apTimeoutMs = s.apTimeoutMs := by
  unfold blinkInternal blink; split <;> rfl

@[simp] theorem blinkInternal_wifiConnectionTimeoutMs (r d : Nat) (s : EspWifi) :
    (blinkInternal r d s).wifiConnectionTimeoutMs = s.wifiConnectionTimeoutMs := by
  unfold blinkInternal blink; split <;> rfl

@[simp] theorem blinkInternal_state (r d : Nat) (s : EspWifi) :
    (blinkInternal r d s).state = s.state := by
  unfold blinkInternal blink; split <;> rfl

@[simp] theorem blinkInternal_apStartTimeMs (r d : Nat) (s : EspWifi) :
    (blinkInternal r d s).apStartTimeMs = s.apStartTimeMs := by
  unfold blinkInternal blink; split <;> rfl

@[simp] theorem blinkInternal_apConnectionStatus (r d : Nat) (s : EspWifi) :
    (blinkInternal r d s).apConnectionStatus = s.apConnectionStatus := by
  unfold blinkInternal blink; split <;> rfl

@[simp] theorem blinkInternal_hasWifiConnectionCallback (r d : Nat) (s : EspWifi) :
    (blinkInternal r d s).hasWifiConnectionCallback = s.hasWifiConnectionCallback := by
  unfold blinkInternal blink; split <;> rfl

@[simp] theorem blinkInternal_hasConfigSavedCallback (r d : Nat) (s : EspWifi) :
    (blinkInternal r d s).hasConfigSavedCallback = s.hasConfigSavedCallback := by
  unfold blinkInternal blink; split <;> rfl

@[simp] theorem blinkInternal_formValidator (r d : Nat) (s : EspWifi) :
    (blinkInternal r d s).formValidator = s.formValidator := by
  unfold blinkInternal blink; split <;> rfl

@[simp] theorem blinkInternal_wifiConnectionFailureHandler (r d : Nat) (s : EspWifi) :
    (blinkInternal r d s).wifiConnectionFailureHandler = s.wifiConnectionFailureHandler := by
  unfold blinkInternal blink; split <;> rfl

@[simp] theorem blinkInternal_blinkState (r d : Nat) (s : EspWifi) :
    (blinkInternal r d s).blinkState = s.blinkState := by
  unfold blinkInternal blink; split <;> rfl

@[simp] theorem blinkInternal_lastBlinkTime (r d : Nat) (s : EspWifi) :
    (blinkInternal r d s).lastBlinkTime = s.lastBlinkTime := by
  unfold blinkInternal blink; split <;> rfl

@[simp] theorem blinkInternal_wifiConnectionStart (r d : Nat) (s : EspWifi) :
    (blinkInternal r d s).wifiConnectionStart = s.wifiConnectionStart := by
  unfold blinkInternal blink; split <;> rfl

@[simp] theorem blinkInternal_wifiAuthInfo (r d : Nat) (s : EspWifi) :
    (blinkInternal r d s).wifiAuthInfo = s.wifiAuthInfo := by
  unfold blinkInternal blink; split <;> rfl

@[simp] theorem blinkInternal_eeprom (r d : Nat) (s : EspWifi) :
    (blinkInternal r d s).eeprom = s.eeprom := by
  unfold blinkInternal blink; split <;> rfl

@[simp] theorem blinkInternal_log (r d : Nat) (s : EspWifi) :
    (blinkInternal r d s).log = s.log := by
  unfold blinkInternal blink; split <;> rfl

@[simp] theorem doBlink_initialApPassword (now : Nat) (s : EspWifi) :
    (doBlink now s).initialApPassword = s.initialApPassword := by
  simp only [doBlink]; split_ifs <;> rfl

@[simp] theorem doBlink_configVersion (now : Nat) (s : EspWifi) :
    (doBlink now s).configVersion = s.configVersion := by
  simp only [doBlink]; split_ifs <;> rfl

@[simp] theorem doBlink_hasUpdateServer (now : Nat) (s : EspWifi) :
    (doBlink now s).hasUpdateServer = s.hasUpdateServer := by
  simp only [doBlink]; split_ifs <;> rfl

@[simp] theorem doBlink_configPin (now : Nat) (s : EspWifi) :
    (doBlink now s).configPin = s.configPin := by
  simp only [doBlink]; split_ifs <;> rfl

@[simp] theorem doBlink_statusPin (now : Nat) (s : EspWifi) :
    (doBlink now s).statusPin = s.statusPin := by
  simp only [doBlink]; split_ifs <;> rfl

@[simp] theorem doBlink_hasUpdatePath (now : Nat) (s : EspWifi) :
    (doBlink now s).hasUpdatePath = s.hasUpdatePath := by
  simp only [doBlink]; split_ifs <;> rfl

@[simp] theorem doBlink_forceDefaultPassword (now : Nat) (s : EspWifi) :
    (doBlink now s).forceDefaultPassword = s.forceDefaultPassword := by
  simp only [doBlink]; split_ifs <;> rfl

@[simp] theorem doBlink_skipApStartup (now : Nat) (s : EspWifi) :
    (doBlink now s).skipApStartup = s.skipApStartup := by
  simp only [doBlink]; split_ifs <;> rfl

@[simp] theorem doBlink_thingNameParameter (now : Nat) (s : EspWifi) :
    (doBlink now s).thingNameParameter = s.thingNameParameter := by
  simp only [doBlink]; split_ifs <;> rfl

@[simp] theorem doBlink_apPasswordParameter (now : Nat) (s : EspWifi) :
    (doBlink now s).apPasswordParameter = s.apPasswordParameter := by
  simp only [doBlink]; split_ifs <;> rfl

@[simp] theorem doBlink_wifiSsidParameter (now : Nat) (s : EspWifi) :
    (doBlink now s).wifiSsidParameter = s.wifiSsidParameter := by
  simp only [doBlink]; split_ifs <;> rfl

@[simp] theorem doBlink_wifiPasswordParameter (now : Nat) (s : EspWifi) :
    (doBlink now s).wifiPasswordParameter = s.wifiPasswordParameter := by
  simp only [doBlink]; split_ifs <;> rfl

@[simp] theorem doBlink_apTimeoutParameter (now : Nat) (s : EspWifi) :
    (doBlink now s).apTimeoutParameter = s.apTimeoutParameter := by
  simp only [doBlink]; split_ifs <;> rfl

@[simp] theorem doBlink_userParameters (now : Nat) (s : EspWifi) :
    (doBlink now s).userParameters = s.userParameters := by
  simp only [doBlink]; split_ifs <;> rfl

@[simp] theorem doBlink_apTimeoutMs (now : Nat) (s : EspWifi) :
    (doBlink now s).apTimeoutMs = s.apTimeoutMs := by
  simp only [doBlink]; split_ifs <;> rfl

@[simp] theorem doBlink_wifiConnectionTimeoutMs (now : Nat) (s : EspWifi) :
    (doBlink now s).wifiConnectionTimeoutMs = s.wifiConnectionTimeoutMs := by
  simp only [doBlink]; split_ifs <;> rfl

@[simp] theorem doBlink_state (now : Nat) (s : EspWifi) :
    (doBlink now s).state = s.state := by
  simp only [doBlink]; split_ifs <;> rfl

@[simp] theorem doBlink_apStartTimeMs (now : Nat) (s : EspWifi) :
    (doBlink now s).apStartTimeMs = s.apStartTimeMs := by
  simp only [doBlink]; split_ifs <;> rfl

@[simp] theorem doBlink_apConnectionStatus (now : Nat) (s : EspWifi) :
    (doBlink now s).apConnectionStatus = s.apConnectionStatus := by
  simp only [doBlink]; split_ifs <;> rfl

@[simp] theorem doBlink_hasWifiConnectionCallback (now : Nat) (s : EspWifi) :
    (doBlink now s).hasWifiConnectionCallback = s.hasWifiConnectionCallback := by
  simp only [doBlink]; split_ifs <;> rfl

@[simp] theorem doBlink_hasConfigSavedCallback (now : Nat) (s : EspWifi) :
    (doBlink now s).hasConfigSavedCallback = s.hasConfigSavedCallback := by
  simp only [doBlink]; split_ifs <;> rfl

@[simp] theorem doBlink_formValidator (now : Nat) (s : EspWifi) :
    (doBlink now s).formValidator = s.formValidator := by
  simp only [doBlink]; split_ifs <;> rfl

@[simp] theorem doBlink_wifiConnectionFailureHandler (now : Nat) (s : EspWifi) :
    (doBlink now s).wifiConnectionFailureHandler = s.wifiConnectionFailureHandler := by
  simp only [doBlink]; split_ifs <;> rfl

@[simp] theorem doBlink_internalBlinkOnMs (now : Nat) (s : EspWifi) :
    (doBlink now s).internalBlinkOnMs = s.internalBlinkOnMs := by
  simp only [doBlink]; split_ifs <;> rfl

@[simp] theorem doBlink_internalBlinkOffMs (now : Nat) (s : EspWifi) :
    (doBlink now s).internalBlinkOffMs = s.internalBlinkOffMs := by
  simp only [doBlink]; split_ifs <;> rfl

@[simp] theorem doBlink_blinkOnMs (now : Nat) (s : EspWifi) :
    (doBlink now s).blinkOnMs = s.blinkOnMs := by
  simp only [doBlink]; split_ifs <;> rfl

@[simp] theorem doBlink_blinkOffMs (now : Nat) (s : EspWifi) :
    (doBlink now s).blinkOffMs = s.blinkOffMs := by
  simp only [doBlink]; split_ifs <;> rfl

@[simp] theorem doBlink_wifiConnectionStart (now : Nat) (s : EspWifi) :
    (doBlink now s).wifiConnectionStart = s.wifiConnectionStart := by
  simp only [doBlink]; split_ifs <;> rfl

@[simp] theorem doBlink_wifiAuthInfo (now : Nat) (s : EspWifi) :
    (doBlink now s).wifiAuthInfo = s.wifiAuthInfo := by
  simp only [doBlink]; split_ifs <;> rfl

@[simp] theorem doBlink_eeprom (now : Nat) (s : EspWifi) :
    (doBlink now s).eeprom = s.eeprom := by
  simp only [doBlink]; split_ifs <;> rfl

@[simp] theorem setupAp_initialApPassword (s : EspWifi) :
    (setupAp s).initialApPassword = s.initialApPassword := by
  unfold setupAp; split <;> rfl

@[simp] theorem setupAp_configVersion (s : EspWifi) :
    (setupAp s).configVersion = s.configVersion := by
  unfold setupAp; split <;> rfl

@[simp] theorem setupAp_hasUpdateServer (s : EspWifi) :
    (setupAp s).hasUpdateServer = s.hasUpdateServer := by
  unfold setupAp; split <;> rfl

@[simp] theorem setupAp_configPin (s : EspWifi) :
    (setupAp s).configPin = s.configPin := by
  unfold setupAp; split <;> rfl

@[simp] theorem setupAp_statusPin (s : EspWifi) :
    (setupAp s).statusPin = s.statusPin := by
  unfold setupAp; split <;> rfl

@[simp] theorem setupAp_hasUpdatePath (s : EspWifi) :
    (setupAp s).hasUpdatePath = s.hasUpdatePath := by
  unfold setupAp; split <;> rfl

@[simp] theorem setupAp_forceDefaultPassword (s : EspWifi) :
    (setupAp s).forceDefaultPassword = s.forceDefaultPassword := by
  unfold setupAp; split <;> rfl

@[simp] theorem setupAp_skipApStartup (s : EspWifi) :
    (setupAp s).skipApStartup = s.skipApStartup := by
  unfold setupAp; split <;> rfl

@[simp] theorem setupAp_thingNameParameter (s : EspWifi) :
    (setupAp s).thingNameParameter = s.thingNameParameter := by
  unfold setupAp; split <;> rfl

@[simp] theorem setupAp_apPasswordParameter (s : EspWifi) :
    (setupAp s).apPasswordParameter = s.apPasswordParameter := by
  unfold setupAp; split <;> rfl

@[simp] theorem setupAp_wifiSsidParameter (s : EspWifi) :
    (setupAp s).wifiSsidParameter = s.wifiSsidParameter := by
  unfold setupAp; split <;> rfl

@[simp] theorem setupAp_wifiPasswordParameter (s : EspWifi) :
    (setupAp s).wifiPasswordParameter = s.wifiPasswordParameter := by
  unfold setupAp; split <;> rfl

@[simp] theorem setupAp_apTimeoutParameter (s : EspWifi) :
    (setupAp s).apTimeoutParameter = s.apTimeoutParameter := by
  unfold setupAp; split <;> rfl

@[simp] theorem setupAp_userParameters (s : EspWifi) :
    (setupAp s).userParameters = s.userParameters := by
  unfold setupAp; split <;> rfl

@[simp] theorem setupAp_apTimeoutMs (s : EspWifi) :
    (setupAp s).apTimeoutMs = s.apTimeoutMs := by
  unfold setupAp; split <;> rfl

@[simp] theorem setupAp_wifiConnectionTimeoutMs (s : EspWifi) :
    (setupAp s).wifiConnectionTimeoutMs = s.wifiConnectionTimeoutMs := by
  unfold setupAp; split <;> rfl

@[simp] theorem setupAp_state (s : EspWifi) :
    (setupAp s).state = s.state := by
  unfold setupAp; split <;> rfl

@[simp] theorem setupAp_apStartTimeMs (s : EspWifi) :
    (setupAp s).apStartTimeMs = s.apStartTimeMs := by
  unfold setupAp; split <;> rfl

@[simp] theorem setupAp_apConnectionStatus (s : EspWifi) :
    (setupAp s).apConnectionStatus = s.apConnectionStatus := by
  unfold setupAp; split <;> rfl

@[simp] theorem setupAp_hasWifiConnectionCallback (s : EspWifi) :
    (setupAp s).hasWifiConnectionCallback = s.hasWifiConnectionCallback := by
  unfold setupAp; split <;> rfl

@[simp] theorem setupAp_hasConfigSavedCallback (s : EspWifi) :
    (setupAp s).hasConfigSavedCallback = s.hasConfigSavedCallback := by
  unfold setupAp; split <;> rfl

@[simp] theorem setupAp_formValidator (s : EspWifi) :
    (setupAp s).formValidator = s.formValidator := by
  unfold setupAp; split <;> rfl

@[simp] theorem setupAp_wifiConnectionFailureHandler (s : EspWifi) :
    (setupAp s).wifiConnectionFailureHandler = s.wifiConnectionFailureHandler := by
  unfold setupAp; split <;> rfl

@[simp] theorem setupAp_internalBlinkOnMs (s : EspWifi) :
    (setupAp s).internalBlinkOnMs = s.internalBlinkOnMs := by
  unfold setupAp; split <;> rfl

@[simp] theorem setupAp_internalBlinkOffMs (s : EspWifi) :
    (setupAp s).internalBlinkOffMs = s.internalBlinkOffMs := by
  unfold setupAp; split <;> rfl

@[simp] theorem setupAp_blinkOnMs (s : EspWifi) :
    (setupAp s).blinkOnMs = s.blinkOnMs := by
  unfold setupAp; split <;> rfl

@[simp] theorem setupAp_blinkOffMs (s : EspWifi) :
    (setupAp s).blinkOffMs = s.blinkOffMs := by
  unfold setupAp; split <;> rfl

@[simp] theorem setupAp_blinkState (s : EspWifi) :
    (setupAp s).blinkState = s.blinkState := by
  unfold setupAp; split <;> rfl

@[simp] theorem setupAp_lastBlinkTime (s : EspWifi) :
    (setupAp s).lastBlinkTime = s.lastBlinkTime := by
  unfold setupAp; split <;> rfl

@[simp] theorem setupAp_wifiConnectionStart (s : EspWifi) :
    (setupAp s).wifiConnectionStart = s.wifiConnectionStart := by
  unfold setupAp; split <;> rfl

@[simp] theorem setupAp_wifiAuthInfo (s : EspWifi) :
    (setupAp s).wifiAuthInfo = s.wifiAuthInfo := by
  unfold setupAp; split <;> rfl

@[simp] theorem setupAp_eeprom (s : EspWifi) :
    (setupAp s).eeprom = s.eeprom := by
  unfold setupAp; split <;> rfl

@[simp] theorem stopAp_initialApPassword (s : EspWifi) :
    (stopAp s).initialApPassword = s.initialApPassword := by
  rfl

@[simp] theorem stopAp_configVersion (s : EspWifi) :
    (stopAp s).configVersion = s.configVersion := by
  rfl

@[simp] theorem stopAp_hasUpdateServer (s : EspWifi) :
    (stopAp s).hasUpdateServer = s.hasUpdateServer := by
  rfl

@[simp] theorem stopAp_configPin (s : EspWifi) :
    (stopAp s).configPin = s.configPin := by
  rfl

@[simp] theorem stopAp_statusPin (s : EspWifi) :
    (stopAp s).statusPin = s.statusPin := by
  rfl

@[simp] theorem stopAp_hasUpdatePath (s : EspWifi) :
    (stopAp s).hasUpdatePath = s.hasUpdatePath := by
  rfl

@[simp] theorem stopAp_forceDefaultPassword (s : EspWifi) :
    (stopAp s).forceDefaultPassword = s.forceDefaultPassword := by
  rfl

@[simp] theorem stopAp_skipApStartup (s : EspWifi) :
    (stopAp s).skipApStartup = s.skipApStartup := by
  rfl

@[simp] theorem stopAp_thingNameParameter (s : EspWifi) :
    (stopAp s).thingNameParameter = s.thingNameParameter := by
  rfl

@[simp] theorem stopAp_apPasswordParameter (s : EspWifi) :
    (stopAp s).apPasswordParameter = s.apPasswordParameter := by
  rfl

@[simp] theorem stopAp_wifiSsidParameter (s : EspWifi) :
    (stopAp s).wifiSsidParameter = s.wifiSsidParameter := by
  rfl

@[simp] theorem stopAp_wifiPasswordParameter (s : EspWifi) :
    (stopAp s).wifiPasswordParameter = s.wifiPasswordParameter := by
  rfl

@[simp] theorem stopAp_apTimeoutParameter (s : EspWifi) :
    (stopAp s).apTimeoutParameter = s.apTimeoutParameter := by
  rfl

@[simp] theorem stopAp_userParameters (s : EspWifi) :
    (stopAp s).userParameters = s.userParameters := by
  rfl

@[simp] theorem stopAp_apTimeoutMs (s : EspWifi) :
    (stopAp s).apTimeoutMs = s.apTimeoutMs := by
  rfl

@[simp] theorem stopAp_wifiConnectionTimeoutMs (s : EspWifi) :
    (stopAp s).wifiConnectionTimeoutMs = s.wifiConnectionTimeoutMs := by
  rfl

@[simp] theorem stopAp_state (s : EspWifi) :
    (stopAp s).state = s.state := by
  rfl

@[simp] theorem stopAp_apStartTimeMs (s : EspWifi) :
    (stopAp s).apStartTimeMs = s.apStartTimeMs := by
  rfl

@[simp] theorem stopAp_apConnectionStatus (s : EspWifi) :
    (stopAp s).apConnectionStatus = s.apConnectionStatus := by
  rfl

@[simp] theorem stopAp_hasWifiConnectionCallback (s : EspWifi) :
    (stopAp s).hasWifiConnectionCallback = s.hasWifiConnectionCallback := by
  rfl

@[simp] theorem stopAp_hasConfigSavedCallback (s : EspWifi) :
    (stopAp s).hasConfigSavedCallback = s.hasConfigSavedCallback := by
  rfl

@[simp] theorem stopAp_formValidator (s : EspWifi) :
    (stopAp s).formValidator = s.formValidator := by
  rfl

@[simp] theorem stopAp_wifiConnectionFailureHandler (s : EspWifi) :
    (stopAp s).wifiConnectionFailureHandler = s.wifiConnectionFailureHandler := by
  rfl

@[simp] theorem stopAp_internalBlinkOnMs (s : EspWifi) :
    (stopAp s).internalBlinkOnMs = s.internalBlinkOnMs := by
  rfl

@[simp] theorem stopAp_internalBlinkOffMs (s : EspWifi) :
    (stopAp s).internalBlinkOffMs = s.internalBlinkOffMs := by
  rfl

@[simp] theorem stopAp_blinkOnMs (s : EspWifi) :
    (stopAp s).blinkOnMs = s.blinkOnMs := by
  rfl

@[simp] theorem stopAp_blinkOffMs (s : EspWifi) :
    (stopAp s).blinkOffMs = s.blinkOffMs := by
  rfl

@[simp] theorem stopAp_blinkState (s : EspWifi) :
    (stopAp s).blinkState = s.blinkState := by
  rfl

@[simp] theorem stopAp_lastBlinkTime (s : EspWifi) :
    (stopAp s).lastBlinkTime = s.lastBlinkTime := by
  rfl

@[simp] theorem stopAp_wifiConnectionStart (s : EspWifi) :
    (stopAp s).wifiConnectionStart = s.wifiConnectionStart := by
  rfl

@[simp] theorem stopAp_wifiAuthInfo (s : EspWifi) :
    (stopAp s).wifiAuthInfo = s.wifiAuthInfo := by
  rfl

@[simp] theorem stopAp_eeprom (s : EspWifi) :
    (stopAp s).eeprom = s.eeprom := by
  rfl

@[simp] theorem stateChanged_initialApPassword (inp : TickInput) (o n : State) (s : EspWifi) :
    (stateChanged inp o n s).initialApPassword = s.initialApPassword := by
  cases n <;> simp only [stateChanged] <;> split_ifs <;> simp

@[simp] theorem stateChanged_configVersion (inp : TickInput) (o n : State) (s : EspWifi) :
    (stateChanged inp o n s).configVersion = s.configVersion := by
  cases n <;> simp only [stateChanged] <;> split_ifs <;> simp

@[simp] theorem stateChanged_hasUpdateServer (inp : TickInput) (o n : State) (s : EspWifi) :
    (stateChanged inp o n s).hasUpdateServer = s.hasUpdateServer := by
  cases n <;> simp only [stateChanged] <;> split_ifs <;> simp

@[simp] theorem stateChanged_configPin (inp : TickInput) (o n : State) (s : EspWifi) :
    (stateChanged inp o n s).configPin = s.configPin := by
  cases n <;> simp only [stateChanged] <;> split_ifs <;> simp

@[simp] theorem stateChanged_statusPin (inp : TickInput) (o n : State) (s : EspWifi) :
    (stateChanged inp o n s).statusPin = s.statusPin := by
  cases n <;> simp only [stateChanged] <;> split_ifs <;> simp

@[simp] theorem stateChanged_hasUpdatePath (inp : TickInput) (o n : State) (s : EspWifi) :
    (stateChanged inp o n s).hasUpdatePath = s.hasUpdatePath := by
  cases n <;> simp only [stateChanged] <;> split_ifs <;> simp

@[simp] theorem stateChanged_forceDefaultPassword (inp : TickInput) (o n : State) (s : EspWifi) :
    (stateChanged inp o n s).forceDefaultPassword = s.forceDefaultPassword := by
  cases n <;> simp only [stateChanged] <;> split_ifs <;> simp

@[simp] theorem stateChanged_skipApStartup (inp : TickInput) (o n : State) (s : EspWifi) :
    (stateChanged inp o n s).skipApStartup = s.skipApStartup := by
  cases n <;> simp only [stateChanged] <;> split_ifs <;> simp

@[simp] theorem stateChanged_thingNameParameter (inp : TickInput) (o n : State) (s : EspWifi) :
    (stateChanged inp o n s).thingNameParameter = s.thingNameParameter := by
  cases n <;> simp only [stateChanged] <;> split_ifs <;> simp

@[simp] theorem stateChanged_apPasswordParameter (inp : TickInput) (o n : State) (s : EspWifi) :
    (stateChanged inp o n s).apPasswordParameter = s.apPasswordParameter := by
  cases n <;> simp only [stateChanged] <;> split_ifs <;> simp

@[simp] theorem stateChanged_wifiSsidParameter (inp : TickInput) (o n : State) (s : EspWifi) :
    (stateChanged inp o n s).wifiSsidParameter = s.wifiSsidParameter := by
  cases n <;> simp only [stateChanged] <;> split_ifs <;> simp

@[simp] theorem stateChanged_wifiPasswordParameter (inp : TickInput) (o n : State) (s : EspWifi) :
    (stateChanged inp o n s).wifiPasswordParameter = s.wifiPasswordParameter := by
  cases n <;> simp only [stateChanged] <;> split_ifs <;> simp

@[simp] theorem stateChanged_apTimeoutParameter (inp : TickInput) (o n : State) (s : EspWifi) :
    (stateChanged inp o n s).apTimeoutParameter = s.apTimeoutParameter := by
  cases n <;> simp only [stateChanged] <;> split_ifs <;> simp

@[simp] theorem stateChanged_userParameters (inp : TickInput) (o n : State) (s : EspWifi) :
    (stateChanged inp o n s).userParameters = s.userParameters := by
  cases n <;> simp only [stateChanged] <;> split_ifs <;> simp

@[simp] theorem stateChanged_apTimeoutMs (inp : TickInput) (o n : State) (s : EspWifi) :
    (stateChanged inp o n s).apTimeoutMs = s.apTimeoutMs := by
  cases n <;> simp only [stateChanged] <;> split_ifs <;> simp

@[simp] theorem stateChanged_wifiConnectionTimeoutMs (inp : TickInput) (o n : State) (s : EspWifi) :
    (stateChanged inp o n s).wifiConnectionTimeoutMs = s.wifiConnectionTimeoutMs := by
  cases n <;> simp only [stateChanged] <;> split_ifs <;> simp

@[simp] theorem stateChanged_state (inp : TickInput) (o n : State) (s : EspWifi) :
    (stateChanged inp o n s).state = s.state := by
  cases n <;> simp only [stateChanged] <;> split_ifs <;> simp

@[simp] theorem stateChanged_hasWifiConnectionCallback (inp : TickInput) (o n : State) (s : EspWifi) :
    (stateChanged inp o n s).hasWifiConnectionCallback = s.hasWifiConnectionCallback := by
  cases n <;> simp only [stateChanged] <;> split_ifs <;> simp

@[simp] theorem stateChanged_hasConfigSavedCallback (inp : TickInput) (o n : State) (s : EspWifi) :
    (stateChanged inp o n s).hasConfigSavedCallback = s.hasConfigSavedCallback := by
  cases n <;> simp only [stateChanged] <;> split_ifs <;> simp

@[simp] theorem stateChanged_formValidator (inp : TickInput) (o n : State) (s : EspWifi) :
    (stateChanged inp o n s).formValidator = s.formValidator := by
  cases n <;> simp only [stateChanged] <;> split_ifs <;> simp

@[simp] theorem stateChanged_wifiConnectionFailureHandler (inp : TickInput) (o n : State) (s : EspWifi) :
    (stateChanged inp o n s).wifiConnectionFailureHandler = s.wifiConnectionFailureHandler := by
  cases n <;> simp only [stateChanged] <;> split_ifs <;> simp

@[simp] theorem stateChanged_blinkState (inp : TickInput) (o n : State) (s : EspWifi) :
    (stateChanged inp o n s).blinkState = s.blinkState := by
  cases n <;> simp only [stateChanged] <;> split_ifs <;> simp

@[simp] theorem stateChanged_lastBlinkTime (inp : TickInput) (o n : State) (s : EspWifi) :
    (stateChanged inp o n s).lastBlinkTime = s.lastBlinkTime := by
  cases n <;> simp only [stateChanged] <;> split_ifs <;> simp

@[simp] theorem stateChanged_wifiAuthInfo (inp : TickInput) (o n : State) (s : EspWifi) :
    (stateChanged inp o n s).wifiAuthInfo = s.wifiAuthInfo := by
  cases n <;> simp only [stateChanged] <;> split_ifs <;> simp

@[simp] theorem stateChanged_eeprom (inp : TickInput) (o n : State) (s : EspWifi) :
    (stateChanged inp o n s).eeprom = s.eeprom := by
  cases n <;> simp only [stateChanged] <;> split_ifs <;> simp

@[simp] theorem changeState_initialApPassword (inp : TickInput) (n : State) (s : EspWifi) :
    (changeState inp n s).initialApPassword = s.initialApPassword := by
  simp [changeState]

@[simp] theorem changeState_configVersion (inp : TickInput) (n : State) (s : EspWifi) :
    (changeState inp n s).configVersion = s.configVersion := by
  simp [changeState]

@[simp] theorem changeState_hasUpdateServer (inp : TickInput) (n : State) (s : EspWifi) :
    (changeState inp n s).hasUpdateServer = s.hasUpdateServer := by
  simp [changeState]

@[simp] theorem changeState_configPin (inp : TickInput) (n : State) (s : EspWifi) :
    (changeState inp n s).configPin = s.configPin := by
  simp [changeState]

@[simp] theorem changeState_statusPin (inp : TickInput) (n : State) (s : EspWifi) :
    (changeState inp n s).statusPin = s.statusPin := by
  simp [changeState]

@[simp] theorem changeState_hasUpdatePath (inp : TickInput) (n : State) (s : EspWifi) :
    (changeState inp n s).hasUpdatePath = s.hasUpdatePath := by
  simp [changeState]

@[simp] theorem changeState_forceDefaultPassword (inp : TickInput) (n : State) (s : EspWifi) :
    (changeState inp n s).forceDefaultPassword = s.forceDefaultPassword := by
  simp [changeState]

@[simp] theorem changeState_skipApStartup (inp : TickInput) (n : State) (s : EspWifi) :
    (changeState inp n s).skipApStartup = s.skipApStartup := by
  simp [changeState]

@[simp] theorem changeState_thingNameParameter (inp : TickInput) (n : State) (s : EspWifi) :
    (changeState inp n s).thingNameParameter = s.thingNameParameter := by
  simp [changeState]

@[simp] theorem changeState_apPasswordParameter (inp : TickInput) (n : State) (s : EspWifi) :
    (changeState inp n s).apPasswordParameter = s.apPasswordParameter := by
  simp [changeState]

@[simp] theorem changeState_wifiSsidParameter (inp : TickInput) (n : State) (s : EspWifi) :
    (changeState inp n s).wifiSsidParameter = s.wifiSsidParameter := by
  simp [changeState]

@[simp] theorem changeState_wifiPasswordParameter (inp : TickInput) (n : State) (s : EspWifi) :
    (changeState inp n s).wifiPasswordParameter = s.wifiPasswordParameter := by
  simp [changeState]

@[simp] theorem changeState_apTimeoutParameter (inp : TickInput) (n : State) (s : EspWifi) :
    (changeState inp n s).apTimeoutParameter = s.apTimeoutParameter := by
  simp [changeState]

@[simp] theorem changeState_userParameters (inp : TickInput) (n : State) (s : EspWifi) :
    (changeState inp n s).userParameters = s.userParameters := by
  simp [changeState]

@[simp] theorem changeState_apTimeoutMs (inp : TickInput) (n : State) (s : EspWifi) :
    (changeState inp n s).apTimeoutMs = s.apTimeoutMs := by
  simp [changeState]

@[simp] theorem changeState_wifiConnectionTimeoutMs (inp : TickInput) (n : State) (s : EspWifi) :
    (changeState inp n s).wifiConnectionTimeoutMs = s.wifiConnectionTimeoutMs := by
  simp [changeState]

@[simp] theorem changeState_hasWifiConnectionCallback (inp : TickInput) (n : State) (s : EspWifi) :
    (changeState inp n s).hasWifiConnectionCallback = s.hasWifiConnectionCallback := by
  simp [changeState]

@[simp] theorem changeState_hasConfigSavedCallback (inp : TickInput) (n : State) (s : EspWifi) :
    (changeState inp n s).hasConfigSavedCallback = s.hasConfigSavedCallback := by
  simp [changeState]

@[simp] theorem changeState_formValidator (inp : TickInput) (n : State) (s : EspWifi) :
    (changeState inp n s).formValidator = s.formValidator := by
  simp [changeState]

@[simp] theorem changeState_wifiConnectionFailureHandler (inp : TickInput) (n : State) (s : EspWifi) :
    (changeState inp n s).wifiConnectionFailureHandler = s.wifiConnectionFailureHandler := by
  simp [changeState]

@[simp] theorem changeState_blinkState (inp : TickInput) (n : State) (s : EspWifi) :
    (changeState inp n s).blinkState = s.blinkState := by
  simp [changeState]

@[simp] theorem changeState_lastBlinkTime (inp : TickInput) (n : State) (s : EspWifi) :
    (changeState inp n s).lastBlinkTime = s.lastBlinkTime := by
  simp [changeState]

@[simp] theorem changeState_wifiAuthInfo (inp : TickInput) (n : State) (s : EspWifi) :
    (changeState inp n s).wifiAuthInfo = s.wifiAuthInfo := by
  simp [changeState]

@[simp] theorem changeState_eeprom (inp : TickInput) (n : State) (s : EspWifi) :
    (changeState inp n s).eeprom = s.eeprom := by
  simp [changeState]

@[simp] theorem checkConnection_initialApPassword (inp : TickInput) (s : EspWifi) :
    (checkConnection inp s).initialApPassword = s.initialApPassword := by
  simp only [checkConnection]; split_ifs <;> rfl

@[simp] theorem checkConnection_configVersion (inp : TickInput) (s : EspWifi) :
    (checkConnection inp s).configVersion = s.configVersion := by
  simp only [checkConnection]; split_ifs <;> rfl

@[simp] theorem checkConnection_hasUpdateServer (inp : TickInput) (s : EspWifi) :
    (checkConnection inp s).hasUpdateServer = s.hasUpdateServer := by
  simp only [checkConnection]; split_ifs <;> rfl

@[simp] theorem checkConnection_configPin (inp : TickInput) (s : EspWifi) :
    (checkConnection inp s).configPin = s.configPin := by
  simp only [checkConnection]; split_ifs <;> rfl

@[simp] theorem checkConnection_statusPin (inp : TickInput) (s : EspWifi) :
    (checkConnection inp s).statusPin = s.statusPin := by
  simp only [checkConnection]; split_ifs <;> rfl

@[simp] theorem checkConnection_hasUpdatePath (inp : TickInput) (s : EspWifi) :
    (checkConnection inp s).hasUpdatePath = s.hasUpdatePath := by
  simp only [checkConnection]; split_ifs <;> rfl

@[simp] theorem checkConnection_skipApStartup (inp : TickInput) (s : EspWifi) :
    (checkConnection inp s).skipApStartup = s.skipApStartup := by
  simp only [checkConnection]; split_ifs <;> rfl

@[simp] theorem checkConnection_thingNameParameter (inp : TickInput) (s : EspWifi) :
    (checkConnection inp s).thingNameParameter = s.thingNameParameter := by
  simp only [checkConnection]; split_ifs <;> rfl

@[simp] theorem checkConnection_apPasswordParameter (inp : TickInput) (s : EspWifi) :
    (checkConnection inp s).apPasswordParameter = s.apPasswordParameter := by
  simp only [checkConnection]; split_ifs <;> rfl

@[simp] theorem checkConnection_wifiSsidParameter (inp : TickInput) (s : EspWifi) :
    (checkConnection inp s).wifiSsidParameter = s.wifiSsidParameter := by
  simp only [checkConnection]; split_ifs <;> rfl

@[simp] theorem checkConnection_wifiPasswordParameter (inp : TickInput) (s : EspWifi) :
    (checkConnection inp s).wifiPasswordParameter = s.wifiPasswordParameter := by
  simp only [checkConnection]; split_ifs <;> rfl

@[simp] theorem checkConnection_apTimeoutParameter (inp : TickInput) (s : EspWifi) :
    (checkConnection inp s).apTimeoutParameter = s.apTimeoutParameter := by
  simp only [checkConnection]; split_ifs <;> rfl

@[simp] theorem checkConnection_userParameters (inp : TickInput) (s : EspWifi) :
    (checkConnection inp s).userParameters = s.userParameters := by
  simp only [checkConnection]; split_ifs <;> rfl

@[simp] theorem checkConnection_apTimeoutMs (inp : TickInput) (s : EspWifi) :
    (checkConnection inp s).apTimeoutMs = s.apTimeoutMs := by
  simp only [checkConnection]; split_ifs <;> rfl

@[simp] theorem checkConnection_wifiConnectionTimeoutMs (inp : TickInput) (s : EspWifi) :
    (checkConnection inp s).wifiConnectionTimeoutMs = s.wifiConnectionTimeoutMs := by
  simp only [checkConnection]; split_ifs <;> rfl

@[simp] theorem checkConnection_state (inp : TickInput) (s : EspWifi) :
    (checkConnection inp s).state = s.state := by
  simp only [checkConnection]; split_ifs <;> rfl

@[simp] theorem checkConnection_apStartTimeMs (inp : TickInput) (s : EspWifi) :
    (checkConnection inp s).apStartTimeMs = s.apStartTimeMs := by
  simp only [checkConnection]; split_ifs <;> rfl

@[simp] theorem checkConnection_hasWifiConnectionCallback (inp : TickInput) (s : EspWifi) :
    (checkConnection inp s).hasWifiConnectionCallback = s.hasWifiConnectionCallback := by
  simp only [checkConnection]; split_ifs <;> rfl

@[simp] theorem checkConnection_hasConfigSavedCallback (inp : TickInput) (s : EspWifi) :
    (checkConnection inp s).hasConfigSavedCallback = s.hasConfigSavedCallback := by
  simp only [checkConnection]; split_ifs <;> rfl

@[simp] theorem checkConnection_formValidator (inp : TickInput) (s : EspWifi) :
    (checkConnection inp s).formValidator = s.formValidator := by
  simp only [checkConnection]; split_ifs <;> rfl

@[simp] theorem checkConnection_wifiConnectionFailureHandler (inp : TickInput) (s : EspWifi) :
    (checkConnection inp s).wifiConnectionFailureHandler = s.wifiConnectionFailureHandler := by
  simp only [checkConnection]; split_ifs <;> rfl

@[simp] theorem checkConnection_internalBlinkOnMs (inp : TickInput) (s : EspWifi) :
    (checkConnection inp s).internalBlinkOnMs = s.internalBlinkOnMs := by
  simp only [checkConnection]; split_ifs <;> rfl

@[simp] theorem checkConnection_internalBlinkOffMs (inp : TickInput) (s : EspWifi) :
    (checkConnection inp s).internalBlinkOffMs = s.internalBlinkOffMs := by
  simp only [checkConnection]; split_ifs <;> rfl

@[simp] theorem checkConnection_blinkOnMs (inp : TickInput) (s : EspWifi) :
    (checkConnection inp s).blinkOnMs = s.blinkOnMs := by
  simp only [checkConnection]; split_ifs <;> rfl

@[simp] theorem checkConnection_blinkOffMs (inp : TickInput) (s : EspWifi) :
    (checkConnection inp s).blinkOffMs = s.blinkOffMs := by
  simp only [checkConnection]; split_ifs <;> rfl

@[simp] theorem checkConnection_blinkState (inp : TickInput) (s : EspWifi) :
    (checkConnection inp s).blinkState = s.blinkState := by
  simp only [checkConnection]; split_ifs <;> rfl

@[simp] theorem checkConnection_lastBlinkTime (inp : TickInput) (s : EspWifi) :
    (checkConnection inp s).lastBlinkTime = s.lastBlinkTime := by
  simp only [checkConnection]; split_ifs <;> rfl

@[simp] theorem checkConnection_wifiConnectionStart (inp : TickInput) (s : EspWifi) :
    (checkConnection inp s).wifiConnectionStart = s.wifiConnectionStart := by
  simp only [checkConnection]; split_ifs <;> rfl

@[simp] theorem checkConnection_wifiAuthInfo (inp : TickInput) (s : EspWifi) :
    (checkConnection inp s).wifiAuthInfo = s.wifiAuthInfo := by
  simp only [checkConnection]; split_ifs <;> rfl

@[simp] theorem checkConnection_eeprom (inp : TickInput) (s : EspWifi) :
    (checkConnection inp s).eeprom = s.eeprom := by
  simp only [checkConnection]; split_ifs <;> rfl

@[simp] theorem checkConnection_log (inp : TickInput) (s : EspWifi) :
    (checkConnection inp s).log = s.log := by
  simp only [checkConnection]; split_ifs <;> rfl

@[simp] theorem checkApTimeout_initialApPassword (inp : TickInput) (s : EspWifi) :
    (checkApTimeout inp s).initialApPassword = s.initialApPassword := by
  simp only [checkApTimeout]; split_ifs <;> simp

@[simp] theorem checkApTimeout_configVersion (inp : TickInput) (s : EspWifi) :
    (checkApTimeout inp s).configVersion = s.configVersion := by
  simp only [checkApTimeout]; split_ifs <;> simp

@[simp] theorem checkApTimeout_hasUpdateServer (inp : TickInput) (s : EspWifi) :
    (checkApTimeout inp s).hasUpdateServer = s.hasUpdateServer := by
  simp only [checkApTimeout]; split_ifs <;> simp

@[simp] theorem checkApTimeout_configPin (inp : TickInput) (s : EspWifi) :
    (checkApTimeout inp s).configPin = s.configPin := by
  simp only [checkApTimeout]; split_ifs <;> simp

@[simp] theorem checkApTimeout_statusPin (inp : TickInput) (s : EspWifi) :
    (checkApTimeout inp s).statusPin = s.statusPin := by
  simp only [checkApTimeout]; split_ifs <;> simp

@[simp] theorem checkApTimeout_hasUpdatePath (inp : TickInput) (s : EspWifi) :
    (checkApTimeout inp s).hasUpdatePath = s.hasUpdatePath := by
  simp only [checkApTimeout]; split_ifs <;> simp

@[simp] theorem checkApTimeout_forceDefaultPassword (inp : TickInput) (s : EspWifi) :
    (checkApTimeout inp s).forceDefaultPassword = s.forceDefaultPassword := by
  simp only [checkApTimeout]; split_ifs <;> simp

@[simp] theorem checkApTimeout_skipApStartup (inp : TickInput) (s : EspWifi) :
    (checkApTimeout inp s).skipApStartup = s.skipApStartup := by
  simp only [checkApTimeout]; split_ifs <;> simp

@[simp] theorem checkApTimeout_thingNameParameter (inp : TickInput) (s : EspWifi) :
    (checkApTimeout inp s).thingNameParameter = s.thingNameParameter := by
  simp only [checkApTimeout]; split_ifs <;> simp

@[simp] theorem checkApTimeout_apPasswordParameter (inp : TickInput) (s : EspWifi) :
    (checkApTimeout inp s).apPasswordParameter = s.apPasswordParameter := by
  simp only [checkApTimeout]; split_ifs <;> simp

@[simp] theorem checkApTimeout_wifiSsidParameter (inp : TickInput) (s : EspWifi) :
    (checkApTimeout inp s).wifiSsidParameter = s.wifiSsidParameter := by
  simp only [checkApTimeout]; split_ifs <;> simp

@[simp] theorem checkApTimeout_wifiPasswordParameter (inp : TickInput) (s : EspWifi) :
    (checkApTimeout inp s).wifiPasswordParameter = s.wifiPasswordParameter := by
  simp only [checkApTimeout]; split_ifs <;> simp

@[simp] theorem checkApTimeout_apTimeoutParameter (inp : TickInput) (s : EspWifi) :
    (checkApTimeout inp s).apTimeoutParameter = s.apTimeoutParameter := by
  simp only [checkApTimeout]; split_ifs <;> simp

@[simp] theorem checkApTimeout_userParameters (inp : TickInput) (s : EspWifi) :
    (checkApTimeout inp s).userParameters = s.userParameters := by
  simp only [checkApTimeout]; split_ifs <;> simp

@[simp] theorem checkApTimeout_apTimeoutMs (inp : TickInput) (s : EspWifi) :
    (checkApTimeout inp s).apTimeoutMs = s.apTimeoutMs := by
  simp only [checkApTimeout]; split_ifs <;> simp

@[simp] theorem checkApTimeout_wifiConnectionTimeoutMs (inp : TickInput) (s : EspWifi) :
    (checkApTimeout inp s).wifiConnectionTimeoutMs = s.wifiConnectionTimeoutMs := by
  simp only [checkApTimeout]; split_ifs <;> simp

@[simp] theorem checkApTimeout_hasWifiConnectionCallback (inp : TickInput) (s : EspWifi) :
    (checkApTimeout inp s).hasWifiConnectionCallback = s.hasWifiConnectionCallback := by
  simp only [checkApTimeout]; split_ifs <;> simp

@[simp] theorem checkApTimeout_hasConfigSavedCallback (inp : TickInput) (s : EspWifi) :
    (checkApTimeout inp s).hasConfigSavedCallback = s.hasConfigSavedCallback := by
  simp only [checkApTimeout]; split_ifs <;> simp

@[simp] theorem checkApTimeout_formValidator (inp : TickInput) (s : EspWifi) :
    (checkApTimeout inp s).formValidator = s.formValidator := by
  simp only [checkApTimeout]; split_ifs <;> simp

@[simp] theorem checkApTimeout_wifiConnectionFailureHandler (inp : TickInput) (s : EspWifi) :
    (checkApTimeout inp s).wifiConnectionFailureHandler = s.wifiConnectionFailureHandler := by
  simp only [checkApTimeout]; split_ifs <;> simp

@[simp] theorem checkApTimeout_blinkState (inp : TickInput) (s : EspWifi) :
    (checkApTimeout inp s).blinkState = s.blinkState := by
  simp only [checkApTimeout]; split_ifs <;> simp

@[simp] theorem checkApTimeout_lastBlinkTime (inp : TickInput) (s : EspWifi) :
    (checkApTimeout inp s).lastBlinkTime = s.lastBlinkTime := by
  simp only [checkApTimeout]; split_ifs <;> simp

@[simp] theorem checkApTimeout_wifiAuthInfo (inp : TickInput) (s : EspWifi) :
    (checkApTimeout inp s).wifiAuthInfo = s.wifiAuthInfo := by
  simp only [checkApTimeout]; split_ifs <;> simp

@[simp] theorem checkApTimeout_eeprom (inp : TickInput) (s : EspWifi) :
    (checkApTimeout inp s).eeprom = s.eeprom := by
  simp only [checkApTimeout]; split_ifs <;> simp

@[simp] theorem configSave_initialApPassword (s : EspWifi) :
    (configSave s).initialApPassword = s.initialApPassword := by
  simp only [configSave]; split_ifs <;> simp

@[simp] theorem configSave_configVersion (s : EspWifi) :
    (configSave s).configVersion = s.configVersion := by
  simp only [configSave]; split_ifs <;> simp

@[simp] theorem configSave_hasUpdateServer (s : EspWifi) :
    (configSave s).hasUpdateServer = s.hasUpdateServer := by
  simp only [configSave]; split_ifs <;> simp

@[simp] theorem configSave_configPin (s : EspWifi) :
    (configSave s).configPin = s.configPin := by
  simp only [configSave]; split_ifs <;> simp

@[simp] theorem configSave_statusPin (s : EspWifi) :
    (configSave s).statusPin = s.statusPin := by
  simp only [configSave]; split_ifs <;> simp

@[simp] theorem configSave_hasUpdatePath (s : EspWifi) :
    (configSave s).hasUpdatePath = s.hasUpdatePath := by
  simp only [configSave]; split_ifs <;> simp

@[simp] theorem configSave_forceDefaultPassword (s : EspWifi) :
    (configSave s).forceDefaultPassword = s.forceDefaultPassword := by
  simp only [configSave]; split_ifs <;> simp

@[simp] theorem configSave_skipApStartup (s : EspWifi) :
    (configSave s).skipApStartup = s.skipApStartup := by
  simp only [configSave]; split_ifs <;> simp

@[simp] theorem configSave_thingNameParameter (s : EspWifi) :
    (configSave s).thingNameParameter = s.thingNameParameter := by
  simp only [configSave]; split_ifs <;> simp

@[simp] theorem configSave_apPasswordParameter (s : EspWifi) :
    (configSave s).apPasswordParameter = s.apPasswordParameter := by
  simp only [configSave]; split_ifs <;> simp

@[simp] theorem configSave_wifiSsidParameter (s : EspWifi) :
    (configSave s).wifiSsidParameter = s.wifiSsidParameter := by
  simp only [configSave]; split_ifs <;> simp

@[simp] theorem configSave_wifiPasswordParameter (s : EspWifi) :
    (configSave s).wifiPasswordParameter = s.wifiPasswordParameter := by
  simp only [configSave]; split_ifs <;> simp

@[simp] theorem configSave_apTimeoutParameter (s : EspWifi) :
    (configSave s).apTimeoutParameter = s.apTimeoutParameter := by
  simp only [configSave]; split_ifs <;> simp

@[simp] theorem configSave_userParameters (s : EspWifi) :
    (configSave s).userParameters = s.userParameters := by
  simp only [configSave]; split_ifs <;> simp

@[simp] theorem configSave_wifiConnectionTimeoutMs (s : EspWifi) :
    (configSave s).wifiConnectionTimeoutMs = s.wifiConnectionTimeoutMs := by
  simp only [configSave]; split_ifs <;> simp

@[simp] theorem configSave_state (s : EspWifi) :
    (configSave s).state = s.state := by
  simp only [configSave]; split_ifs <;> simp

@[simp] theorem configSave_apStartTimeMs (s : EspWifi) :
    (configSave s).apStartTimeMs = s.apStartTimeMs := by
  simp only [configSave]; split_ifs <;> simp

@[simp] theorem configSave_apConnectionStatus (s : EspWifi) :
    (configSave s).apConnectionStatus = s.apConnectionStatus := by
  simp only [configSave]; split_ifs <;> simp

@[simp] theorem configSave_hasWifiConnectionCallback (s : EspWifi) :
    (configSave s).hasWifiConnectionCallback = s.hasWifiConnectionCallback := by
  simp only [configSave]; split_ifs <;> simp

@[simp] theorem configSave_hasConfigSavedCallback (s : EspWifi) :
    (configSave s).hasConfigSavedCallback = s.hasConfigSavedCallback := by
  simp only [configSave]; split_ifs <;> simp

@[simp] theorem configSave_formValidator (s : EspWifi) :
    (configSave s).formValidator = s.formValidator := by
  simp only [configSave]; split_ifs <;> simp

@[simp] theorem configSave_wifiConnectionFailureHandler (s : EspWifi) :
    (configSave s).wifiConnectionFailureHandler = s.wifiConnectionFailureHandler := by
  simp only [configSave]; split_ifs <;> simp

@[simp] theorem configSave_internalBlinkOnMs (s : EspWifi) :
    (configSave s).internalBlinkOnMs = s.internalBlinkOnMs := by
  simp only [configSave]; split_ifs <;> simp

@[simp] theorem configSave_internalBlinkOffMs (s : EspWifi) :
    (configSave s).internalBlinkOffMs = s.internalBlinkOffMs := by
  simp only [configSave]; split_ifs <;> simp

@[simp] theorem configSave_blinkOnMs (s : EspWifi) :
    (configSave s).blinkOnMs = s.blinkOnMs := by
  simp only [configSave]; split_ifs <;> simp

@[simp] theorem configSave_blinkOffMs (s : EspWifi) :
    (configSave s).blinkOffMs = s.blinkOffMs := by
  simp only [configSave]; split_ifs <;> simp

@[simp] theorem configSave_blinkState (s : EspWifi) :
    (configSave s).blinkState = s.blinkState := by
  simp only [configSave]; split_ifs <;> simp

@[simp] theorem configSave_lastBlinkTime (s : EspWifi) :
    (configSave s).lastBlinkTime = s.lastBlinkTime := by
  simp only [configSave]; split_ifs <;> simp

@[simp] theorem configSave_wifiConnectionStart (s : EspWifi) :
    (configSave s).wifiConnectionStart = s.wifiConnectionStart := by
  simp only [configSave]; split_ifs <;> simp

@[simp] theorem configSave_wifiAuthInfo (s : EspWifi) :
    (configSave s).wifiAuthInfo = s.wifiAuthInfo := by
  simp only [configSave]; split_ifs <;> simp

@[simp] theorem validateThingName_initialApPassword (req : Request) (vs : Bool × EspWifi) :
    (validateThingName req vs).2.initialApPassword = vs.2.initialApPassword := by
  simp only [validateThingName]; split_ifs <;> rfl

@[simp] theorem validateThingName_configVersion (req : Request) (vs : Bool × EspWifi) :
    (validateThingName req vs).2.configVersion = vs.2.configVersion := by
  simp only [validateThingName]; split_ifs <;> rfl

@[simp] theorem validateThingName_hasUpdateServer (req : Request) (vs : Bool × EspWifi) :
    (validateThingName req vs).2.hasUpdateServer = vs.2.hasUpdateServer := by
  simp only [validateThingName]; split_ifs <;> rfl

@[simp] theorem validateThingName_configPin (req : Request) (vs : Bool × EspWifi) :
    (validateThingName req vs).2.configPin = vs.2.configPin := by
  simp only [validateThingName]; split_ifs <;> rfl

@[simp] theorem validateThingName_statusPin (req : Request) (vs : Bool × EspWifi) :
    (validateThingName req vs).2.statusPin = vs.2.statusPin := by
  simp only [validateThingName]; split_ifs <;> rfl

@[simp] theorem validateThingName_hasUpdatePath (req : Request) (vs : Bool × EspWifi) :
    (validateThingName req vs).2.hasUpdatePath = vs.2.hasUpdatePath := by
  simp only [validateThingName]; split_ifs <;> rfl

@[simp] theorem validateThingName_forceDefaultPassword (req : Request) (vs : Bool × EspWifi) :
    (validateThingName req vs).2.forceDefaultPassword = vs.2.forceDefaultPassword := by
  simp only [validateThingName]; split_ifs <;> rfl

@[simp] theorem validateThingName_skipApStartup (req : Request) (vs : Bool × EspWifi) :
    (validateThingName req vs).2.skipApStartup = vs.2.skipApStartup := by
  simp only [validateThingName]; split_ifs <;> rfl

@[simp] theorem validateThingName_apPasswordParameter (req : Request) (vs : Bool × EspWifi) :
    (validateThingName req vs).2.apPasswordParameter = vs.2.apPasswordParameter := by
  simp only [validateThingName]; split_ifs <;> rfl

@[simp] theorem validateThingName_wifiSsidParameter (req : Request) (vs : Bool × EspWifi) :
    (validateThingName req vs).2.wifiSsidParameter = vs.2.wifiSsidParameter := by
  simp only [validateThingName]; split_ifs <;> rfl

@[simp] theorem validateThingName_wifiPasswordParameter (req : Request) (vs : Bool × EspWifi) :
    (validateThingName req vs).2.wifiPasswordParameter = vs.2.wifiPasswordParameter := by
  simp only [validateThingName]; split_ifs <;> rfl

@[simp] theorem validateThingName_apTimeoutParameter (req : Request) (vs : Bool × EspWifi) :
    (validateThingName req vs).2.apTimeoutParameter = vs.2.apTimeoutParameter := by
  simp only [validateThingName]; split_ifs <;> rfl

@[simp] theorem validateThingName_userParameters (req : Request) (vs : Bool × EspWifi) :
    (validateThingName req vs).2.userParameters = vs.2.userParameters := by
  simp only [validateThingName]; split_ifs <;> rfl

@[simp] theorem validateThingName_apTimeoutMs (req : Request) (vs : Bool × EspWifi) :
    (validateThingName req vs).2.apTimeoutMs = vs.2.apTimeoutMs := by
  simp only [validateThingName]; split_ifs <;> rfl

@[simp] theorem validateThingName_wifiConnectionTimeoutMs (req : Request) (vs : Bool × EspWifi) :
    (validateThingName req vs).2.wifiConnectionTimeoutMs = vs.2.wifiConnectionTimeoutMs := by
  simp only [validateThingName]; split_ifs <;> rfl

@[simp] theorem validateThingName_state (req : Request) (vs : Bool × EspWifi) :
    (validateThingName req vs).2.state = vs.2.state := by
  simp only [validateThingName]; split_ifs <;> rfl

@[simp] theorem validateThingName_apStartTimeMs (req : Request) (vs : Bool × EspWifi) :
    (validateThingName req vs).2.apStartTimeMs = vs.2.apStartTimeMs := by
  simp only [validateThingName]; split_ifs <;> rfl

@[simp] theorem validateThingName_apConnectionStatus (req : Request) (vs : Bool × EspWifi) :
    (validateThingName req vs).2.apConnectionStatus = vs.2.apConnectionStatus := by
  simp only [validateThingName]; split_ifs <;> rfl

@[simp] theorem validateThingName_hasWifiConnectionCallback (req : Request) (vs : Bool × EspWifi) :
    (validateThingName req vs).2.hasWifiConnectionCallback = vs.2.hasWifiConnectionCallback := by
  simp only [validateThingName]; split_ifs <;> rfl

@[simp] theorem validateThingName_hasConfigSavedCallback (req : Request) (vs : Bool × EspWifi) :
    (validateThingName req vs).2.hasConfigSavedCallback = vs.2.hasConfigSavedCallback := by
  simp only [validateThingName]; split_ifs <;> rfl

@[simp] theorem validateThingName_formValidator (req : Request) (vs : Bool × EspWifi) :
    (validateThingName req vs).2.formValidator = vs.2.formValidator := by
  simp only [validateThingName]; split_ifs <;> rfl

@[simp] theorem validateThingName_wifiConnectionFailureHandler (req : Request) (vs : Bool × EspWifi) :
    (validateThingName req vs).2.wifiConnectionFailureHandler = vs.2.wifiConnectionFailureHandler := by
  simp only [validateThingName]; split_ifs <;> rfl

@[simp] theorem validateThingName_internalBlinkOnMs (req : Request) (vs : Bool × EspWifi) :
    (validateThingName req vs).2.internalBlinkOnMs = vs.2.internalBlinkOnMs := by
  simp only [validateThingName]; split_ifs <;> rfl

@[simp] theorem validateThingName_internalBlinkOffMs (req : Request) (vs : Bool × EspWifi) :
    (validateThingName req vs).2.internalBlinkOffMs = vs.2.internalBlinkOffMs := by
  simp only [validateThingName]; split_ifs <;> rfl

@[simp] theorem validateThingName_blinkOnMs (req : Request) (vs : Bool × EspWifi) :
    (validateThingName req vs).2.blinkOnMs = vs.2.blinkOnMs := by
  simp only [validateThingName]; split_ifs <;> rfl

@[simp] theorem validateThingName_blinkOffMs (req : Request) (vs : Bool × EspWifi) :
    (validateThingName req vs).2.blinkOffMs = vs.2.blinkOffMs := by
  simp only [validateThingName]; split_ifs <;> rfl

@[simp] theorem validateThingName_blinkState (req : Request) (vs : Bool × EspWifi) :
    (validateThingName req vs).2.blinkState = vs.2.blinkState := by
  simp only [validateThingName]; split_ifs <;> rfl

@[simp] theorem validateThingName_lastBlinkTime (req : Request) (vs : Bool × EspWifi) :
    (validateThingName req vs).2.lastBlinkTime = vs.2.lastBlinkTime := by
  simp only [validateThingName]; split_ifs <;> rfl

@[simp] theorem validateThingName_wifiConnectionStart (req : Request) (vs : Bool × EspWifi) :
    (validateThingName req vs).2.wifiConnectionStart = vs.2.wifiConnectionStart := by
  simp only [validateThingName]; split_ifs <;> rfl

@[simp] theorem validateThingName_wifiAuthInfo (req : Request) (vs : Bool × EspWifi) :
    (validateThingName req vs).2.wifiAuthInfo = vs.2.wifiAuthInfo := by
  simp only [validateThingName]; split_ifs <;> rfl

@[simp] theorem validateThingName_eeprom (req : Request) (vs : Bool × EspWifi) :
    (validateThingName req vs).2.eeprom = vs.2.eeprom := by
  simp only [validateThingName]; split_ifs <;> rfl

@[simp] theorem validateThingName_log (req : Request) (vs : Bool × EspWifi) :
    (validateThingName req vs).2.log = vs.2.log := by
  simp only [validateThingName]; split_ifs <;> rfl

@[simp] theorem validateApPassword_initialApPassword (req : Request) (vs : Bool × EspWifi) :
    (validateApPassword req vs).2.initialApPassword = vs.2.initialApPassword := by
  simp only [validateApPassword]; split_ifs <;> rfl

@[simp] theorem validateApPassword_configVersion (req : Request) (vs : Bool × EspWifi) :
    (validateApPassword req vs).2.configVersion = vs.2.configVersion := by
  simp only [validateApPassword]; split_ifs <;> rfl

@[simp] theorem validateApPassword_hasUpdateServer (req : Request) (vs : Bool × EspWifi) :
    (validateApPassword req vs).2.hasUpdateServer = vs.2.hasUpdateServer := by
  simp only [validateApPassword]; split_ifs <;> rfl

@[simp] theorem validateApPassword_configPin (req : Request) (vs : Bool × EspWifi) :
    (validateApPassword req vs).2.configPin = vs.2.configPin := by
  simp only [validateApPassword]; split_ifs <;> rfl

@[simp] theorem validateApPassword_statusPin (req : Request) (vs : Bool × EspWifi) :
    (validateApPassword req vs).2.statusPin = vs.2.statusPin := by
  simp only [validateApPassword]; split_ifs <;> rfl

@[simp] theorem validateApPassword_hasUpdatePath (req : Request) (vs : Bool × EspWifi) :
    (validateApPassword req vs).2.hasUpdatePath = vs.2.hasUpdatePath := by
  simp only [validateApPassword]; split_ifs <;> rfl

@[simp] theorem validateApPassword_forceDefaultPassword (req : Request) (vs : Bool × EspWifi) :
    (validateApPassword req vs).2.forceDefaultPassword = vs.2.forceDefaultPassword := by
  simp only [validateApPassword]; split_ifs <;> rfl

@[simp] theorem validateApPassword_skipApStartup (req : Request) (vs : Bool × EspWifi) :
    (validateApPassword req vs).2.skipApStartup = vs.2.skipApStartup := by
  simp only [validateApPassword]; split_ifs <;> rfl

@[simp] theorem validateApPassword_thingNameParameter (req : Request) (vs : Bool × EspWifi) :
    (validateApPassword req vs).2.thingNameParameter = vs.2.thingNameParameter := by
  simp only [validateApPassword]; split_ifs <;> rfl

@[simp] theorem validateApPassword_wifiSsidParameter (req : Request) (vs : Bool × EspWifi) :
    (validateApPassword req vs).2.wifiSsidParameter = vs.2.wifiSsidParameter := by
  simp only [validateApPassword]; split_ifs <;> rfl

@[simp] theorem validateApPassword_wifiPasswordParameter (req : Request) (vs : Bool × EspWifi) :
    (validateApPassword req vs).2.wifiPasswordParameter = vs.2.wifiPasswordParameter := by
  simp only [validateApPassword]; split_ifs <;> rfl

@[simp] theorem validateApPassword_apTimeoutParameter (req : Request) (vs : Bool × EspWifi) :
    (validateApPassword req vs).2.apTimeoutParameter = vs.2.apTimeoutParameter := by
  simp only [validateApPassword]; split_ifs <;> rfl

@[simp] theorem validateApPassword_userParameters (req : Request) (vs : Bool × EspWifi) :
    (validateApPassword req vs).2.userParameters = vs.2.userParameters := by
  simp only [validateApPassword]; split_ifs <;> rfl

@[simp] theorem validateApPassword_apTimeoutMs (req : Request) (vs : Bool × EspWifi) :
    (validateApPassword req vs).2.apTimeoutMs = vs.2.apTimeoutMs := by
  simp only [validateApPassword]; split_ifs <;> rfl

@[simp] theorem validateApPassword_wifiConnectionTimeoutMs (req : Request) (vs : Bool × EspWifi) :
    (validateApPassword req vs).2.wifiConnectionTimeoutMs = vs.2.wifiConnectionTimeoutMs := by
  simp only [validateApPassword]; split_ifs <;> rfl

@[simp] theorem validateApPassword_state (req : Request) (vs : Bool × EspWifi) :
    (validateApPassword req vs).2.state = vs.2.state := by
  simp only [validateApPassword]; split_ifs <;> rfl

@[simp] theorem validateApPassword_apStartTimeMs (req : Request) (vs : Bool × EspWifi) :
    (validateApPassword req vs).2.apStartTimeMs = vs.2.apStartTimeMs := by
  simp only [validateApPassword]; split_ifs <;> rfl

@[simp] theorem validateApPassword_apConnectionStatus (req : Request) (vs : Bool × EspWifi) :
    (validateApPassword req vs).2.apConnectionStatus = vs.2.apConnectionStatus := by
  simp only [validateApPassword]; split_ifs <;> rfl

@[simp] theorem validateApPassword_hasWifiConnectionCallback (req : Request) (vs : Bool × EspWifi) :
    (validateApPassword req vs).2.hasWifiConnectionCallback = vs.2.hasWifiConnectionCallback := by
  simp only [validateApPassword]; split_ifs <;> rfl

@[simp] theorem validateApPassword_hasConfigSavedCallback (req : Request) (vs : Bool × EspWifi) :
    (validateApPassword req vs).2.hasConfigSavedCallback = vs.2.hasConfigSavedCallback := by
  simp only [validateApPassword]; split_ifs <;> rfl

@[simp] theorem validateApPassword_formValidator (req : Request) (vs : Bool × EspWifi) :
    (validateApPassword req vs).2.formValidator = vs.2.formValidator := by
  simp only [validateApPassword]; split_ifs <;> rfl

@[simp] theorem validateApPassword_wifiConnectionFailureHandler (req : Request) (vs : Bool × EspWifi) :
    (validateApPassword req vs).2.wifiConnectionFailureHandler = vs.2.wifiConnectionFailureHandler := by
  simp only [validateApPassword]; split_ifs <;> rfl

@[simp] theorem validateApPassword_internalBlinkOnMs (req : Request) (vs : Bool × EspWifi) :
    (validateApPassword req vs).2.internalBlinkOnMs = vs.2.internalBlinkOnMs := by
  simp only [validateApPassword]; split_ifs <;> rfl

@[simp] theorem validateApPassword_internalBlinkOffMs (req : Request) (vs : Bool × EspWifi) :
    (validateApPassword req vs).2.internalBlinkOffMs = vs.2.internalBlinkOffMs := by
  simp only [validateApPassword]; split_ifs <;> rfl

@[simp] theorem validateApPassword_blinkOnMs (req : Request) (vs : Bool × EspWifi) :
    (validateApPassword req vs).2.blinkOnMs = vs.2.blinkOnMs := by
  simp only [validateApPassword]; split_ifs <;> rfl

@[simp] theorem validateApPassword_blinkOffMs (req : Request) (vs : Bool × EspWifi) :
    (validateApPassword req vs).2.blinkOffMs = vs.2.blinkOffMs := by
  simp only [validateApPassword]; split_ifs <;> rfl

@[simp] theorem validateApPassword_blinkState (req : Request) (vs : Bool × EspWifi) :
    (validateApPassword req vs).2.blinkState = vs.2.blinkState := by
  simp only [validateApPassword]; split_ifs <;> rfl

@[simp] theorem validateApPassword_lastBlinkTime (req : Request) (vs : Bool × EspWifi) :
    (validateApPassword req vs).2.lastBlinkTime = vs.2.lastBlinkTime := by
  simp only [validateApPassword]; split_ifs <;> rfl

@[simp] theorem validateApPassword_wifiConnectionStart (req : Request) (vs : Bool × EspWifi) :
    (validateApPassword req vs).2.wifiConnectionStart = vs.2.wifiConnectionStart := by
  simp only [validateApPassword]; split_ifs <;> rfl

@[simp] theorem validateApPassword_wifiAuthInfo (req : Request) (vs : Bool × EspWifi) :
    (validateApPassword req vs).2.wifiAuthInfo = vs.2.wifiAuthInfo := by
  simp only [validateApPassword]; split_ifs <;> rfl

@[simp] theorem validateApPassword_eeprom (req : Request) (vs : Bool × EspWifi) :
    (validateApPassword req vs).2.eeprom = vs.2.eeprom := by
  simp only [validateApPassword]; split_ifs <;> rfl

@[simp] theorem validateApPassword_log (req : Request) (vs : Bool × EspWifi) :
    (validateApPassword req vs).2.log = vs.2.log := by
  simp only [validateApPassword]; split_ifs <;> rfl

@[simp] theorem validateWifiPassword_initialApPassword (req : Request) (vs : Bool × EspWifi) :
    (validateWifiPassword req vs).2.initialApPassword = vs.2.initialApPassword := by
  simp only [validateWifiPassword]; split_ifs <;> rfl

@[simp] theorem validateWifiPassword_configVersion (req : Request) (vs : Bool × EspWifi) :
    (validateWifiPassword req vs).2.configVersion = vs.2.configVersion := by
  simp only [validateWifiPassword]; split_ifs <;> rfl

@[simp] theorem validateWifiPassword_hasUpdateServer (req : Request) (vs : Bool × EspWifi) :
    (validateWifiPassword req vs).2.hasUpdateServer = vs.2.hasUpdateServer := by
  simp only [validateWifiPassword]; split_ifs <;> rfl

@[simp] theorem validateWifiPassword_configPin (req : Request) (vs : Bool × EspWifi) :
    (validateWifiPassword req vs).2.configPin = vs.2.configPin := by
  simp only [validateWifiPassword]; split_ifs <;> rfl

@[simp] theorem validateWifiPassword_statusPin (req : Request) (vs : Bool × EspWifi) :
    (validateWifiPassword req vs).2.statusPin = vs.2.statusPin := by
  simp only [validateWifiPassword]; split_ifs <;> rfl

@[simp] theorem validateWifiPassword_hasUpdatePath (req : Request) (vs : Bool × EspWifi) :
    (validateWifiPassword req vs).2.hasUpdatePath = vs.2.hasUpdatePath := by
  simp only [validateWifiPassword]; split_ifs <;> rfl

@[simp] theorem validateWifiPassword_forceDefaultPassword (req : Request) (vs : Bool × EspWifi) :
    (validateWifiPassword req vs).2.forceDefaultPassword = vs.2.forceDefaultPassword := by
  simp only [validateWifiPassword]; split_ifs <;> rfl

@[simp] theorem validateWifiPassword_skipApStartup (req : Request) (vs : Bool × EspWifi) :
    (validateWifiPassword req vs).2.skipApStartup = vs.2.skipApStartup := by
  simp only [validateWifiPassword]; split_ifs <;> rfl

@[simp] theorem validateWifiPassword_thingNameParameter (req : Request) (vs : Bool × EspWifi) :
    (validateWifiPassword req vs).2.thingNameParameter = vs.2.thingNameParameter := by
  simp only [validateWifiPassword]; split_ifs <;> rfl

@[simp] theorem validateWifiPassword_apPasswordParameter (req : Request) (vs : Bool × EspWifi) :
    (validateWifiPassword req vs).2.apPasswordParameter = vs.2.apPasswordParameter := by
  simp only [validateWifiPassword]; split_ifs <;> rfl

@[simp] theorem validateWifiPassword_wifiSsidParameter (req : Request) (vs : Bool × EspWifi) :
    (validateWifiPassword req vs).2.wifiSsidParameter = vs.2.wifiSsidParameter := by
  simp only [validateWifiPassword]; split_ifs <;> rfl

@[simp] theorem validateWifiPassword_apTimeoutParameter (req : Request) (vs : Bool × EspWifi) :
    (validateWifiPassword req vs).2.apTimeoutParameter = vs.2.apTimeoutParameter := by
  simp only [validateWifiPassword]; split_ifs <;> rfl

@[simp] theorem validateWifiPassword_userParameters (req : Request) (vs : Bool × EspWifi) :
    (validateWifiPassword req vs).2.userParameters = vs.2.userParameters := by
  simp only [validateWifiPassword]; split_ifs <;> rfl

@[simp] theorem validateWifiPassword_apTimeoutMs (req : Request) (vs : Bool × EspWifi) :
    (validateWifiPassword req vs).2.apTimeoutMs = vs.2.apTimeoutMs := by
  simp only [validateWifiPassword]; split_ifs <;> rfl

@[simp] theorem validateWifiPassword_wifiConnectionTimeoutMs (req : Request) (vs : Bool × EspWifi) :
    (validateWifiPassword req vs).2.wifiConnectionTimeoutMs = vs.2.wifiConnectionTimeoutMs := by
  simp only [validateWifiPassword]; split_ifs <;> rfl

@[simp] theorem validateWifiPassword_state (req : Request) (vs : Bool × EspWifi) :
    (validateWifiPassword req vs).2.state = vs.2.state := by
  simp only [validateWifiPassword]; split_ifs <;> rfl

@[simp] theorem validateWifiPassword_apStartTimeMs (req : Request) (vs : Bool × EspWifi) :
    (validateWifiPassword req vs).2.apStartTimeMs = vs.2.apStartTimeMs := by
  simp only [validateWifiPassword]; split_ifs <;> rfl

@[simp] theorem validateWifiPassword_apConnectionStatus (req : Request) (vs : Bool × EspWifi) :
    (validateWifiPassword req vs).2.apConnectionStatus = vs.2.apConnectionStatus := by
  simp only [validateWifiPassword]; split_ifs <;> rfl

@[simp] theorem validateWifiPassword_hasWifiConnectionCallback (req : Request) (vs : Bool × EspWifi) :
    (validateWifiPassword req vs).2.hasWifiConnectionCallback = vs.2.hasWifiConnectionCallback := by
  simp only [validateWifiPassword]; split_ifs <;> rfl

@[simp] theorem validateWifiPassword_hasConfigSavedCallback (req : Request) (vs : Bool × EspWifi) :
    (validateWifiPassword req vs).2.hasConfigSavedCallback = vs.2.hasConfigSavedCallback := by
  simp only [validateWifiPassword]; split_ifs <;> rfl

@[simp] theorem validateWifiPassword_formValidator (req : Request) (vs : Bool × EspWifi) :
    (validateWifiPassword req vs).2.formValidator = vs.2.formValidator := by
  simp only [validateWifiPassword]; split_ifs <;> rfl

@[simp] theorem validateWifiPassword_wifiConnectionFailureHandler (req : Request) (vs : Bool × EspWifi) :
    (validateWifiPassword req vs).2.wifiConnectionFailureHandler = vs.2.wifiConnectionFailureHandler := by
  simp only [validateWifiPassword]; split_ifs <;> rfl

@[simp] theorem validateWifiPassword_internalBlinkOnMs (req : Request) (vs : Bool × EspWifi) :
    (validateWifiPassword req vs).2.internalBlinkOnMs = vs.2.internalBlinkOnMs := by
  simp only [validateWifiPassword]; split_ifs <;> rfl

@[simp] theorem validateWifiPassword_internalBlinkOffMs (req : Request) (vs : Bool × EspWifi) :
    (validateWifiPassword req vs).2.internalBlinkOffMs = vs.2.internalBlinkOffMs := by
  simp only [validateWifiPassword]; split_ifs <;> rfl

@[simp] theorem validateWifiPassword_blinkOnMs (req : Request) (vs : Bool × EspWifi) :
    (validateWifiPassword req vs).2.blinkOnMs = vs.2.blinkOnMs := by
  simp only [validateWifiPassword]; split_ifs <;> rfl

@[simp] theorem validateWifiPassword_blinkOffMs (req : Request) (vs : Bool × EspWifi) :
    (validateWifiPassword req vs).2.blinkOffMs = vs.2.blinkOffMs := by
  simp only [validateWifiPassword]; split_ifs <;> rfl

@[simp] theorem validateWifiPassword_blinkState (req : Request) (vs : Bool × EspWifi) :
    (validateWifiPassword req vs).2.blinkState = vs.2.blinkState := by
  simp only [validateWifiPassword]; split_ifs <;> rfl

@[simp] theorem validateWifiPassword_lastBlinkTime (req : Request) (vs : Bool × EspWifi) :
    (validateWifiPassword req vs).2.lastBlinkTime = vs.2.lastBlinkTime := by
  simp only [validateWifiPassword]; split_ifs <;> rfl

@[simp] theorem validateWifiPassword_wifiConnectionStart (req : Request) (vs : Bool × EspWifi) :
    (validateWifiPassword req vs).2.wifiConnectionStart = vs.2.wifiConnectionStart := by
  simp only [validateWifiPassword]; split_ifs <;> rfl

@[simp] theorem validateWifiPassword_wifiAuthInfo (req : Request) (vs : Bool × EspWifi) :
    (validateWifiPassword req vs).2.wifiAuthInfo = vs.2.wifiAuthInfo := by
  simp only [validateWifiPassword]; split_ifs <;> rfl

@[simp] theorem validateWifiPassword_eeprom (req : Request) (vs : Bool × EspWifi) :
    (validateWifiPassword req vs).2.eeprom = vs.2.eeprom := by
  simp only [validateWifiPassword]; split_ifs <;> rfl

@[simp] theorem validateWifiPassword_log (req : Request) (vs : Bool × EspWifi) :
    (validateWifiPassword req vs).2.log = vs.2.log := by
  simp only [validateWifiPassword]; split_ifs <;> rfl

@[simp] theorem validateForm_initialApPassword (req : Request) (s : EspWifi) :
    ((validateForm req s).2).initialApPassword = s.initialApPassword := by
  simp [validateForm]

@[simp] theorem validateForm_configVersion (req : Request) (s : EspWifi) :
    ((validateForm req s).2).configVersion = s.configVersion := by
  simp [validateForm]

@[simp] theorem validateForm_hasUpdateServer (req : Request) (s : EspWifi) :
    ((validateForm req s).2).hasUpdateServer = s.hasUpdateServer := by
  simp [validateForm]

@[simp] theorem validateForm_configPin (req : Request) (s : EspWifi) :
    ((validateForm req s).2).configPin = s.configPin := by
  simp [validateForm]

@[simp] theorem validateForm_statusPin (req : Request) (s : EspWifi) :
    ((validateForm req s).2).statusPin = s.statusPin := by
  simp [validateForm]

@[simp] theorem validateForm_hasUpdatePath (req : Request) (s : EspWifi) :
    ((validateForm req s).2).hasUpdatePath = s.hasUpdatePath := by
  simp [validateForm]

@[simp] theorem validateForm_forceDefaultPassword (req : Request) (s : EspWifi) :
    ((validateForm req s).2).forceDefaultPassword = s.forceDefaultPassword := by
  simp [validateForm]

@[simp] theorem validateForm_skipApStartup (req : Request) (s : EspWifi) :
    ((validateForm req s).2).skipApStartup = s.skipApStartup := by
  simp [validateForm]

@[simp] theorem validateForm_apTimeoutMs (req : Request) (s : EspWifi) :
    ((validateForm req s).2).apTimeoutMs = s.apTimeoutMs := by
  simp [validateForm]

@[simp] theorem validateForm_wifiConnectionTimeoutMs (req : Request) (s : EspWifi) :
    ((validateForm req s).2).wifiConnectionTimeoutMs = s.wifiConnectionTimeoutMs := by
  simp [validateForm]

@[simp] theorem validateForm_state (req : Request) (s : EspWifi) :
    ((validateForm req s).2).state = s.state := by
  simp [validateForm]

@[simp] theorem validateForm_apStartTimeMs (req : Request) (s : EspWifi) :
    ((validateForm req s).2).apStartTimeMs = s.apStartTimeMs := by
  simp [validateForm]

@[simp] theorem validateForm_apConnectionStatus (req : Request) (s : EspWifi) :
    ((validateForm req s).2).apConnectionStatus = s.apConnectionStatus := by
  simp [validateForm]

@[simp] theorem validateForm_hasWifiConnectionCallback (req : Request) (s : EspWifi) :
    ((validateForm req s).2).hasWifiConnectionCallback = s.hasWifiConnectionCallback := by
  simp [validateForm]

@[simp] theorem validateForm_hasConfigSavedCallback (req : Request) (s : EspWifi) :
    ((validateForm req s).2).hasConfigSavedCallback = s.hasConfigSavedCallback := by
  simp [validateForm]

@[simp] theorem validateForm_formValidator (req : Request) (s : EspWifi) :
    ((validateForm req s).2).formValidator = s.formValidator := by
  simp [validateForm]

@[simp] theorem validateForm_wifiConnectionFailureHandler (req : Request) (s : EspWifi) :
    ((validateForm req s).2).wifiConnectionFailureHandler = s.wifiConnectionFailureHandler := by
  simp [validateForm]

@[simp] theorem validateForm_internalBlinkOnMs (req : Request) (s : EspWifi) :
    ((validateForm req s).2).internalBlinkOnMs = s.internalBlinkOnMs := by
  simp [validateForm]

@[simp] theorem validateForm_internalBlinkOffMs (req : Request) (s : EspWifi) :
    ((validateForm req s).2).internalBlinkOffMs = s.internalBlinkOffMs := by
  simp [validateForm]

@[simp] theorem validateForm_blinkOnMs (req : Request) (s : EspWifi) :
    ((validateForm req s).2).blinkOnMs = s.blinkOnMs := by
  simp [validateForm]

@[simp] theorem validateForm_blinkOffMs (req : Request) (s : EspWifi) :
    ((validateForm req s).2).blinkOffMs = s.blinkOffMs := by
  simp [validateForm]

@[simp] theorem validateForm_blinkState (req : Request) (s : EspWifi) :
    ((validateForm req s).2).blinkState = s.blinkState := by
  simp [validateForm]

@[simp] theorem validateForm_lastBlinkTime (req : Request) (s : EspWifi) :
    ((validateForm req s).2).lastBlinkTime = s.lastBlinkTime := by
  simp [validateForm]

@[simp] theorem validateForm_wifiConnectionStart (req : Request) (s : EspWifi) :
    ((validateForm req s).2).wifiConnectionStart = s.wifiConnectionStart := by
  simp [validateForm]

@[simp] theorem validateForm_wifiAuthInfo (req : Request) (s : EspWifi) :
    ((validateForm req s).2).wifiAuthInfo = s.wifiAuthInfo := by
  simp [validateForm]

@[simp] theorem validateForm_eeprom (req : Request) (s : EspWifi) :
    ((validateForm req s).2).eeprom = s.eeprom := by
  simp [validateForm]

@[simp] theorem validateForm_log (req : Request) (s : EspWifi) :
    ((validateForm req s).2).log = s.log := by
  simp [validateForm]

@[simp] theorem handleConfig_initialApPassword (req : Request) (s : EspWifi) :
    (handleConfig req s).initialApPassword = s.initialApPassword := by
  simp only [handleConfig]; split_ifs <;> simp

@[simp] theorem handleConfig_configVersion (req : Request) (s : EspWifi) :
    (handleConfig req s).configVersion = s.configVersion := by
  simp only [handleConfig]; split_ifs <;> simp

@[simp] theorem handleConfig_hasUpdateServer (req : Request) (s : EspWifi) :
    (handleConfig req s).hasUpdateServer = s.hasUpdateServer := by
  simp only [handleConfig]; split_ifs <;> simp

@[simp] theorem handleConfig_configPin (req : Request) (s : EspWifi) :
    (handleConfig req s).configPin = s.configPin := by
  simp only [handleConfig]; split_ifs <;> simp

@[simp] theorem handleConfig_statusPin (req : Request) (s : EspWifi) :
    (handleConfig req s).statusPin = s.statusPin := by
  simp only [handleConfig]; split_ifs <;> simp

@[simp] theorem handleConfig_hasUpdatePath (req : Request) (s : EspWifi) :
    (handleConfig req s).hasUpdatePath = s.hasUpdatePath := by
  simp only [handleConfig]; split_ifs <;> simp

@[simp] theorem handleConfig_forceDefaultPassword (req : Request) (s : EspWifi) :
    (handleConfig req s).forceDefaultPassword = s.forceDefaultPassword := by
  simp only [handleConfig]; split_ifs <;> simp

@[simp] theorem handleConfig_skipApStartup (req : Request) (s : EspWifi) :
    (handleConfig req s).skipApStartup = s.skipApStartup := by
  simp only [handleConfig]; split_ifs <;> simp

@[simp] theorem handleConfig_wifiConnectionTimeoutMs (req : Request) (s : EspWifi) :
    (handleConfig req s).wifiConnectionTimeoutMs = s.wifiConnectionTimeoutMs := by
  simp only [handleConfig]; split_ifs <;> simp

@[simp] theorem handleConfig_state (req : Request) (s : EspWifi) :
    (handleConfig req s).state = s.state := by
  simp only [handleConfig]; split_ifs <;> simp

@[simp] theorem handleConfig_apStartTimeMs (req : Request) (s : EspWifi) :
    (handleConfig req s).apStartTimeMs = s.apStartTimeMs := by
  simp only [handleConfig]; split_ifs <;> simp

@[simp] theorem handleConfig_apConnectionStatus (req : Request) (s : EspWifi) :
    (handleConfig req s).apConnectionStatus = s.apConnectionStatus := by
  simp only [handleConfig]; split_ifs <;> simp

@[simp] theorem handleConfig_hasWifiConnectionCallback (req : Request) (s : EspWifi) :
    (handleConfig req s).hasWifiConnectionCallback = s.hasWifiConnectionCallback := by
  simp only [handleConfig]; split_ifs <;> simp

@[simp] theorem handleConfig_hasConfigSavedCallback (req : Request) (s : EspWifi) :
    (handleConfig req s).hasConfigSavedCallback = s.hasConfigSavedCallback := by
  simp only [handleConfig]; split_ifs <;> simp

@[simp] theorem handleConfig_formValidator (req : Request) (s : EspWifi) :
    (handleConfig req s).formValidator = s.formValidator := by
  simp only [handleConfig]; split_ifs <;> simp

@[simp] theorem handleConfig_wifiConnectionFailureHandler (req : Request) (s : EspWifi) :
    (handleConfig req s).wifiConnectionFailureHandler = s.wifiConnectionFailureHandler := by
  simp only [handleConfig]; split_ifs <;> simp

@[simp] theorem handleConfig_internalBlinkOnMs (req : Request) (s : EspWifi) :
    (handleConfig req s).internalBlinkOnMs = s.internalBlinkOnMs := by
  simp only [handleConfig]; split_ifs <;> simp

@[simp] theorem handleConfig_internalBlinkOffMs (req : Request) (s : EspWifi) :
    (handleConfig req s).internalBlinkOffMs = s.internalBlinkOffMs := by
  simp only [handleConfig]; split_ifs <;> simp

@[simp] theorem handleConfig_blinkOnMs (req : Request) (s : EspWifi) :
    (handleConfig req s).blinkOnMs = s.blinkOnMs := by
  simp only [handleConfig]; split_ifs <;> simp

@[simp] theorem handleConfig_blinkOffMs (req : Request) (s : EspWifi) :
    (handleConfig req s).blinkOffMs = s.blinkOffMs := by
  simp only [handleConfig]; split_ifs <;> simp

@[simp] theorem handleConfig_blinkState (req : Request) (s : EspWifi) :
    (handleConfig req s).blinkState = s.blinkState := by
  simp only [handleConfig]; split_ifs <;> simp

@[simp] theorem handleConfig_lastBlinkTime (req : Request) (s : EspWifi) :
    (handleConfig req s).lastBlinkTime = s.lastBlinkTime := by
  simp only [handleConfig]; split_ifs <;> simp

@[simp] theorem handleConfig_wifiConnectionStart (req : Request) (s : EspWifi) :
    (handleConfig req s).wifiConnectionStart = s.wifiConnectionStart := by
  simp only [handleConfig]; split_ifs <;> simp

@[simp] theorem handleConfig_wifiAuthInfo (req : Request) (s : EspWifi) :
    (handleConfig req s).wifiAuthInfo = s.wifiAuthInfo := by
  simp only [handleConfig]; split_ifs <;> simp

@[simp] theorem handleClient_initialApPassword (inp : TickInput) (s : EspWifi) :
    (handleClient inp s).initialApPassword = s.initialApPassword := by
  unfold handleClient; split <;> simp

@[simp] theorem handleClient_configVersion (inp : TickInput) (s : EspWifi) :
    (handleClient inp s).configVersion = s.configVersion := by
  unfold handleClient; split <;> simp

@[simp] theorem handleClient_hasUpdateServer (inp : TickInput) (s : EspWifi) :
    (handleClient inp s).hasUpdateServer = s.hasUpdateServer := by
  unfold handleClient; split <;> simp

@[simp] theorem handleClient_configPin (inp : TickInput) (s : EspWifi) :
    (handleClient inp s).configPin = s.configPin := by
  unfold handleClient; split <;> simp

@[simp] theorem handleClient_statusPin (inp : TickInput) (s : EspWifi) :
    (handleClient inp s).statusPin = s.statusPin := by
  unfold handleClient; split <;> simp

@[simp] theorem handleClient_hasUpdatePath (inp : TickInput) (s : EspWifi) :
    (handleClient inp s).hasUpdatePath = s.hasUpdatePath := by
  unfold handleClient; split <;> simp

@[simp] theorem handleClient_forceDefaultPassword (inp : TickInput) (s : EspWifi) :
    (handleClient inp s).forceDefaultPassword = s.forceDefaultPassword := by
  unfold handleClient; split <;> simp

@[simp] theorem handleClient_skipApStartup (inp : TickInput) (s : EspWifi) :
    (handleClient inp s).skipApStartup = s.skipApStartup := by
  unfold handleClient; split <;> simp

@[simp] theorem handleClient_wifiConnectionTimeoutMs (inp : TickInput) (s : EspWifi) :
    (handleClient inp s).wifiConnectionTimeoutMs = s.wifiConnectionTimeoutMs := by
  unfold handleClient; split <;> simp

@[simp] theorem handleClient_state (inp : TickInput) (s : EspWifi) :
    (handleClient inp s).state = s.state := by
  unfold handleClient; split <;> simp

@[simp] theorem handleClient_apStartTimeMs (inp : TickInput) (s : EspWifi) :
    (handleClient inp s).apStartTimeMs = s.apStartTimeMs := by
  unfold handleClient; split <;> simp

@[simp] theorem handleClient_apConnectionStatus (inp : TickInput) (s : EspWifi) :
    (handleClient inp s).apConnectionStatus = s.apConnectionStatus := by
  unfold handleClient; split <;> simp

@[simp] theorem handleClient_hasWifiConnectionCallback (inp : TickInput) (s : EspWifi) :
    (handleClient inp s).hasWifiConnectionCallback = s.hasWifiConnectionCallback := by
  unfold handleClient; split <;> simp

@[simp] theorem handleClient_hasConfigSavedCallback (inp : TickInput) (s : EspWifi) :
    (handleClient inp s).hasConfigSavedCallback = s.hasConfigSavedCallback := by
  unfold handleClient; split <;> simp

@[simp] theorem handleClient_formValidator (inp : TickInput) (s : EspWifi) :
    (handleClient inp s).formValidator = s.formValidator := by
  unfold handleClient; split <;> simp

@[simp] theorem handleClient_wifiConnectionFailureHandler (inp : TickInput) (s : EspWifi) :
    (handleClient inp s).wifiConnectionFailureHandler = s.wifiConnectionFailureHandler := by
  unfold handleClient; split <;> simp

@[simp] theorem handleClient_internalBlinkOnMs (inp : TickInput) (s : EspWifi) :
    (handleClient inp s).internalBlinkOnMs = s.internalBlinkOnMs := by
  unfold handleClient; split <;> simp

@[simp] theorem handleClient_internalBlinkOffMs (inp : TickInput) (s : EspWifi) :
    (handleClient inp s).internalBlinkOffMs = s.internalBlinkOffMs := by
  unfold handleClient; split <;> simp

@[simp] theorem handleClient_blinkOnMs (inp : TickInput) (s : EspWifi) :
    (handleClient inp s).blinkOnMs = s.blinkOnMs := by
  unfold handleClient; split <;> simp

@[simp] theorem handleClient_blinkOffMs (inp : TickInput) (s : EspWifi) :
    (handleClient inp s).blinkOffMs = s.blinkOffMs := by
  unfold handleClient; split <;> simp

@[simp] theorem handleClient_blinkState (inp : TickInput) (s : EspWifi) :
    (handleClient inp s).blinkState = s.blinkState := by
  unfold handleClient; split <;> simp

@[simp] theorem handleClient_lastBlinkTime (inp : TickInput) (s : EspWifi) :
    (handleClient inp s).lastBlinkTime = s.lastBlinkTime := by
  unfold handleClient; split <;> simp

@[simp] theorem handleClient_wifiConnectionStart (inp : TickInput) (s : EspWifi) :
    (handleClient inp s).wifiConnectionStart = s.wifiConnectionStart := by
  unfold handleClient; split <;> simp

@[simp] theorem handleClient_wifiAuthInfo (inp : TickInput) (s : EspWifi) :
    (handleClient inp s).wifiAuthInfo = s.wifiAuthInfo := by
  unfold handleClient; split <;> simp

/-! ## Derived facts used by several theorems -/

@[simp] theorem doBlink_isWifiModePossible (now : Nat) (s : EspWifi) :
    isWifiModePossible (doBlink now s) = isWifiModePossible s := by
  simp [isWifiModePossible, apPassword]

theorem isWifiModePossible_eq_true_iff (s : EspWifi) :
    isWifiModePossible s = true ↔ (s.forceDefaultPassword = true ∨ firstChar s.apPassword = 0) := by
  simp [isWifiModePossible]

theorem changeState_state_eq (inp : TickInput) (n : State) (s : EspWifi) :
    (changeState inp n s).state =
      (match n with
       | .AP_MODE => if isWifiModePossible s then State.NOT_CONFIGURED else State.AP_MODE
       | other => other) := by
  cases n <;> simp only [changeState, emit, stateChanged_state]

theorem parameters_congr (s t : EspWifi)
    (h1 : t.thingNameParameter = s.thingNameParameter)
    (h2 : t.apPasswordParameter = s.apPasswordParameter)
    (h3 : t.wifiSsidParameter = s.wifiSsidParameter)
    (h4 : t.wifiPasswordParameter = s.wifiPasswordParameter)
    (h5 : t.apTimeoutParameter = s.apTimeoutParameter)
    (h6 : t.userParameters = s.userParameters) : t.parameters = s.parameters := by
  simp [parameters, h1, h2, h3, h4, h5, h6]

theorem stateChanged_AP_log (inp : TickInput) (o n : State) (s : EspWifi)
    (hn : n = State.AP_MODE ∨ n = State.NOT_CONFIGURED) (hs : s.state = n) :
    (stateChanged inp o n s).log =
      s.log ++ ([Event.apConnectionHandler (cstr s.thingName)
          (if n = State.NOT_CONFIGURED then cstr s.initialApPassword else cstr s.apPassword),
        Event.dnsStart] ++ ((if s.hasUpdateServer then [Event.updateServerSetup] else [])
        ++ [Event.serverBegin])) := by
  rcases hn with rfl | rfl
  · simp only [stateChanged]
    by_cases hu : s.hasUpdateServer = true <;>
      simp [setupAp, emit, hs, thingName, apPassword, hu]
  · simp only [stateChanged]
    by_cases hu : s.hasUpdateServer = true <;>
      simp [setupAp, emit, hs, thingName, apPassword, hu]

theorem stateChanged_CONNECTING_log (inp : TickInput) (o : State) (s : EspWifi) :
    (stateChanged inp o .CONNECTING s).log =
      s.log ++ ((if o = State.AP_MODE ∨ o = State.NOT_CONFIGURED then [Event.stopAp] else [])
        ++ [Event.wifiConnectionHandler s.currentAuthInfo.ssid s.currentAuthInfo.password]) := by
  simp only [stateChanged]
  split_ifs <;> simp [emit, stopAp, currentAuthInfo, wifiSsid, wifiPassword]

theorem changeState_CONNECTING_log (inp : TickInput) (s : EspWifi) :
    (changeState inp .CONNECTING s).log =
      s.log ++ ([Event.stateChanging s.state .CONNECTING] ++
        ((if s.state = State.AP_MODE ∨ s.state = State.NOT_CONFIGURED then [Event.stopAp] else [])
        ++ [Event.wifiConnectionHandler s.currentAuthInfo.ssid s.currentAuthInfo.password,
            Event.stateChanged s.state .CONNECTING])) := by
  simp only [changeState, emit, stateChanged_CONNECTING_log]
  simp [currentAuthInfo, wifiSsid, wifiPassword]

theorem changeState_wifiConnectionStart (inp : TickInput) (s : EspWifi) :
    (changeState inp .CONNECTING s).wifiConnectionStart = toULong inp.millisEntry := by
  simp [changeState, stateChanged, emit]

/-! ## Persistent region: reads after writes -/

theorem eepromWrite_length (data : List Byte) (a : Int) (v : Byte) :
    (eepromWrite data a v).length = data.length := by
  unfold eepromWrite; split <;> simp

theorem eepromRead_eepromWrite (data : List Byte) (a b : Int) (v : Byte) :
    eepromRead (eepromWrite data a v) b =
      if b = a ∧ 0 ≤ a ∧ a < (data.length : Int) then v else eepromRead data b := by
  unfold eepromWrite
  by_cases hout : a < 0 ∨ (data.length : Int) ≤ a
  · rw [if_pos hout]
    have : ¬ (b = a ∧ 0 ≤ a ∧ a < (data.length : Int)) := by omega
    rw [if_neg this]
  · rw [if_neg hout]
    have ha0 : 0 ≤ a := by omega
    have hal : a < (data.length : Int) := by omega
    unfold eepromRead
    simp only [List.length_set]
    by_cases hb : b = a
    · subst hb
      rw [if_neg hout, if_pos ⟨rfl, ha0, hal⟩]
      have : b.toNat < data.length := by omega
      simp [List.getD_eq_getElem?_getD, this]
    · have hne : ¬ (b = a ∧ 0 ≤ a ∧ a < (data.length : Int)) := fun h => hb h.1
      rw [if_neg hne]
      by_cases hbout : b < 0 ∨ (data.length : Int) ≤ b
      · rw [if_pos hbout, if_pos hbout]
      · rw [if_neg hbout, if_neg hbout]
        have hnn : a.toNat ≠ b.toNat := by omega
        simp [List.getD_eq_getElem?_getD, List.getElem?_set_ne hnn]

/-- The write loop shared by `writeEepromValue` and `configSaveConfigVersion`. -/
theorem writeLoop_length (g : Nat → Byte) (start : Int) (n : Nat) (data : List Byte) :
    ((List.range n).foldl (fun d (t : Nat) => eepromWrite d (start + (t : Int)) (g t)) data).length
      = data.length := by
  induction n with
  | zero => simp
  | succ n ih => rw [List.range_succ, List.foldl_append]; simp [eepromWrite_length, ih]

theorem writeLoop_read (g : Nat → Byte) (start : Int) (n : Nat) (data : List Byte) (a : Int) :
    eepromRead ((List.range n).foldl
        (fun d (t : Nat) => eepromWrite d (start + (t : Int)) (g t)) data) a =
      if start ≤ a ∧ a < start + (n : Int) ∧ 0 ≤ a ∧ a < (data.length : Int)
      then g (a - start).toNat else eepromRead data a := by
  induction n with
  | zero =>
    have : ¬ (start ≤ a ∧ a < start + ((0 : Nat) : Int) ∧ 0 ≤ a ∧ a < (data.length : Int)) := by
      omega
    rw [if_neg this]
    rfl
  | succ n ih =>
    rw [List.range_succ, List.foldl_append]
    simp only [List.foldl_cons, List.foldl_nil]
    rw [eepromRead_eepromWrite, ih, writeLoop_length]
    by_cases h1 : a = start + (n : Int) ∧ 0 ≤ start + (n : Int) ∧
        start + (n : Int) < (data.length : Int)
    · rw [if_pos h1]
      have h2 : start ≤ a ∧ a < start + ((n + 1 : Nat) : Int) ∧ 0 ≤ a ∧
          a < (data.length : Int) := by omega
      rw [if_pos h2]
      congr 1
      omega
    · rw [if_neg h1]
      by_cases h3 : start ≤ a ∧ a < start + (n : Int) ∧ 0 ≤ a ∧ a < (data.length : Int)
      · have h2 : start ≤ a ∧ a < start + ((n + 1 : Nat) : Int) ∧ 0 ≤ a ∧
            a < (data.length : Int) := by omega
        rw [if_pos h3, if_pos h2]
      · have h2 : ¬ (start ≤ a ∧ a < start + ((n + 1 : Nat) : Int) ∧ 0 ≤ a ∧
            a < (data.length : Int)) := by omega
        rw [if_neg h3, if_neg h2]

theorem set_same (buf : List Byte) (n : Nat) (hn : n < buf.length) :
    buf.set n buf[n] = buf := by
  apply List.ext_getElem (by simp)
  intro i h1 h2
  rw [List.getElem_set]
  split
  · next h => subst h; rfl
  · rfl

theorem readLoop_self (f : Nat → Byte) (n : Nat) (buf : List Byte)
    (h : ∀ t, t < n → f t = buf.getD t 0) :
    (List.range n).foldl (fun b (t : Nat) => b.set t (f t)) buf = buf := by
  induction n with
  | zero => simp
  | succ n ih =>
    rw [List.range_succ, List.foldl_append, ih (fun t ht => h t (Nat.lt_succ_of_lt ht))]
    simp only [List.foldl_cons, List.foldl_nil]
    rw [h n (Nat.lt_succ_self n)]
    by_cases hn : n < buf.length
    · simp [List.getD_eq_getElem?_getD, hn, set_same]
    · rw [List.set_eq_of_length_le (Nat.le_of_not_lt hn)]


theorem writeEepromValue_length (data : List Byte) (start : Int) (buf : List Byte) (len : Int) :
    (writeEepromValue data start buf len).length = data.length :=
  writeLoop_length (fun t => buf.getD t 0) start len.toNat data

theorem saveParameters_length (ps : List EspWifiParameter) (data : List Byte) (start : Int) :
    (saveParameters data start ps).length = data.length := by
  induction ps generalizing data start with
  | nil => rfl
  | cons p rest ih =>
    simp only [saveParameters]
    split
    · rw [ih, writeEepromValue_length]
    · rw [ih]

theorem saveParameters_read_before (ps : List EspWifiParameter)
    (hnn : ∀ p ∈ ps, 0 ≤ p.length) (data : List Byte) (start a : Int) (ha : a < start) :
    eepromRead (saveParameters data start ps) a = eepromRead data a := by
  induction ps generalizing data start with
  | nil => rfl
  | cons p rest ih =>
    have hp : 0 ≤ p.length := hnn p (List.mem_cons_self _ _)
    have hrest : ∀ q ∈ rest, 0 ≤ q.length := fun q hq => hnn q (List.mem_cons_of_mem _ hq)
    simp only [saveParameters]
    split
    · rw [ih hrest _ _ (by simp only [EspWifiParameter.getLength]; omega)]
      unfold writeEepromValue
      rw [writeLoop_read]
      have : ¬ (start ≤ a ∧ a < start + ((p.getLength.toNat : Nat) : Int) ∧ 0 ≤ a ∧
          a < (data.length : Int)) := by omega
      rw [if_neg this]
    · exact ih hrest _ _ ha

theorem loadParameters_length (data : List Byte) (ps : List EspWifiParameter) (start : Int) :
    (loadParameters data start ps).length = ps.length := by
  induction ps generalizing start with
  | nil => rfl
  | cons p rest ih =>
    simp only [loadParameters]
    split <;> simp [ih]

theorem loadBody_eq (p : EspWifiParameter) (hid : p.getId.isSome = true) :
    { p with valueBuffer :=
        (match p.defaultValue with
          | some defaultValue =>
            if strlen p.valueBuffer = 0 then strncpy p.valueBuffer defaultValue p.getLength.toNat
            else p.valueBuffer
          | none => p.valueBuffer) } =
      (if p.getId.isSome ∧ strlen p.valueBuffer = 0 then
          { p with valueBuffer :=
              (p.defaultValue.map
                (fun d => strncpy p.valueBuffer d p.getLength.toNat)).getD p.valueBuffer }
        else p) := by
  obtain ⟨label, id, buf, len, type, placeholder, dflt, html, visible, err⟩ := p
  simp only [EspWifiParameter.getId] at hid
  cases dflt with
  | none => by_cases hz : strlen buf = 0 <;> simp [hz, EspWifiParameter.getId, hid]
  | some d => by_cases hz : strlen buf = 0 <;> simp [hz, EspWifiParameter.getId, hid]

/-- Reading back what `configSave` wrote: every parameter with an id gets its own
buffer back, and then its default value if the buffer holds an empty text and a
default value is declared. -/
theorem loadParameters_saveParameters (ps : List EspWifiParameter)
    (hnn : ∀ p ∈ ps, 0 ≤ p.length) (data : List Byte) (start : Int) (h0 : 0 ≤ start)
    (hfit : start + ((ps.filter (fun p => p.getId.isSome)).map (fun p => p.getLength)).sum
      ≤ (data.length : Int)) :
    loadParameters (saveParameters data start ps) start ps =
      ps.map (fun p =>
        if p.getId.isSome ∧ strlen p.valueBuffer = 0 then
          { p with valueBuffer :=
              (p.defaultValue.map
                (fun d => strncpy p.valueBuffer d p.getLength.toNat)).getD p.valueBuffer }
        else p) := by
  induction ps generalizing data start with
  | nil => rfl
  | cons p rest ih =>
    have hp : 0 ≤ p.length := hnn p (List.mem_cons_self _ _)
    have hrest : ∀ q ∈ rest, 0 ≤ q.length := fun q hq => hnn q (List.mem_cons_of_mem _ hq)
    have hsum0 : ∀ qs : List EspWifiParameter, (∀ q ∈ qs, 0 ≤ q.length) →
        0 ≤ ((qs.filter (fun p => p.getId.isSome)).map (fun p => p.getLength)).sum := by
      intro qs hqs
      apply List.sum_nonneg
      intro x hx
      simp only [List.mem_map, List.mem_filter] at hx
      obtain ⟨q, ⟨hq, _⟩, rfl⟩ := hx
      exact hqs q hq
    by_cases hid : p.getId.isSome = true
    · have hfit2 : start + p.getLength +
          ((rest.filter (fun p => p.getId.isSome)).map (fun p => p.getLength)).sum
            ≤ (data.length : Int) := by
        simp only [List.filter_cons, hid, if_true, List.map_cons, List.sum_cons] at hfit
        omega
      have hs0 := hsum0 rest hrest
      have hplen : p.getLength = p.length := rfl
      have hread : readEepromValue
          (saveParameters (writeEepromValue data start p.valueBuffer p.getLength)
            (start + p.getLength) rest) start p.valueBuffer p.getLength = p.valueBuffer := by
        unfold readEepromValue
        apply readLoop_self
        intro t ht
        rw [saveParameters_read_before rest hrest _ _ _ (by omega)]
        unfold writeEepromValue
        rw [writeLoop_read]
        have hin : start ≤ start + (t : Int) ∧
            start + (t : Int) < start + ((p.getLength.toNat : Nat) : Int) ∧
            0 ≤ start + (t : Int) ∧ start + (t : Int) < (data.length : Int) := by omega
        rw [if_pos hin]
        congr 1
        omega
      simp only [saveParameters, loadParameters, hid, if_true, List.map_cons]
      rw [hread, ih hrest _ _ (by omega) (by rw [writeEepromValue_length]; exact hfit2)]
      congr 1
      have hb := loadBody_eq p hid
      simp only [hid, true_and] at hb ⊢
      exact hb
    · have hfit2 : start +
          ((rest.filter (fun p => p.getId.isSome)).map (fun p => p.getLength)).sum
            ≤ (data.length : Int) := by
        simpa [List.filter_cons, hid] using hfit
      simp only [saveParameters, loadParameters, hid, List.map_cons, Bool.false_eq_true,
        ↓reduceIte, false_and]
      rw [ih hrest _ _ h0 hfit2]


theorem setParameters_parameters (s : EspWifi) (ps : List EspWifiParameter)
    (h : ps.length = s.parameters.length) : (s.setParameters ps).parameters = ps := by
  match ps, h with
  | a :: b :: c :: d :: e :: rest, _ => rfl
  | [], h => simp [parameters] at h
  | [_], h => simp [parameters] at h
  | [_, _], h => simp [parameters] at h
  | [_, _, _], h => simp [parameters] at h
  | [_, _, _, _], h => simp [parameters] at h

theorem configSave_parameters (s : EspWifi) : (configSave s).parameters = s.parameters := by
  simp [parameters]

theorem configSave_eeprom (s : EspWifi) :
    (configSave s).eeprom = saveParameters s.configSaveConfigVersion
      (ESPWIFI_CONFIG_START + (ESPWIFI_CONFIG_VESION_LENGTH : Int)) s.parameters := by
  simp only [configSave]; split_ifs <;> simp

theorem configSave_configVersionAt (s : EspWifi) (t : Nat) :
    (configSave s).configVersionAt t = s.configVersionAt t := by
  simp [configVersionAt]

theorem configSaveConfigVersion_length (s : EspWifi) :
    s.configSaveConfigVersion.length = s.eeprom.length :=
  writeLoop_length (fun t => s.configVersionAt t) ESPWIFI_CONFIG_START
    ESPWIFI_CONFIG_VESION_LENGTH s.eeprom

theorem idLengths_nonneg (ps : List EspWifiParameter) (hnn : ∀ p ∈ ps, 0 ≤ p.length) :
    0 ≤ ((ps.filter (fun p => p.getId.isSome)).map (fun p => p.getLength)).sum := by
  apply List.sum_nonneg
  intro x hx
  simp only [List.mem_map, List.mem_filter] at hx
  obtain ⟨q, ⟨hq, _⟩, rfl⟩ := hx
  exact hnn q hq

theorem configTestVersion_configSave (s : EspWifi) (hnn : ∀ p ∈ s.parameters, 0 ≤ p.length)
    (hsize : (ESPWIFI_CONFIG_VESION_LENGTH : Int) ≤ (s.eeprom.length : Int)) :
    configTestVersion (configSave s) = true := by
  simp only [configTestVersion, List.all_eq_true, List.mem_range, beq_iff_eq]
  intro t ht
  simp only [ESPWIFI_CONFIG_VESION_LENGTH, ESPWIFI_CONFIG_START] at ht hsize ⊢
  rw [configSave_eeprom, configSave_configVersionAt,
    saveParameters_read_before _ hnn _ _ _
      (by simp only [ESPWIFI_CONFIG_VESION_LENGTH, ESPWIFI_CONFIG_START]; omega)]
  unfold configSaveConfigVersion
  rw [writeLoop_read]
  simp only [ESPWIFI_CONFIG_VESION_LENGTH, ESPWIFI_CONFIG_START]
  have hin : (0 : Int) ≤ 0 + (t : Int) ∧ (0 : Int) + (t : Int) < 0 + ((4 : Nat) : Int) ∧
      0 ≤ (0 : Int) + (t : Int) ∧ (0 : Int) + (t : Int) < (s.eeprom.length : Int) := by omega
  rw [if_pos hin]
  congr 1
  omega

/-- Saving and loading again on a region that holds the whole configuration. -/
theorem configLoad_configSave (s : EspWifi) (hnn : ∀ p ∈ s.parameters, 0 ≤ p.length)
    (hfit : ESPWIFI_CONFIG_START + (ESPWIFI_CONFIG_VESION_LENGTH : Int) +
      ((s.parameters.filter (fun p => p.getId.isSome)).map (fun p => p.getLength)).sum
        ≤ (s.eeprom.length : Int)) :
    (configLoad (configSave s)).1 = true ∧
    (configLoad (configSave s)).2.parameters =
      s.parameters.map (fun p =>
        if p.getId.isSome ∧ strlen p.valueBuffer = 0 then
          { p with valueBuffer :=
              (p.defaultValue.map
                (fun d => strncpy p.valueBuffer d p.getLength.toNat)).getD p.valueBuffer }
        else p) := by
  have hsum := idLengths_nonneg s.parameters hnn
  have hsize : (ESPWIFI_CONFIG_VESION_LENGTH : Int) ≤ (s.eeprom.length : Int) := by
    simp only [ESPWIFI_CONFIG_VESION_LENGTH, ESPWIFI_CONFIG_START] at hfit ⊢; omega
  have hv := configTestVersion_configSave s hnn hsize
  simp only [configLoad, hv, if_true]
  refine ⟨trivial, ?_⟩
  rw [setParameters_parameters _ _ (by rw [loadParameters_length])]
  rw [configSave_eeprom, configSave_parameters]
  apply loadParameters_saveParameters _ hnn
  · simp [ESPWIFI_CONFIG_VESION_LENGTH, ESPWIFI_CONFIG_START]
  · rw [configSaveConfigVersion_length]; exact hfit

theorem foldl_add_getLength (ps : List EspWifiParameter) (acc : Int) :
    ps.foldl (fun size current => size + current.getLength) acc =
      acc + (ps.map (fun p => p.getLength)).sum := by
  induction ps generalizing acc with
  | nil => simp
  | cons p rest ih => simp [ih]; omega

theorem idLengths_le (ps : List EspWifiParameter) (hnn : ∀ p ∈ ps, 0 ≤ p.length) :
    ((ps.filter (fun p => p.getId.isSome)).map (fun p => p.getLength)).sum
      ≤ (ps.map (fun p => p.getLength)).sum := by
  induction ps with
  | nil => simp
  | cons p rest ih =>
    have hp : 0 ≤ p.getLength := hnn p (List.mem_cons_self _ _)
    have hrest := ih (fun q hq => hnn q (List.mem_cons_of_mem _ hq))
    by_cases hid : p.getId.isSome = true
    · simp only [List.filter_cons, hid, if_true, List.map_cons, List.sum_cons]; omega
    · simp only [List.filter_cons, hid, List.map_cons, List.sum_cons, Bool.false_eq_true,
        ↓reduceIte]
      omega

/-- The region that `configInit` opens holds the whole configuration. -/
theorem configInit_fits (stored : Nat → Byte) (s : EspWifi)
    (hnn : ∀ p ∈ s.parameters, 0 ≤ p.length) :
    ESPWIFI_CONFIG_START + (ESPWIFI_CONFIG_VESION_LENGTH : Int) +
      ((s.parameters.filter (fun p => p.getId.isSome)).map (fun p => p.getLength)).sum
        ≤ ((configInit stored s).eeprom.length : Int) := by
  have h1 := idLengths_le s.parameters hnn
  have h2 := idLengths_nonneg s.parameters hnn
  simp only [configInit, eepromBegin, List.length_map, List.length_range, foldl_add_getLength,
    ESPWIFI_CONFIG_VESION_LENGTH, ESPWIFI_CONFIG_START] at *
  omega

theorem configInit_parameters (stored : Nat → Byte) (s : EspWifi) :
    (configInit stored s).parameters = s.parameters := rfl


/-! ## Config store: round trip and version tag -/

/-- C2: on a region one of whose four leading cells differs from the cell of the
compiled-in version tag at the same place, `configLoad` returns false and leaves
the whole object, so every value buffer, as it was. -/
theorem configLoad_wrong_version (s : EspWifi) (t : Nat)
    (ht : t < ESPWIFI_CONFIG_VESION_LENGTH)
    (hdiff : eepromRead s.eeprom (ESPWIFI_CONFIG_START + (t : Int)) ≠ s.configVersionAt t) :
    (configLoad s).1 = false ∧ (configLoad s).2 = s ∧
      (configLoad s).2.parameters.map (fun p => p.valueBuffer)
        = s.parameters.map (fun p => p.valueBuffer) := by
  have hv : configTestVersion s = false := by
    rw [Bool.eq_false_iff]
    intro h
    simp only [configTestVersion, List.all_eq_true, List.mem_range, beq_iff_eq] at h
    exact hdiff (h t ht)
  simp [configLoad, hv]

/-- C2, at an instance: a region that holds a configuration saved under the tag
"init", read by an object compiled with the tag "inix" (last cell differs). -/
theorem configLoad_wrong_version_witness :
    eepromRead ({ configuredThing with
        eeprom := [105, 110, 105, 116, 1, 2, 3], configVersion := [105, 110, 105, 120] }).eeprom
      (ESPWIFI_CONFIG_START + ((3 : Nat) : Int))
      ≠ ({ configuredThing with
        eeprom := [105, 110, 105, 116, 1, 2, 3],
        configVersion := [105, 110, 105, 120] }).configVersionAt 3 ∧
    (configLoad { configuredThing with
        eeprom := [105, 110, 105, 116, 1, 2, 3], configVersion := [105, 110, 105, 120] }).1
      = false :=
  ⟨by decide,
   (configLoad_wrong_version { configuredThing with
        eeprom := [105, 110, 105, 116, 1, 2, 3], configVersion := [105, 110, 105, 120] } 3
      (by decide) (by decide)).1⟩

/-! ## State machine: first tick and the AP-mode entry guard -/

/-- C3: when skip-AP was not requested, the first `doLoop` from `BOOT` ends in
`AP_MODE` or `NOT_CONFIGURED`, whatever the configuration and the inputs. -/
theorem doLoop_boot_without_skip (inp : TickInput) (s : EspWifi)
    (hboot : s.state = State.BOOT) (hskip : s.skipApStartup = false) :
    (doLoop inp s).state = State.AP_MODE ∨ (doLoop inp s).state = State.NOT_CONFIGURED := by
  simp only [doLoop, doBlink_state, hboot, doBlink_skipApStartup, hskip, changeState_state_eq,
    doBlink_isWifiModePossible]
  by_cases h : isWifiModePossible s = true <;> simp [h]

/-- C3, at an instance: the configured object, first tick at clock value 5. -/
theorem doLoop_boot_without_skip_witness :
    configuredThing.state = State.BOOT ∧ configuredThing.skipApStartup = false ∧
    ((doLoop (quietTick 5) configuredThing).state = State.AP_MODE ∨
      (doLoop (quietTick 5) configuredThing).state = State.NOT_CONFIGURED) :=
  ⟨rfl, rfl, doLoop_boot_without_skip (quietTick 5) configuredThing rfl rfl⟩

/-- C4: `changeState (AP_MODE)` records `NOT_CONFIGURED` when forced-default is
active or the stored AP password is empty, and `AP_MODE` otherwise; the state is
recorded before `stateChanged` runs, so that every entry side effect sees it: the
calls made by the transition start with the AP connection handler, which gets the
initial password exactly in the first case. -/
theorem changeState_AP_MODE_guard (inp : TickInput) (s : EspWifi) :
    ∃ target : State,
      target = (if s.forceDefaultPassword = true ∨ firstChar s.apPassword = 0
        then State.NOT_CONFIGURED else State.AP_MODE) ∧
      (changeState inp .AP_MODE s).state = target ∧
      changeState inp .AP_MODE s =
        emit (.stateChanged s.state target)
          (stateChanged inp s.state target
            { (emit (.stateChanging s.state target) s) with state := target }) ∧
      (changeState inp .AP_MODE s).log =
        s.log ++ ([Event.stateChanging s.state target,
          Event.apConnectionHandler (cstr s.thingName)
            (if target = State.NOT_CONFIGURED then cstr s.initialApPassword
              else cstr s.apPassword),
          Event.dnsStart] ++ (if s.hasUpdateServer then [Event.updateServerSetup] else []) ++
          [Event.serverBegin, Event.stateChanged s.state target]) := by
  have key : (if isWifiModePossible s = true then State.NOT_CONFIGURED else State.AP_MODE)
      = (if s.forceDefaultPassword = true ∨ firstChar s.apPassword = 0
        then State.NOT_CONFIGURED else State.AP_MODE) := by
    by_cases hf : s.forceDefaultPassword = true <;>
      by_cases hp : firstChar s.apPassword = 0 <;> simp [isWifiModePossible, hf, hp]
  refine ⟨_, rfl, ?_, ?_, ?_⟩
  · rw [changeState_state_eq]; exact key
  · rw [← key]; rfl
  · rw [← key]
    have htgt : (if isWifiModePossible s = true then State.NOT_CONFIGURED else State.AP_MODE)
        = State.AP_MODE ∨
        (if isWifiModePossible s = true then State.NOT_CONFIGURED else State.AP_MODE)
        = State.NOT_CONFIGURED := by
      split_ifs <;> simp
    simp only [changeState]
    rw [emit, stateChanged_AP_log _ _ _ _ htgt rfl]
    simp [emit, thingName, apPassword]

/-! ## State machine: the `CONNECTING` branch of `doLoop` -/

theorem doLoop_connecting_wait (inp : TickInput) (s : EspWifi)
    (hs : s.state = State.CONNECTING) (hc : inp.wifiConnected = false)
    (ht : ¬ s.wifiConnectionTimeoutMs < ulongSub inp.millisCheck s.wifiConnectionStart) :
    doLoop inp s = doBlink inp.millisBlink s := by
  simp [doLoop, hs, checkWifiConnection, hc, ht]

theorem doLoop_connecting_online (inp : TickInput) (s : EspWifi)
    (hs : s.state = State.CONNECTING) (hc : inp.wifiConnected = true) :
    doLoop inp s = changeState inp .ONLINE (doBlink inp.millisBlink s) := by
  simp [doLoop, hs, checkWifiConnection, hc]

theorem doLoop_connecting_fallback (inp : TickInput) (s : EspWifi)
    (hs : s.state = State.CONNECTING) (hc : inp.wifiConnected = false)
    (ht : s.wifiConnectionTimeoutMs < ulongSub inp.millisCheck s.wifiConnectionStart)
    (hh : callWifiConnectionFailureHandler inp s = none) :
    doLoop inp s = changeState inp .AP_MODE (emit .wifiDisconnect (doBlink inp.millisBlink s)) := by
  have hh2 : callWifiConnectionFailureHandler inp (emit .wifiDisconnect (doBlink inp.millisBlink s))
      = none := by
    rw [← hh]; simp [callWifiConnectionFailureHandler]
  simp [doLoop, hs, checkWifiConnection, hc, ht, hh2]

theorem doLoop_connecting_retry (inp : TickInput) (s : EspWifi) (alt : EspWifiAuthInfo)
    (hs : s.state = State.CONNECTING) (hc : inp.wifiConnected = false)
    (ht : s.wifiConnectionTimeoutMs < ulongSub inp.millisCheck s.wifiConnectionStart)
    (hh : callWifiConnectionFailureHandler inp s = some alt) :
    doLoop inp s = changeState inp .CONNECTING
      { (emit .wifiDisconnect (doBlink inp.millisBlink s)) with
        wifiAuthInfo := AuthPointer.alternate alt } := by
  have hh2 : callWifiConnectionFailureHandler inp (emit .wifiDisconnect (doBlink inp.millisBlink s))
      = some alt := by
    rw [← hh]; simp [callWifiConnectionFailureHandler]
  simp [doLoop, hs, checkWifiConnection, hc, ht, hh2]

theorem doLoops_append (a b : List TickInput) (s : EspWifi) :
    doLoops (a ++ b) s = doLoops b (doLoops a s) := by
  induction a generalizing s with
  | nil => rfl
  | cons inp rest ih => simp [doLoops, ih]

/-- While the link is down and the elapsed time has not passed the timeout, ticks in
`CONNECTING` only run the blink signal. -/
theorem doLoops_connecting_wait (pre : List TickInput) (s : EspWifi)
    (hs : s.state = State.CONNECTING)
    (hpre : ∀ inp ∈ pre, inp.wifiConnected = false ∧
      ulongSub inp.millisCheck s.wifiConnectionStart ≤ s.wifiConnectionTimeoutMs) :
    (doLoops pre s).state = State.CONNECTING ∧
    (doLoops pre s).wifiConnectionFailureHandler = s.wifiConnectionFailureHandler ∧
    (doLoops pre s).wifiConnectionStart = s.wifiConnectionStart ∧
    (doLoops pre s).wifiConnectionTimeoutMs = s.wifiConnectionTimeoutMs ∧
    (doLoops pre s).forceDefaultPassword = s.forceDefaultPassword ∧
    (doLoops pre s).apPasswordParameter = s.apPasswordParameter := by
  induction pre generalizing s with
  | nil => simp [doLoops, hs]
  | cons inp rest ih =>
    have h0 := hpre inp (List.mem_cons_self _ _)
    have hstep : doLoop inp s = doBlink inp.millisBlink s :=
      doLoop_connecting_wait inp s hs h0.1 (Nat.not_lt.mpr h0.2)
    have hrest := ih (doLoop inp s) (by rw [hstep]; simpa using hs) (by
      intro i hi
      rw [hstep]
      simpa using hpre i (List.mem_cons_of_mem _ hi))
    simp only [doLoops]
    rw [hstep] at hrest ⊢
    simpa using hrest

/-- C5 (amended): with the built-in failure handler and the link never connected,
every `doLoop` at which the time elapsed since the connect attempt started is at
most the station-connect timeout leaves the machine in `CONNECTING`, and the first
`doLoop` at which the elapsed time exceeds the timeout makes the transition that
targets `AP_MODE` (`NOT_CONFIGURED` is recorded by the entry guard when
forced-default is active or the stored AP password is empty). -/
theorem doLoops_connecting_timeout (s : EspWifi) (pre : List TickInput) (last : TickInput)
    (hs : s.state = State.CONNECTING)
    (hh : s.wifiConnectionFailureHandler = FailureHandler.builtin)
    (hpre : ∀ inp ∈ pre, inp.wifiConnected = false ∧
      ulongSub inp.millisCheck s.wifiConnectionStart ≤ s.wifiConnectionTimeoutMs)
    (hlast : last.wifiConnected = false)
    (hto : s.wifiConnectionTimeoutMs < ulongSub last.millisCheck s.wifiConnectionStart) :
    (∀ k, k ≤ pre.length → (doLoops (pre.take k) s).state = State.CONNECTING) ∧
    (doLoops (pre ++ [last]) s).state =
      (if s.forceDefaultPassword = true ∨ firstChar s.apPassword = 0
        then State.NOT_CONFIGURED else State.AP_MODE) := by
  constructor
  · intro k _
    exact (doLoops_connecting_wait (pre.take k) s hs
      (fun i hi => hpre i (List.mem_of_mem_take hi))).1
  · obtain ⟨h1, h2, h3, h4, h5, h6⟩ := doLoops_connecting_wait pre s hs hpre
    rw [doLoops_append]
    simp only [doLoops]
    rw [doLoop_connecting_fallback last _ h1 hlast (by rw [h3, h4]; exact hto)
      (by simp [callWifiConnectionFailureHandler, h2, hh, handleConnectWifiFailure])]
    rw [changeState_state_eq]
    simp only [isWifiModePossible_eq_true_iff]
    simp [h5, apPassword, h6]


/-- C5, at an instance: ticks at clock values 10000 and 30000 leave `connectingThing`
in `CONNECTING`, the tick at 30001 moves it on. -/
theorem doLoops_connecting_timeout_witness :
    (∀ inp ∈ [quietTick 10000, quietTick 30000], inp.wifiConnected = false ∧
      ulongSub inp.millisCheck connectingThing.wifiConnectionStart
        ≤ connectingThing.wifiConnectionTimeoutMs) ∧
    connectingThing.wifiConnectionTimeoutMs
      < ulongSub (quietTick 30001).millisCheck connectingThing.wifiConnectionStart ∧
    (doLoops ([quietTick 10000, quietTick 30000] ++ [quietTick 30001]) connectingThing).state =
      (if connectingThing.forceDefaultPassword = true ∨ firstChar connectingThing.apPassword = 0
        then State.NOT_CONFIGURED else State.AP_MODE) :=
  ⟨by decide, by decide,
   (doLoops_connecting_timeout connectingThing [quietTick 10000, quietTick 30000]
      (quietTick 30001) rfl rfl (by decide) rfl (by decide)).2⟩

/-- C5 as stated fails: at the tick at which the elapsed time has reached the
timeout (30000 of 30000) the machine is still in `CONNECTING`, not in `AP_MODE`. -/
theorem doLoop_connecting_at_timeout_stays :
    connectingThing.state = State.CONNECTING ∧
    connectingThing.wifiConnectionFailureHandler = FailureHandler.builtin ∧
    (quietTick 30000).wifiConnected = false ∧
    ulongSub (quietTick 30000).millisCheck connectingThing.wifiConnectionStart
      = connectingThing.wifiConnectionTimeoutMs ∧
    (doLoop (quietTick 30000) connectingThing).state = State.CONNECTING := by
  decide

theorem checkApTimeout_state_eq (inp : TickInput) (s : EspWifi) :
    (checkApTimeout inp s).state =
      (if (firstChar s.wifiSsid ≠ 0 ∧ firstChar s.apPassword ≠ 0 ∧ ¬ s.forceDefaultPassword) ∧
          (s.apConnectionStatus = .DC ∨
            (s.apTimeoutMs < ulongSub inp.millisCheck s.apStartTimeMs ∧
              s.apConnectionStatus ≠ .C))
        then State.CONNECTING else s.state) := by
  simp only [checkApTimeout]
  split_ifs with h1 h2 h3 h4 <;> first | rfl | (exfalso; tauto) | (simp [changeState_state_eq])

theorem doLoop_ap_state (inp : TickInput) (s : EspWifi)
    (hs : s.state = State.AP_MODE ∨ s.state = State.NOT_CONFIGURED) :
    (doLoop inp s).state =
      (checkApTimeout inp (checkConnection inp (doBlink inp.millisBlink s))).state := by
  rcases hs with hs | hs <;> simp [doLoop, hs]

/-- No `doLoop` ends in `BOOT`: the objects in `BOOT` are those that have not run
a tick yet, and `_wifiAuthInfo` is written by `checkWifiConnection` only. -/
theorem doLoop_state_ne_BOOT (inp : TickInput) (s : EspWifi) :
    (doLoop inp s).state ≠ State.BOOT := by
  cases hs : s.state with
  | BOOT =>
    simp only [doLoop, doBlink_state, hs, changeState_state_eq]
    split_ifs <;> simp
  | NOT_CONFIGURED =>
    rw [doLoop_ap_state inp s (Or.inr hs), checkApTimeout_state_eq]
    split_ifs <;> simp [hs]
  | AP_MODE =>
    rw [doLoop_ap_state inp s (Or.inl hs), checkApTimeout_state_eq]
    split_ifs <;> simp [hs]
  | CONNECTING =>
    by_cases hc : inp.wifiConnected = true
    · rw [doLoop_connecting_online inp s hs hc, changeState_state_eq]
      simp
    · have hc2 : inp.wifiConnected = false := by simpa using hc
      by_cases ht : s.wifiConnectionTimeoutMs < ulongSub inp.millisCheck s.wifiConnectionStart
      · cases hh : callWifiConnectionFailureHandler inp s with
        | none =>
          rw [doLoop_connecting_fallback inp s hs hc2 ht hh, changeState_state_eq]
          split_ifs <;> simp
        | some alt =>
          rw [doLoop_connecting_retry inp s alt hs hc2 ht hh, changeState_state_eq]
          simp
      · rw [doLoop_connecting_wait inp s hs hc2 ht]
        simp [hs]
  | ONLINE =>
    simp only [doLoop, doBlink_state, hs]
    split_ifs <;> simp [changeState_state_eq, hs]

/-- C6: the first `doLoop` from `BOOT` ends in `CONNECTING` exactly when skip-AP
was requested, the stored AP password is not empty and forced-default is not
active; it then calls the station-connect handler once, with the stored station
SSID and password (`_wifiAuthInfo` still points to the stored buffers in `BOOT`). -/
theorem doLoop_boot_connecting (inp : TickInput) (s : EspWifi)
    (hboot : s.state = State.BOOT) (hauth : s.wifiAuthInfo = AuthPointer.stored) :
    ((doLoop inp s).state = State.CONNECTING ↔
      (s.skipApStartup = true ∧ firstChar s.apPassword ≠ 0 ∧ s.forceDefaultPassword = false)) ∧
    ((doLoop inp s).state = State.CONNECTING →
      (doLoop inp s).log = (doBlink inp.millisBlink s).log ++
        [Event.stateChanging .BOOT .CONNECTING,
         Event.wifiConnectionHandler (cstr s.wifiSsid) (cstr s.wifiPassword),
         Event.stateChanged .BOOT .CONNECTING]) := by
  have hst : (doLoop inp s).state =
      (if s.skipApStartup = true ∧ firstChar s.apPassword ≠ 0 ∧ s.forceDefaultPassword = false
        then State.CONNECTING
        else if isWifiModePossible s then State.NOT_CONFIGURED else State.AP_MODE) := by
    simp only [doLoop, doBlink_state, hboot, doBlink_skipApStartup, changeState_state_eq,
      doBlink_isWifiModePossible]
    by_cases hk : s.skipApStartup = true <;> by_cases hf : s.forceDefaultPassword = true <;>
      by_cases hp : firstChar s.apPassword = 0 <;> simp [isWifiModePossible, hk, hf, hp]
  constructor
  · rw [hst]
    split_ifs with h1 h2 <;> simp [h1]
  · intro hc
    rw [hst] at hc
    have hcond : s.skipApStartup = true ∧ firstChar s.apPassword ≠ 0 ∧
        s.forceDefaultPassword = false := by
      by_contra hn
      rw [if_neg hn] at hc
      split_ifs at hc
    obtain ⟨hk, hp, hf⟩ := hcond
    have hposs : isWifiModePossible s = false := by
      simp [isWifiModePossible, hf, hp]
    simp only [doLoop, doBlink_state, hboot, doBlink_skipApStartup, hk,
      doBlink_isWifiModePossible, hposs, if_true, Bool.false_eq_true, if_false]
    rw [changeState_CONNECTING_log]
    simp [currentAuthInfo, hauth, hboot, wifiSsid, wifiPassword]


/-- C6, at an instance: the configured object after `skipApStartup ()`. -/
theorem doLoop_boot_connecting_witness :
    skipApThing.state = State.BOOT ∧ skipApThing.wifiAuthInfo = AuthPointer.stored ∧
    ((doLoop (quietTick 5) skipApThing).state = State.CONNECTING ↔
      (skipApThing.skipApStartup = true ∧ firstChar skipApThing.apPassword ≠ 0 ∧
        skipApThing.forceDefaultPassword = false)) :=
  ⟨rfl, rfl, (doLoop_boot_connecting (quietTick 5) skipApThing rfl rfl).1⟩

/-! ## State machine: leaving the AP states -/

theorem doLoop_ap_forceDefaultPassword (inp : TickInput) (s : EspWifi)
    (hs : s.state = State.AP_MODE ∨ s.state = State.NOT_CONFIGURED) :
    (doLoop inp s).forceDefaultPassword =
      (checkConnection inp (doBlink inp.millisBlink s)).forceDefaultPassword := by
  rcases hs with hs | hs <;> simp [doLoop, hs]

/-- C8 (amended): in `AP_MODE` or `NOT_CONFIGURED`, a `doLoop` on which the AP
client count reads zero after a client had been present moves the machine to
`CONNECTING` when the stored station SSID and AP password are not empty, whether
or not forced-default was active (that tick releases it), and leaves the state
unchanged when one of those stored values is empty. -/
theorem doLoop_ap_client_gone (inp : TickInput) (s : EspWifi)
    (hs : s.state = State.AP_MODE ∨ s.state = State.NOT_CONFIGURED)
    (hc : s.apConnectionStatus = ApConnectionState.C) (hn : inp.softAPgetStationNum = 0) :
    (firstChar s.wifiSsid ≠ 0 ∧ firstChar s.apPassword ≠ 0 →
      (doLoop inp s).state = State.CONNECTING) ∧
    (firstChar s.wifiSsid = 0 ∨ firstChar s.apPassword = 0 →
      (doLoop inp s).state = s.state) ∧
    (doLoop inp s).forceDefaultPassword = false := by
  have hcc : checkConnection inp (doBlink inp.millisBlink s) =
      { doBlink inp.millisBlink s with
        apConnectionStatus := ApConnectionState.DC, forceDefaultPassword := false } := by
    by_cases hf : s.forceDefaultPassword = true
    · simp [checkConnection, hc, hn, hf]
    · have hf2 : s.forceDefaultPassword = false := by simpa using hf
      simp only [checkConnection, hc, hn, doBlink_apConnectionStatus,
        doBlink_forceDefaultPassword, hf2]
      simp
  refine ⟨?_, ?_, ?_⟩
  · rintro ⟨h1, h2⟩
    rw [doLoop_ap_state inp s hs, hcc, checkApTimeout_state_eq]
    simp only [wifiSsid, apPassword] at *
    simp [h1, h2]
  · intro h
    rw [doLoop_ap_state inp s hs, hcc, checkApTimeout_state_eq]
    simp only [wifiSsid, apPassword] at *
    rcases h with h | h <;> simp [h]
  · rw [doLoop_ap_forceDefaultPassword inp s hs, hcc]


/-- C8, at an instance: `forcedThing`, whose AP client has gone. -/
theorem doLoop_ap_client_gone_witness :
    (forcedThing.state = State.AP_MODE ∨ forcedThing.state = State.NOT_CONFIGURED) ∧
    forcedThing.apConnectionStatus = ApConnectionState.C ∧
    (doLoop (quietTick 7) forcedThing).forceDefaultPassword = false :=
  ⟨by decide, rfl, (doLoop_ap_client_gone (quietTick 7) forcedThing (by decide) rfl rfl).2.2⟩

/-- C8 as stated fails: forced-default is active at the tick on which the AP
client count reads zero after a client was present, yet the state does not stay:
the machine moves from `NOT_CONFIGURED` to `CONNECTING`. -/
theorem doLoop_ap_client_gone_forced_moves :
    forcedThing.state = State.NOT_CONFIGURED ∧
    forcedThing.forceDefaultPassword = true ∧
    forcedThing.apConnectionStatus = ApConnectionState.C ∧
    (quietTick 7).softAPgetStationNum = 0 ∧
    (doLoop (quietTick 7) forcedThing).state = State.CONNECTING := by
  decide

/-- C9: when a connect attempt has timed out and the failure handler hands over
alternate credentials, `doLoop` stays in `CONNECTING`, makes them the current
`_wifiAuthInfo`, calls the station-connect handler with them and restarts the
attempt timer; the stored buffers (all parameters) and the persistent region are
left as they were. -/
theorem doLoop_connecting_alternate (inp : TickInput) (s : EspWifi) (alt : EspWifiAuthInfo)
    (hs : s.state = State.CONNECTING) (hc : inp.wifiConnected = false)
    (ht : s.wifiConnectionTimeoutMs < ulongSub inp.millisCheck s.wifiConnectionStart)
    (hh : callWifiConnectionFailureHandler inp s = some alt) :
    (doLoop inp s).state = State.CONNECTING ∧
    (doLoop inp s).wifiAuthInfo = AuthPointer.alternate alt ∧
    (doLoop inp s).currentAuthInfo = alt ∧
    (doLoop inp s).log = (doBlink inp.millisBlink s).log ++
      [Event.wifiDisconnect, Event.stateChanging .CONNECTING .CONNECTING,
       Event.wifiConnectionHandler alt.ssid alt.password,
       Event.stateChanged .CONNECTING .CONNECTING] ∧
    (doLoop inp s).wifiConnectionStart = toULong inp.millisEntry ∧
    (doLoop inp s).wifiSsid = s.wifiSsid ∧
    (doLoop inp s).wifiPassword = s.wifiPassword ∧
    (doLoop inp s).parameters = s.parameters ∧
    (doLoop inp s).eeprom = s.eeprom := by
  rw [doLoop_connecting_retry inp s alt hs hc ht hh]
  refine ⟨?_, ?_, ?_, ?_, ?_, ?_, ?_, ?_, ?_⟩
  · simp [changeState_state_eq]
  · simp
  · simp [currentAuthInfo]
  · rw [changeState_CONNECTING_log]
    simp [currentAuthInfo, emit, hs]
  · rw [changeState_wifiConnectionStart]
  · simp [wifiSsid]
  · simp [wifiPassword]
  · apply parameters_congr <;> simp
  · simp


/-- C9, at an instance: `retryThing` at clock value 30001, the user handler hands
over "guest" / "guestpass". -/
theorem doLoop_connecting_alternate_witness :
    retryThing.state = State.CONNECTING ∧
    retryThing.wifiConnectionTimeoutMs
      < ulongSub retryTick.millisCheck retryThing.wifiConnectionStart ∧
    (doLoop retryTick retryThing).state = State.CONNECTING ∧
    (doLoop retryTick retryThing).currentAuthInfo =
      { ssid := [103, 117, 101, 115, 116],
        password := [103, 117, 101, 115, 116, 112, 97, 115, 115] } :=
  ⟨rfl, by decide,
   (doLoop_connecting_alternate retryTick retryThing _ rfl rfl (by decide) rfl).1,
   (doLoop_connecting_alternate retryTick retryThing _ rfl rfl (by decide) rfl).2.2.1⟩

/-! ## Portal request handler: form validation -/

theorem validateForm_cleared (s : EspWifi) :
    (s.setParameters (s.parameters.map clearErrorMessage)).thingNameParameter
        = clearErrorMessage s.thingNameParameter ∧
    (s.setParameters (s.parameters.map clearErrorMessage)).apPasswordParameter
        = clearErrorMessage s.apPasswordParameter ∧
    (s.setParameters (s.parameters.map clearErrorMessage)).wifiPasswordParameter
        = clearErrorMessage s.wifiPasswordParameter := by
  simp [setParameters, parameters]

theorem validateThingName_fst (req : Request) (vs : Bool × EspWifi) :
    (validateThingName req vs).1 =
      (vs.1 && decide (3 ≤ (argOf req vs.2.thingNameParameter.getId).length)) := by
  simp only [validateThingName]
  split_ifs with h
  · have : ¬ 3 ≤ (argOf req vs.2.thingNameParameter.getId).length := by omega
    simp [this]
  · have : 3 ≤ (argOf req vs.2.thingNameParameter.getId).length := by omega
    simp [this]

theorem validateApPassword_fst (req : Request) (vs : Bool × EspWifi) :
    (validateApPassword req vs).1 =
      (vs.1 && decide ((argOf req vs.2.apPasswordParameter.getId).length = 0 ∨
        8 ≤ (argOf req vs.2.apPasswordParameter.getId).length)) := by
  simp only [validateApPassword]
  split_ifs with h
  · have : ¬ ((argOf req vs.2.apPasswordParameter.getId).length = 0 ∨
        8 ≤ (argOf req vs.2.apPasswordParameter.getId).length) := by omega
    simp only [this, decide_False, Bool.and_false]
  · have : (argOf req vs.2.apPasswordParameter.getId).length = 0 ∨
        8 ≤ (argOf req vs.2.apPasswordParameter.getId).length := by omega
    simp only [this, decide_True, Bool.and_true]

theorem validateWifiPassword_fst (req : Request) (vs : Bool × EspWifi) :
    (validateWifiPassword req vs).1 =
      (vs.1 && decide ((argOf req vs.2.wifiPasswordParameter.getId).length = 0 ∨
        8 ≤ (argOf req vs.2.wifiPasswordParameter.getId).length)) := by
  simp only [validateWifiPassword]
  split_ifs with h
  · have : ¬ ((argOf req vs.2.wifiPasswordParameter.getId).length = 0 ∨
        8 ≤ (argOf req vs.2.wifiPasswordParameter.getId).length) := by omega
    simp only [this, decide_False, Bool.and_false]
  · have : (argOf req vs.2.wifiPasswordParameter.getId).length = 0 ∨
        8 ≤ (argOf req vs.2.wifiPasswordParameter.getId).length := by omega
    simp only [this, decide_True, Bool.and_true]

theorem validateThingName_thingNameParameter (req : Request) (vs : Bool × EspWifi) :
    (validateThingName req vs).2.thingNameParameter =
      (if (argOf req vs.2.thingNameParameter.getId).length < 3 then
        { vs.2.thingNameParameter with
          errorMessage := some "Give a name with at least 3 characters." }
       else vs.2.thingNameParameter) := by
  simp only [validateThingName]
  split_ifs <;> rfl

theorem validateApPassword_apPasswordParameter (req : Request) (vs : Bool × EspWifi) :
    (validateApPassword req vs).2.apPasswordParameter =
      (if 0 < (argOf req vs.2.apPasswordParameter.getId).length ∧
          (argOf req vs.2.apPasswordParameter.getId).length < 8 then
        { vs.2.apPasswordParameter with
          errorMessage := some "Password length must be at least 8 characters." }
       else vs.2.apPasswordParameter) := by
  simp only [validateApPassword]
  split_ifs <;> rfl

theorem validateWifiPassword_wifiPasswordParameter (req : Request) (vs : Bool × EspWifi) :
    (validateWifiPassword req vs).2.wifiPasswordParameter =
      (if 0 < (argOf req vs.2.wifiPasswordParameter.getId).length ∧
          (argOf req vs.2.wifiPasswordParameter.getId).length < 8 then
        { vs.2.wifiPasswordParameter with
          errorMessage := some "Password length must be at least 8 characters." }
       else vs.2.wifiPasswordParameter) := by
  simp only [validateWifiPassword]
  split_ifs <;> rfl

/-- C10 (amended): `validateForm` accepts a submission exactly when the external
form validator (if one is set) accepts it, the submitted device name has at least
3 characters, and each of the two built-in passwords (AP password, WiFi password)
that is submitted non-empty has at least 8 characters; each violated built-in rule
puts its error message on the built-in parameter concerned. -/
theorem validateForm_accepts_iff (req : Request) (s : EspWifi) :
    ((validateForm req s).1 = true ↔
      ((∀ formValidator, s.formValidator = some formValidator → formValidator req = true) ∧
       3 ≤ (argOf req s.thingNameParameter.getId).length ∧
       ((argOf req s.apPasswordParameter.getId).length = 0 ∨
          8 ≤ (argOf req s.apPasswordParameter.getId).length) ∧
       ((argOf req s.wifiPasswordParameter.getId).length = 0 ∨
          8 ≤ (argOf req s.wifiPasswordParameter.getId).length))) ∧
    ((argOf req s.thingNameParameter.getId).length < 3 →
      (validateForm req s).2.thingNameParameter.errorMessage
        = some "Give a name with at least 3 characters.") ∧
    ((0 < (argOf req s.apPasswordParameter.getId).length ∧
        (argOf req s.apPasswordParameter.getId).length < 8) →
      (validateForm req s).2.apPasswordParameter.errorMessage
        = some "Password length must be at least 8 characters.") ∧
    ((0 < (argOf req s.wifiPasswordParameter.getId).length ∧
        (argOf req s.wifiPasswordParameter.getId).length < 8) →
      (validateForm req s).2.wifiPasswordParameter.errorMessage
        = some "Password length must be at least 8 characters.") := by
  obtain ⟨h1, h2, h3⟩ := validateForm_cleared s
  have e1 : (clearErrorMessage s.thingNameParameter).getId = s.thingNameParameter.getId := rfl
  have e2 : (clearErrorMessage s.apPasswordParameter).getId = s.apPasswordParameter.getId := rfl
  have e3 : (clearErrorMessage s.wifiPasswordParameter).getId = s.wifiPasswordParameter.getId :=
    rfl
  refine ⟨?_, ?_, ?_, ?_⟩
  · simp only [validateForm, validateWifiPassword_fst, validateApPassword_fst,
      validateThingName_fst, validateApPassword_wifiPasswordParameter,
      validateThingName_wifiPasswordParameter, validateThingName_apPasswordParameter,
      h1, h2, h3, e1, e2, e3, setParameters_formValidator, Bool.and_eq_true,
      decide_eq_true_eq]
    cases hv : s.formValidator with
    | none => simp [and_assoc]
    | some f => simp [and_assoc]
  · intro hl
    simp only [validateForm, validateWifiPassword_thingNameParameter,
      validateApPassword_thingNameParameter, validateThingName_thingNameParameter, h1, e1,
      if_pos hl]
  · intro hl
    simp only [validateForm, validateWifiPassword_apPasswordParameter,
      validateApPassword_apPasswordParameter, validateThingName_apPasswordParameter, h2, e2,
      if_pos hl]
  · intro hl
    simp only [validateForm, validateWifiPassword_wifiPasswordParameter,
      validateApPassword_wifiPasswordParameter, validateThingName_wifiPasswordParameter, h3, e3,
      if_pos hl]

/-- C10 as stated fails: the submission `shortTokenRequest` carries the 3
characters "abc" for the password parameter "token", no external validator is
set, and `validateForm` accepts it. -/
theorem validateForm_accepts_short_token :
    (∃ p ∈ secretThing.parameters, p.isPassword = true ∧
      0 < (argOf shortTokenRequest p.getId).length ∧
      (argOf shortTokenRequest p.getId).length < 8) ∧
    secretThing.formValidator.isNone = true ∧
    (validateForm shortTokenRequest secretThing).1 = true := by
  decide

/-- C10, at an instance: a submission with the one-character device name "A" gets
the device-name error message. -/
theorem validateForm_accepts_iff_witness :
    (argOf shortNameRequest freshThing.thingNameParameter.getId).length < 3 ∧
    (validateForm shortNameRequest freshThing).2.thingNameParameter.errorMessage
      = some "Give a name with at least 3 characters." :=
  ⟨by decide, (validateForm_accepts_iff shortNameRequest freshThing).2.1 (by decide)⟩


/-! ## Portal request handler: the branches of `handleConfig` -/

theorem emit_log (e : Event) (s : EspWifi) : (emit e s).log = s.log ++ [e] := rfl

theorem emit_parameters (e : Event) (s : EspWifi) : (emit e s).parameters = s.parameters := rfl

theorem handleConfig_unauthenticated (req : Request) (s : EspWifi)
    (hs : s.state = State.ONLINE)
    (ha : req.authenticate ESPWIFI_ADMIN_USER_NAME (cstr s.apPassword) = false) :
    handleConfig req s = emit .requestAuthentication s := by
  simp [handleConfig, hs, ha]

theorem handleConfig_rejected (req : Request) (s : EspWifi)
    (hgate : s.state ≠ State.ONLINE ∨
      req.authenticate ESPWIFI_ADMIN_USER_NAME (cstr s.apPassword) = true)
    (hsave : req.hasArg "iotSave" = true) (hv : (validateForm req s).1 = false) :
    handleConfig req s = emit .sendConfigPage (validateForm req s).2 := by
  have hg : ¬ (s.state = State.ONLINE ∧
      ¬ req.authenticate ESPWIFI_ADMIN_USER_NAME (cstr s.apPassword) = true) := by
    rintro ⟨h1, h2⟩
    rcases hgate with h | h
    · exact h h1
    · exact h2 h
  unfold handleConfig
  rw [if_neg hg]
  simp only [hsave, not_true_eq_false, if_false]
  revert hv
  cases validateForm req s with
  | mk valid s1 =>
    intro hv
    simp only at hv
    simp [hv]

theorem handleConfig_accepted (req : Request) (s : EspWifi)
    (hgate : s.state ≠ State.ONLINE ∨
      req.authenticate ESPWIFI_ADMIN_USER_NAME (cstr s.apPassword) = true)
    (hsave : req.hasArg "iotSave" = true) (hv : (validateForm req s).1 = true) :
    handleConfig req s =
      emit .sendSavedPage (configSave ((validateForm req s).2.setParameters
        (applyParameters req (List.replicate ESPWIFI_WORD_LEN.toNat 0)
          (validateForm req s).2.parameters))) := by
  have hg : ¬ (s.state = State.ONLINE ∧
      ¬ req.authenticate ESPWIFI_ADMIN_USER_NAME (cstr s.apPassword) = true) := by
    rintro ⟨h1, h2⟩
    rcases hgate with h | h
    · exact h h1
    · exact h2 h
  unfold handleConfig
  rw [if_neg hg]
  simp only [hsave, not_true_eq_false, if_false]
  revert hv
  cases validateForm req s with
  | mk valid s1 =>
    intro hv
    simp only at hv
    simp [hv]

theorem clearErrorMessage_idem (p : EspWifiParameter) :
    clearErrorMessage (clearErrorMessage p) = clearErrorMessage p := rfl

theorem clearErrorMessage_withError (p : EspWifiParameter) (e : Option String) :
    clearErrorMessage { p with errorMessage := e } = clearErrorMessage p := rfl

theorem setParameters_cleared_fields (s : EspWifi) :
    (s.setParameters (s.parameters.map clearErrorMessage)).thingNameParameter
        = clearErrorMessage s.thingNameParameter ∧
    (s.setParameters (s.parameters.map clearErrorMessage)).apPasswordParameter
        = clearErrorMessage s.apPasswordParameter ∧
    (s.setParameters (s.parameters.map clearErrorMessage)).wifiSsidParameter
        = clearErrorMessage s.wifiSsidParameter ∧
    (s.setParameters (s.parameters.map clearErrorMessage)).wifiPasswordParameter
        = clearErrorMessage s.wifiPasswordParameter ∧
    (s.setParameters (s.parameters.map clearErrorMessage)).apTimeoutParameter
        = clearErrorMessage s.apTimeoutParameter ∧
    (s.setParameters (s.parameters.map clearErrorMessage)).userParameters
        = s.userParameters.map clearErrorMessage := by
  simp [setParameters, parameters]

/-- `validateForm` changes error messages only. -/
theorem validateForm_parameters_cleared (req : Request) (s : EspWifi) :
    (validateForm req s).2.parameters.map clearErrorMessage
      = s.parameters.map clearErrorMessage := by
  obtain ⟨h1, h2, h3, h4, h5, h6⟩ := setParameters_cleared_fields s
  simp only [parameters, List.map_cons, List.cons.injEq]
  simp only [validateForm]
  refine ⟨?_, ?_, ?_, ?_, ?_, ?_⟩
  · rw [validateWifiPassword_thingNameParameter, validateApPassword_thingNameParameter,
      validateThingName_thingNameParameter]
    split_ifs <;> simp only [clearErrorMessage_withError, h1, clearErrorMessage_idem]
  · rw [validateWifiPassword_apPasswordParameter, validateApPassword_apPasswordParameter,
      validateThingName_apPasswordParameter]
    split_ifs <;> simp only [clearErrorMessage_withError, h2, clearErrorMessage_idem]
  · rw [validateWifiPassword_wifiSsidParameter, validateApPassword_wifiSsidParameter,
      validateThingName_wifiSsidParameter]
    simp only [h3, clearErrorMessage_idem]
  · rw [validateWifiPassword_wifiPasswordParameter, validateApPassword_wifiPasswordParameter,
      validateThingName_wifiPasswordParameter]
    split_ifs <;> simp only [clearErrorMessage_withError, h4, clearErrorMessage_idem]
  · rw [validateWifiPassword_apTimeoutParameter, validateApPassword_apTimeoutParameter,
      validateThingName_apTimeoutParameter]
    simp only [h5, clearErrorMessage_idem]
  · rw [validateWifiPassword_userParameters, validateApPassword_userParameters,
      validateThingName_userParameters]
    simp only [h6, List.map_map]
    congr 1

theorem map_of_cleared {α : Type} (g : EspWifiParameter → α)
    (hg : ∀ p, g (clearErrorMessage p) = g p) (ps qs : List EspWifiParameter)
    (h : ps.map clearErrorMessage = qs.map clearErrorMessage) : ps.map g = qs.map g := by
  have h2 := congrArg (List.map g) h
  rw [List.map_map, List.map_map] at h2
  have hc : g ∘ clearErrorMessage = g := funext hg
  rwa [hc] at h2

theorem validateForm_valueBuffers (req : Request) (s : EspWifi) :
    (validateForm req s).2.parameters.map (fun p => p.valueBuffer)
      = s.parameters.map (fun p => p.valueBuffer) :=
  map_of_cleared (fun p => p.valueBuffer) (fun _ => rfl) _ _
    (validateForm_parameters_cleared req s)

theorem validateForm_fst_eq (req : Request) (s : EspWifi) :
    (validateForm req s).1 =
      (((((s.formValidator.map (fun formValidator => formValidator req)).getD true) &&
        decide (3 ≤ (argOf req s.thingNameParameter.getId).length)) &&
        decide ((argOf req s.apPasswordParameter.getId).length = 0 ∨
          8 ≤ (argOf req s.apPasswordParameter.getId).length)) &&
        decide ((argOf req s.wifiPasswordParameter.getId).length = 0 ∨
          8 ≤ (argOf req s.wifiPasswordParameter.getId).length)) := by
  obtain ⟨h1, h2, _, h4, _, _⟩ := setParameters_cleared_fields s
  have e1 : (clearErrorMessage s.thingNameParameter).getId = s.thingNameParameter.getId := rfl
  have e2 : (clearErrorMessage s.apPasswordParameter).getId = s.apPasswordParameter.getId := rfl
  have e4 : (clearErrorMessage s.wifiPasswordParameter).getId = s.wifiPasswordParameter.getId :=
    rfl
  simp only [validateForm, validateWifiPassword_fst, validateApPassword_fst,
    validateThingName_fst, validateApPassword_wifiPasswordParameter,
    validateThingName_wifiPasswordParameter, validateThingName_apPasswordParameter,
    h1, h2, h4, e1, e2, e4, setParameters_formValidator]
  cases s.formValidator <;> rfl

theorem validateForm_thingName_errorMessage (req : Request) (s : EspWifi) :
    (validateForm req s).2.thingNameParameter.errorMessage =
      (if (argOf req s.thingNameParameter.getId).length < 3
        then some "Give a name with at least 3 characters." else none) := by
  obtain ⟨h1, _, _, _, _, _⟩ := setParameters_cleared_fields s
  have e1 : (clearErrorMessage s.thingNameParameter).getId = s.thingNameParameter.getId := rfl
  simp only [validateForm, validateWifiPassword_thingNameParameter,
    validateApPassword_thingNameParameter, validateThingName_thingNameParameter, h1, e1]
  split_ifs <;> rfl

theorem validateForm_short_name (req : Request) (s : EspWifi)
    (hname : (argOf req s.thingNameParameter.getId).length < 3) :
    (validateForm req s).1 = false := by
  rw [validateForm_fst_eq]
  have : ¬ 3 ≤ (argOf req s.thingNameParameter.getId).length := by omega
  simp [this]

theorem validateForm_short_apPassword (req : Request) (s : EspWifi)
    (h0 : 0 < (argOf req s.apPasswordParameter.getId).length)
    (h8 : (argOf req s.apPasswordParameter.getId).length < 8) :
    (validateForm req s).1 = false := by
  rw [validateForm_fst_eq]
  have : ¬ ((argOf req s.apPasswordParameter.getId).length = 0 ∨
      8 ≤ (argOf req s.apPasswordParameter.getId).length) := by omega
  simp only [this, decide_False, Bool.and_false, Bool.false_and]

/-- A request that gets past the authentication, carries `iotSave` and fails
`validateForm` leaves value buffers and region alone and is answered by the
config page. -/
theorem handleConfig_invalid_frame (req : Request) (s : EspWifi)
    (hgate : s.state ≠ State.ONLINE ∨
      req.authenticate ESPWIFI_ADMIN_USER_NAME (cstr s.apPassword) = true)
    (hsave : req.hasArg "iotSave" = true) (hv : (validateForm req s).1 = false) :
    (handleConfig req s).parameters.map (fun p => p.valueBuffer)
      = s.parameters.map (fun p => p.valueBuffer) ∧
    (handleConfig req s).eeprom = s.eeprom ∧
    (handleConfig req s).log = s.log ++ [Event.sendConfigPage] := by
  rw [handleConfig_rejected req s hgate hsave hv]
  refine ⟨?_, ?_, ?_⟩
  · rw [emit_parameters]; exact validateForm_valueBuffers req s
  · simp
  · rw [emit_log]; simp

/-! ## Portal request handler: rejected and unauthenticated submissions -/

/-- C11 (amended): for every save submission whose device name has fewer than 3
characters and that is not stopped by the authentication of the `ONLINE` state,
`handleConfig` rejects it: the error message of the device-name parameter becomes
"Give a name with at least 3 characters." (with the full stop), no value buffer
changes, nothing is written to the persistent region, and the config page is the
only call made. -/
theorem handleConfig_short_name_rejected (req : Request) (s : EspWifi)
    (hgate : s.state ≠ State.ONLINE ∨
      req.authenticate ESPWIFI_ADMIN_USER_NAME (cstr s.apPassword) = true)
    (hsave : req.hasArg "iotSave" = true)
    (hname : (argOf req s.thingNameParameter.getId).length < 3) :
    (handleConfig req s).thingNameParameter.errorMessage
      = some "Give a name with at least 3 characters." ∧
    (handleConfig req s).parameters.map (fun p => p.valueBuffer)
      = s.parameters.map (fun p => p.valueBuffer) ∧
    (handleConfig req s).eeprom = s.eeprom ∧
    (handleConfig req s).log = s.log ++ [Event.sendConfigPage] := by
  have hv := validateForm_short_name req s hname
  refine ⟨?_, handleConfig_invalid_frame req s hgate hsave hv⟩
  rw [handleConfig_rejected req s hgate hsave hv, emit_thingNameParameter,
    validateForm_thingName_errorMessage, if_pos hname]

/-- C11, at an instance: the one-character device name "A" submitted to the
configured object in `AP_MODE`. -/
theorem handleConfig_short_name_rejected_witness :
    (apModeThing.state ≠ State.ONLINE ∨
      shortNameRequest.authenticate ESPWIFI_ADMIN_USER_NAME (cstr apModeThing.apPassword)
        = true) ∧
    shortNameRequest.hasArg "iotSave" = true ∧
    (argOf shortNameRequest apModeThing.thingNameParameter.getId).length < 3 ∧
    (handleConfig shortNameRequest apModeThing).thingNameParameter.errorMessage
      = some "Give a name with at least 3 characters." :=
  ⟨by decide, by decide, by decide,
   (handleConfig_short_name_rejected shortNameRequest apModeThing (by decide) (by decide)
      (by decide)).1⟩

/-- C11 as stated fails: in `ONLINE`, a save submission with the one-character
device name "A" that does not authenticate is answered by the authentication
request; the error message of the device-name parameter stays absent. -/
theorem handleConfig_short_name_unauthenticated :
    onlineThing.state = State.ONLINE ∧
    unauthenticatedShortNameRequest.hasArg "iotSave" = true ∧
    (argOf unauthenticatedShortNameRequest onlineThing.thingNameParameter.getId).length < 3 ∧
    (handleConfig unauthenticatedShortNameRequest onlineThing).thingNameParameter.errorMessage
      = none ∧
    (handleConfig unauthenticatedShortNameRequest onlineThing).log
      = [Event.requestAuthentication] := by
  decide

/-- C18: in `ONLINE`, a request that fails the authentication of user "admin" with
the current AP password is answered by the authentication request and by nothing
else: every parameter (value buffer and error message) and the persistent region
stay as they were, whatever submission the request carries. -/
theorem handleConfig_online_unauthenticated (req : Request) (s : EspWifi)
    (hs : s.state = State.ONLINE)
    (ha : req.authenticate "admin" (cstr s.apPassword) = false) :
    (handleConfig req s).parameters = s.parameters ∧
    (handleConfig req s).eeprom = s.eeprom ∧
    (handleConfig req s).log = s.log ++ [Event.requestAuthentication] ∧
    handleConfig req s = emit .requestAuthentication s := by
  have h := handleConfig_unauthenticated req s hs ha
  rw [h]
  exact ⟨rfl, rfl, rfl, rfl⟩

/-- C18, at an instance: the valid save submission `unauthenticatedApPasswordRequest`
sent to the configured object in `ONLINE` without valid credentials. -/
theorem handleConfig_online_unauthenticated_witness :
    onlineThing.state = State.ONLINE ∧
    unauthenticatedApPasswordRequest.authenticate "admin" (cstr onlineThing.apPassword)
      = false ∧
    (validateForm unauthenticatedApPasswordRequest onlineThing).1 = true ∧
    (handleConfig unauthenticatedApPasswordRequest onlineThing).parameters
      = onlineThing.parameters :=
  ⟨rfl, rfl, by decide,
   (handleConfig_online_unauthenticated unauthenticatedApPasswordRequest onlineThing rfl
      rfl).1⟩


/-! ## Config store: where each parameter lies in the region -/

theorem specOffset_zero (ps : List EspWifiParameter) :
    specOffset ps 0 = ESPWIFI_CONFIG_START + (ESPWIFI_CONFIG_VESION_LENGTH : Int) := by
  simp [specOffset]

theorem idSum_take_succ_cons (q : EspWifiParameter) (rest : List EspWifiParameter) (i : Nat) :
    ((((q :: rest).take (i + 1)).filter (fun p => p.getId.isSome)).map (fun p => p.getLength)).sum
      = (if q.getId.isSome then q.getLength else 0) +
        (((rest.take i).filter (fun p => p.getId.isSome)).map (fun p => p.getLength)).sum := by
  by_cases hq : q.getId.isSome = true
  · simp [List.take_succ_cons, List.filter_cons, hq]
  · simp [List.take_succ_cons, List.filter_cons, hq]

/-- The loop of `configSave` puts the cells of the parameter at place `i` behind
the cells of the parameters with an id before it. -/
theorem saveParameters_read_slot (ps : List EspWifiParameter)
    (hnn : ∀ p ∈ ps, 0 ≤ p.length) (data : List Byte) (start : Int) (h0 : 0 ≤ start)
    (hfit : start + ((ps.filter (fun p => p.getId.isSome)).map (fun p => p.getLength)).sum
      ≤ (data.length : Int))
    (i : Nat) (p : EspWifiParameter) (hp : ps[i]? = some p) (hid : p.getId.isSome = true)
    (t : Nat) (ht : t < p.getLength.toNat) :
    eepromRead (saveParameters data start ps)
      (start + (((ps.take i).filter (fun p => p.getId.isSome)).map (fun p => p.getLength)).sum
        + (t : Int)) = p.valueBuffer.getD t 0 := by
  induction ps generalizing data start i with
  | nil => simp at hp
  | cons q rest ih =>
    have hq : 0 ≤ q.length := hnn q (List.mem_cons_self _ _)
    have hrest : ∀ x ∈ rest, 0 ≤ x.length := fun x hx => hnn x (List.mem_cons_of_mem _ hx)
    have hs0 := idLengths_nonneg rest hrest
    cases i with
    | zero =>
      simp only [List.getElem?_cons_zero, Option.some.injEq] at hp
      subst hp
      have hfit2 : start + q.getLength +
          ((rest.filter (fun p => p.getId.isSome)).map (fun p => p.getLength)).sum
            ≤ (data.length : Int) := by
        simp only [List.filter_cons, hid, if_true, List.map_cons, List.sum_cons] at hfit
        omega
      have hql : q.getLength = q.length := rfl
      simp only [saveParameters, hid, if_true, List.take_zero, List.filter_nil, List.map_nil,
        List.sum_nil, add_zero]
      rw [saveParameters_read_before rest hrest _ _ _ (by omega)]
      unfold writeEepromValue
      rw [writeLoop_read]
      have hin : start ≤ start + (t : Int) ∧
          start + (t : Int) < start + ((q.getLength.toNat : Nat) : Int) ∧
          0 ≤ start + (t : Int) ∧ start + (t : Int) < (data.length : Int) := by omega
      rw [if_pos hin]
      congr 1
      omega
    | succ i =>
      simp only [List.getElem?_cons_succ] at hp
      rw [idSum_take_succ_cons]
      by_cases hqid : q.getId.isSome = true
      · have hfit2 : start + q.getLength +
            ((rest.filter (fun p => p.getId.isSome)).map (fun p => p.getLength)).sum
              ≤ (data.length : Int) := by
          simp only [List.filter_cons, hqid, if_true, List.map_cons, List.sum_cons] at hfit
          omega
        have hql : q.getLength = q.length := rfl
        simp only [saveParameters, hqid, if_true]
        have := ih hrest (writeEepromValue data start q.valueBuffer q.getLength)
          (start + q.getLength) (by omega) (by rw [writeEepromValue_length]; exact hfit2) i hp
        rw [← this]
        congr 1
        omega
      · have hfit2 : start +
            ((rest.filter (fun p => p.getId.isSome)).map (fun p => p.getLength)).sum
              ≤ (data.length : Int) := by
          simpa [List.filter_cons, hqid] using hfit
        simp only [saveParameters, hqid, Bool.false_eq_true, if_false, zero_add]
        exact ih hrest data start h0 hfit2 i hp

/-- The loop of `configLoad` fills the parameter at place `i` from the cells behind
those of the parameters with an id before it, and leaves a parameter without id
alone. -/
theorem loadParameters_getElem (data : List Byte) (ps : List EspWifiParameter) (start : Int)
    (i : Nat) (p : EspWifiParameter) (hp : ps[i]? = some p) :
    (loadParameters data start ps)[i]? = some
      (if p.getId.isSome then
        { p with valueBuffer :=
            (match p.defaultValue with
              | some defaultValue =>
                if strlen (readEepromValue data
                    (start + (((ps.take i).filter (fun p => p.getId.isSome)).map
                      (fun p => p.getLength)).sum) p.valueBuffer p.getLength) = 0
                then strncpy (readEepromValue data
                    (start + (((ps.take i).filter (fun p => p.getId.isSome)).map
                      (fun p => p.getLength)).sum) p.valueBuffer p.getLength)
                  defaultValue p.getLength.toNat
                else readEepromValue data
                    (start + (((ps.take i).filter (fun p => p.getId.isSome)).map
                      (fun p => p.getLength)).sum) p.valueBuffer p.getLength
              | none => readEepromValue data
                    (start + (((ps.take i).filter (fun p => p.getId.isSome)).map
                      (fun p => p.getLength)).sum) p.valueBuffer p.getLength) }
       else p) := by
  induction ps generalizing start i with
  | nil => simp at hp
  | cons q rest ih =>
    cases i with
    | zero =>
      simp only [List.getElem?_cons_zero, Option.some.injEq] at hp
      subst hp
      by_cases hid : q.getId.isSome = true
      · simp only [loadParameters, hid, if_true, List.getElem?_cons_zero, List.take_zero,
          List.filter_nil, List.map_nil, List.sum_nil, add_zero]
      · simp only [loadParameters, hid, Bool.false_eq_true, if_false,
          List.getElem?_cons_zero]
    | succ i =>
      simp only [List.getElem?_cons_succ] at hp
      rw [idSum_take_succ_cons]
      by_cases hqid : q.getId.isSome = true
      · simp only [loadParameters, hqid, if_true, List.getElem?_cons_succ]
        rw [ih (start + q.getLength) i hp]
        simp only [add_assoc]
      · simp only [loadParameters, hqid, Bool.false_eq_true, if_false,
          List.getElem?_cons_succ, zero_add]
        exact ih start i hp

theorem readLoop_eq_map (f : Nat → Byte) (n : Nat) (buf : List Byte) (hlen : buf.length = n) :
    (List.range n).foldl (fun b (t : Nat) => b.set t (f t)) buf = (List.range n).map f := by
  have key : ∀ k, k ≤ n →
      (List.range k).foldl (fun b (t : Nat) => b.set t (f t)) buf
        = (List.range k).map f ++ buf.drop k := by
    intro k
    induction k with
    | zero => intro _; simp
    | succ k ih =>
      intro hk
      rw [List.range_succ, List.foldl_append, ih (by omega)]
      simp only [List.foldl_cons, List.foldl_nil, List.map_append, List.map_cons, List.map_nil]
      have hl : ((List.range k).map f).length = k := by simp
      have hk2 : k < buf.length := by omega
      rw [List.set_append_right _ _ (by rw [hl]), hl, Nat.sub_self,
        List.drop_eq_getElem_cons hk2]
      simp only [List.set_cons_zero, List.append_assoc, List.singleton_append]
  have := key n (le_refl n)
  rw [this, ← hlen, List.drop_length, List.append_nil]

theorem readEepromValue_eq_slice (data : List Byte) (start : Int) (buf : List Byte) (len : Int)
    (hlen : buf.length = len.toNat) :
    readEepromValue data start buf len =
      (List.range len.toNat).map (fun (t : Nat) => eepromRead data (start + (t : Int))) :=
  readLoop_eq_map (fun (t : Nat) => eepromRead data (start + (t : Int))) len.toNat buf hlen

theorem strlen_eq_zero_iff (buf : List Byte) : strlen buf = 0 ↔ firstChar buf = 0 := by
  cases buf with
  | nil => simp [strlen, cstr, firstChar]
  | cons b bs =>
    by_cases hb : b = 0
    · simp [strlen, cstr, firstChar, hb, List.takeWhile_cons]
    · simp [strlen, cstr, firstChar, hb, List.takeWhile_cons]


theorem specOffset_succ (ps : List EspWifiParameter) (i : Nat) (p : EspWifiParameter)
    (hp : ps[i]? = some p) :
    specOffset ps (i + 1) = specOffset ps i + (if p.getId.isSome then p.getLength else 0) := by
  have hi : i < ps.length := by
    by_contra hn
    rw [List.getElem?_eq_none (by omega)] at hp
    exact Option.noConfusion hp
  have hpi : ps[i] = p := by
    rw [List.getElem?_eq_getElem hi] at hp
    exact Option.some.inj hp
  simp only [specOffset]
  rw [List.take_succ, List.getElem?_eq_getElem hi, hpi]
  by_cases hid : p.getId.isSome = true
  · simp [List.filter_append, List.filter_cons, hid]; omega
  · simp [List.filter_append, List.filter_cons, hid]

theorem configTestVersion_eq_true_iff (s : EspWifi) :
    configTestVersion s = true ↔
      ∀ t : Nat, t < ESPWIFI_CONFIG_VESION_LENGTH →
        eepromRead s.eeprom (ESPWIFI_CONFIG_START + (t : Int)) = s.configVersionAt t := by
  simp [configTestVersion, List.all_eq_true]

theorem configLoad_parameters_of_valid (s : EspWifi) (hv : configTestVersion s = true) :
    (configLoad s).1 = true ∧
    (configLoad s).2.parameters =
      loadParameters s.eeprom (ESPWIFI_CONFIG_START + (ESPWIFI_CONFIG_VESION_LENGTH : Int))
        s.parameters := by
  simp only [configLoad, hv, if_true]
  exact ⟨trivial, setParameters_parameters _ _ (loadParameters_length _ _ _)⟩

/-- C14: on a registry with non-negative capacities and a region that holds the
whole encoding, after `configSave` the cells 0..3 of the region are the version
tag and, for each parameter with an id, the cells from offset 4 + (capacities of
the parameters with an id before it) on are the cells of its value buffer; a
parameter without id takes no cells (the next offset is the same), and the loop
of `configLoad` fills each parameter from that same offset. -/
theorem configSave_layout (s : EspWifi)
    (hnn : ∀ p ∈ s.parameters, 0 ≤ p.getLength)
    (hfit : ESPWIFI_CONFIG_START + (ESPWIFI_CONFIG_VESION_LENGTH : Int) +
      ((s.parameters.filter (fun p => p.getId.isSome)).map (fun p => p.getLength)).sum
        ≤ (s.eeprom.length : Int)) :
    (∀ t : Nat, t < ESPWIFI_CONFIG_VESION_LENGTH →
      eepromRead (configSave s).eeprom (ESPWIFI_CONFIG_START + (t : Int))
        = s.configVersionAt t) ∧
    (∀ (i : Nat) (p : EspWifiParameter), s.parameters[i]? = some p → p.getId.isSome = true →
      ∀ t : Nat, t < p.getLength.toNat →
        eepromRead (configSave s).eeprom (specOffset s.parameters i + (t : Int))
          = p.valueBuffer.getD t 0) ∧
    (∀ (i : Nat) (p : EspWifiParameter), s.parameters[i]? = some p →
      specOffset s.parameters (i + 1)
        = specOffset s.parameters i + (if p.getId.isSome then p.getLength else 0)) ∧
    (∀ (data : List Byte) (i : Nat) (p : EspWifiParameter), s.parameters[i]? = some p →
      p.getId.isSome = true →
      ∃ q, (loadParameters data
          (ESPWIFI_CONFIG_START + (ESPWIFI_CONFIG_VESION_LENGTH : Int)) s.parameters)[i]?
            = some q ∧
        (q.valueBuffer
            = readEepromValue data (specOffset s.parameters i) p.valueBuffer p.getLength ∨
         ∃ d, p.defaultValue = some d ∧
          strlen (readEepromValue data (specOffset s.parameters i) p.valueBuffer p.getLength)
            = 0 ∧
          q.valueBuffer = strncpy
            (readEepromValue data (specOffset s.parameters i) p.valueBuffer p.getLength)
            d p.getLength.toNat)) := by
  have hsum := idLengths_nonneg s.parameters hnn
  have hsize : (ESPWIFI_CONFIG_VESION_LENGTH : Int) ≤ (s.eeprom.length : Int) := by
    simp only [ESPWIFI_CONFIG_VESION_LENGTH, ESPWIFI_CONFIG_START] at hfit ⊢; omega
  refine ⟨?_, ?_, ?_, ?_⟩
  · have hv := configTestVersion_configSave s hnn hsize
    rw [configTestVersion_eq_true_iff] at hv
    intro t ht
    rw [hv t ht, configSave_configVersionAt]
  · intro i p hp hid t ht
    rw [configSave_eeprom]
    simp only [specOffset]
    exact saveParameters_read_slot s.parameters hnn _ _
      (by simp [ESPWIFI_CONFIG_VESION_LENGTH, ESPWIFI_CONFIG_START])
      (by rw [configSaveConfigVersion_length]; exact hfit) i p hp hid t ht
  · intro i p hp
    exact specOffset_succ s.parameters i p hp
  · intro data i p hp hid
    have h := loadParameters_getElem data s.parameters
      (ESPWIFI_CONFIG_START + (ESPWIFI_CONFIG_VESION_LENGTH : Int)) i p hp
    rw [if_pos hid] at h
    refine ⟨_, h, ?_⟩
    simp only [specOffset]
    cases hd : p.defaultValue with
    | none => left; rfl
    | some d =>
      by_cases hz : strlen (readEepromValue data
          (ESPWIFI_CONFIG_START + (ESPWIFI_CONFIG_VESION_LENGTH : Int) +
            (((s.parameters.take i).filter (fun p => p.getId.isSome)).map
              (fun p => p.getLength)).sum) p.valueBuffer p.getLength) = 0
      · right
        exact ⟨d, rfl, hz, by simp only [hz, if_true]⟩
      · left
        simp only [hz, if_false]

/-- C14, at an instance: `separatedThing` on the region that `configInit` opens. -/
theorem configSave_layout_witness :
    (∀ p ∈ (configInit (fun _ => 255) separatedThing).parameters, 0 ≤ p.getLength) ∧
    eepromRead (configSave (configInit (fun _ => 255) separatedThing)).eeprom
        (ESPWIFI_CONFIG_START + ((0 : Nat) : Int))
      = (configInit (fun _ => 255) separatedThing).configVersionAt 0 :=
  ⟨by decide,
   (configSave_layout (configInit (fun _ => 255) separatedThing) (by decide)
      (configInit_fits _ _ (by decide))).1 0 (by decide)⟩

/-- C15 (amended): the size that `configInit` adds up is the sum of the capacities
of all parameters of the chain, those without id included, and the region it
opens has 4 cells more; when every parameter without id has capacity 0, as
`EspWifiSeparator` builds it, this is the sum of the capacities of exactly the
parameters with an id. -/
theorem configInit_size (stored : Nat → Byte) (s : EspWifi) :
    s.parameters.foldl (fun size current => size + current.getLength) 0
      = (s.parameters.map (fun p => p.getLength)).sum ∧
    (configInit stored s).eeprom.length
      = (ESPWIFI_CONFIG_START + (ESPWIFI_CONFIG_VESION_LENGTH : Int) +
          (s.parameters.map (fun p => p.getLength)).sum).toNat ∧
    ((∀ p ∈ s.parameters, p.getId = none → p.getLength = 0) →
      s.parameters.foldl (fun size current => size + current.getLength) 0
        = ((s.parameters.filter (fun p => p.getId.isSome)).map (fun p => p.getLength)).sum ∧
      (configInit stored s).eeprom.length
        = (ESPWIFI_CONFIG_START + (ESPWIFI_CONFIG_VESION_LENGTH : Int) +
            ((s.parameters.filter (fun p => p.getId.isSome)).map
              (fun p => p.getLength)).sum).toNat) := by
  have key : ∀ ps : List EspWifiParameter, (∀ p ∈ ps, p.getId = none → p.getLength = 0) →
      (ps.map (fun p => p.getLength)).sum
        = ((ps.filter (fun p => p.getId.isSome)).map (fun p => p.getLength)).sum := by
    intro ps
    induction ps with
    | nil => intro _; rfl
    | cons q rest ih =>
      intro h
      have hr := ih (fun p hp => h p (List.mem_cons_of_mem _ hp))
      cases hq : q.getId with
      | none =>
        have := h q (List.mem_cons_self _ _) hq
        simp [List.filter_cons, hq, this, hr]
      | some x =>
        simp [List.filter_cons, hq, hr]
  have hall : s.parameters.foldl (fun size current => size + current.getLength) 0
      = (s.parameters.map (fun p => p.getLength)).sum := by
    rw [foldl_add_getLength, zero_add]
  have hlen : (configInit stored s).eeprom.length
      = (ESPWIFI_CONFIG_START + (ESPWIFI_CONFIG_VESION_LENGTH : Int) +
          (s.parameters.map (fun p => p.getLength)).sum).toNat := by
    simp only [configInit, eepromBegin, List.length_map, List.length_range, hall]
  refine ⟨hall, hlen, ?_⟩
  intro hsep
  rw [hall, hlen, key s.parameters hsep]
  exact ⟨rfl, rfl⟩

/-- C15, at an instance: `separatedThing`, whose chain holds a separator between
the built-in parameters and the parameter "greeting". -/
theorem configInit_size_witness :
    (∀ p ∈ separatedThing.parameters, p.getId = none → p.getLength = 0) ∧
    (configInit (fun _ => 255) separatedThing).eeprom.length = 172 :=
  ⟨by decide, by
    rw [((configInit_size (fun _ => 255) separatedThing).2.2 (by decide)).2]
    decide⟩

/-- C15 as stated fails: the chain of `paddedThing` ends with a parameter that has
no id and 7 cells; `configInit` adds up 172, the capacities of the parameters with
an id add up to 165. -/
theorem configInit_size_counts_idless :
    paddedThing.userParameters.map (fun p => (p.getId, p.getLength)) = [(none, 7)] ∧
    paddedThing.parameters.foldl (fun size current => size + current.getLength) 0 = 172 ∧
    ((paddedThing.parameters.filter (fun p => p.getId.isSome)).map
      (fun p => p.getLength)).sum = 165 := by
  decide

/-- C16: on a region whose four leading cells are the version tag, `configLoad`
returns true and leaves in each parameter with an id (whose buffer has the
declared capacity) the cells of its slice of the region, except that when the
slice holds an empty text and a default value is declared the buffer holds the
default value cut to the capacity; parameters without id are not touched. -/
theorem configLoad_valid (s : EspWifi)
    (htag : ∀ t : Nat, t < ESPWIFI_CONFIG_VESION_LENGTH →
      eepromRead s.eeprom (ESPWIFI_CONFIG_START + (t : Int)) = s.configVersionAt t) :
    (configLoad s).1 = true ∧
    ∀ (i : Nat) (p : EspWifiParameter), s.parameters[i]? = some p →
      p.valueBuffer.length = p.getLength.toNat →
      (configLoad s).2.parameters[i]? = some
        (if p.getId.isSome then
          { p with valueBuffer :=
              (if firstChar ((List.range p.getLength.toNat).map
                    (fun (t : Nat) => eepromRead s.eeprom (specOffset s.parameters i + (t : Int))))
                  = 0 ∧ p.defaultValue.isSome then
                strncpy ((List.range p.getLength.toNat).map
                    (fun (t : Nat) => eepromRead s.eeprom (specOffset s.parameters i + (t : Int))))
                  (p.defaultValue.getD []) p.getLength.toNat
              else
                (List.range p.getLength.toNat).map
                  (fun (t : Nat) =>
                    eepromRead s.eeprom (specOffset s.parameters i + (t : Int)))) }
         else p) := by
  have hv : configTestVersion s = true := (configTestVersion_eq_true_iff s).2 htag
  obtain ⟨h1, h2⟩ := configLoad_parameters_of_valid s hv
  refine ⟨h1, ?_⟩
  intro i p hp hlen
  rw [h2, loadParameters_getElem _ _ _ i p hp]
  by_cases hid : p.getId.isSome = true
  · simp only [hid, if_true, specOffset]
    rw [readEepromValue_eq_slice _ _ _ _ hlen]
    congr 1
    cases hd : p.defaultValue with
    | none => simp
    | some d =>
      by_cases hz : firstChar ((List.range p.getLength.toNat).map
          (fun (t : Nat) => eepromRead s.eeprom
            (ESPWIFI_CONFIG_START + (ESPWIFI_CONFIG_VESION_LENGTH : Int) +
              (((s.parameters.take i).filter (fun p => p.getId.isSome)).map
                (fun p => p.getLength)).sum + (t : Int)))) = 0
      · simp [hz, (strlen_eq_zero_iff _).2 hz]
      · have hz2 := mt (strlen_eq_zero_iff _).1 hz
        simp [hz, hz2]
  · simp only [hid, Bool.false_eq_true, if_false]

/-- C16, at an instance: the configured object on a region of four cells that
hold the tag "init". -/
theorem configLoad_valid_witness :
    (∀ t : Nat, t < ESPWIFI_CONFIG_VESION_LENGTH →
      eepromRead ({ configuredThing with eeprom := [105, 110, 105, 116] }).eeprom
        (ESPWIFI_CONFIG_START + (t : Int))
        = ({ configuredThing with eeprom := [105, 110, 105, 116] }).configVersionAt t) ∧
    (configLoad { configuredThing with eeprom := [105, 110, 105, 116] }).1 = true :=
  ⟨by decide,
   (configLoad_valid { configuredThing with eeprom := [105, 110, 105, 116] } (by decide)).1⟩


/-! ## Portal request handler: accepted submissions -/

theorem applyParameters_length (req : Request) (temp : List Byte)
    (ps : List EspWifiParameter) : (applyParameters req temp ps).length = ps.length := by
  induction ps generalizing temp with
  | nil => rfl
  | cons p rest ih =>
    simp only [applyParameters]
    split_ifs <;> simp [ih]

/-- The save loop of `handleConfig` changes value buffers only. -/
theorem applyParameters_shape (req : Request) (temp : List Byte)
    (ps : List EspWifiParameter) :
    (applyParameters req temp ps).map (fun p => (p.getId, p.getLength))
      = ps.map (fun p => (p.getId, p.getLength)) := by
  induction ps generalizing temp with
  | nil => rfl
  | cons p rest ih =>
    simp only [applyParameters]
    split_ifs <;> simp only [List.map_cons, ih] <;> rfl

theorem validateForm_shape (req : Request) (s : EspWifi) :
    (validateForm req s).2.parameters.map (fun p => (p.getId, p.getLength))
      = s.parameters.map (fun p => (p.getId, p.getLength)) :=
  map_of_cleared (fun p => (p.getId, p.getLength)) (fun _ => rfl) _ _
    (validateForm_parameters_cleared req s)

theorem idLengths_congr (ps qs : List EspWifiParameter)
    (h : ps.map (fun p => (p.getId, p.getLength)) = qs.map (fun p => (p.getId, p.getLength))) :
    ((ps.filter (fun p => p.getId.isSome)).map (fun p => p.getLength))
      = ((qs.filter (fun p => p.getId.isSome)).map (fun p => p.getLength)) := by
  induction ps generalizing qs with
  | nil =>
    cases qs with
    | nil => rfl
    | cons q rest => simp at h
  | cons p rest ih =>
    cases qs with
    | nil => simp at h
    | cons q qrest =>
      simp only [List.map_cons, List.cons.injEq, Prod.mk.injEq] at h
      obtain ⟨⟨hid, hlen⟩, hrest⟩ := h
      have := ih qrest hrest
      by_cases hp : p.getId.isSome = true
      · have hq : q.getId.isSome = true := by rw [← hid]; exact hp
        simp [List.filter_cons, hp, hq, hlen, this]
      · have hq : ¬ q.getId.isSome = true := by rw [← hid]; exact hp
        simp [List.filter_cons, hp, hq, this]

theorem nonneg_congr (ps qs : List EspWifiParameter)
    (h : ps.map (fun p => (p.getId, p.getLength)) = qs.map (fun p => (p.getId, p.getLength)))
    (hnn : ∀ q ∈ qs, 0 ≤ q.getLength) : ∀ p ∈ ps, 0 ≤ p.getLength := by
  intro p hp
  have hm : (p.getId, p.getLength) ∈ ps.map (fun p => (p.getId, p.getLength)) :=
    List.mem_map.2 ⟨p, hp, rfl⟩
  rw [h] at hm
  obtain ⟨q, hq, heq⟩ := List.mem_map.1 hm
  have : q.getLength = p.getLength := by
    have := congrArg Prod.snd heq
    simpa using this
  rw [← this]
  exact hnn q hq

theorem specOffset_congr (ps qs : List EspWifiParameter)
    (h : ps.map (fun p => (p.getId, p.getLength)) = qs.map (fun p => (p.getId, p.getLength)))
    (i : Nat) : specOffset ps i = specOffset qs i := by
  have ht : (ps.take i).map (fun p => (p.getId, p.getLength))
      = (qs.take i).map (fun p => (p.getId, p.getLength)) := by
    rw [List.map_take, List.map_take, h]
  simp only [specOffset, idLengths_congr _ _ ht]

theorem strncpy_zero (dst src : List Byte) : strncpy dst src 0 = dst := by
  simp [strncpy]

/-- A visible password parameter of at most `ESPWIFI_WORD_LEN` cells whose
submitted value is empty comes out of the save loop as it went in. -/
theorem applyParameters_keeps_blank_password (req : Request) (ps : List EspWifiParameter)
    (temp : List Byte) (i : Nat) (p : EspWifiParameter) (hp : ps[i]? = some p)
    (hpw : p.isPassword = true) (hlen : p.getLength ≤ ESPWIFI_WORD_LEN)
    (hblank : argOf req p.getId = []) :
    (applyParameters req temp ps)[i]? = some p := by
  induction ps generalizing temp i with
  | nil => simp at hp
  | cons q rest ih =>
    cases i with
    | zero =>
      simp only [List.getElem?_cons_zero, Option.some.injEq] at hp
      subst hp
      simp only [applyParameters]
      by_cases hvis : q.getId.isSome = true ∧ q.visible = true
      · rw [if_pos hvis, if_pos ⟨hpw, hlen⟩]
        by_cases hz : q.getLength.toNat = 0
        · simp only [readParamValue, hz, toCharArray, if_true, strncpy_zero]
          split_ifs <;> simp
        · have htemp : firstChar (readParamValue req q.getId temp q.getLength) = 0 := by
            simp only [readParamValue, toCharArray, hz, if_false, hblank, List.length_nil,
              if_true]
            cases temp <;> simp [firstChar]
          simp [htemp]
      · rw [if_neg hvis]
        simp
    | succ i =>
      simp only [List.getElem?_cons_succ] at hp
      simp only [applyParameters]
      split_ifs <;> simp only [List.getElem?_cons_succ] <;> exact ih _ i hp

theorem cstr_text_append_nul (value rest : List Byte) (htext : ∀ b ∈ value, b ≠ 0) :
    cstr (value ++ [0] ++ rest) = value := by
  induction value with
  | nil => simp [cstr]
  | cons b bs ih =>
    have hb : b ≠ 0 := htext b (List.mem_cons_self _ _)
    have := ih (fun x hx => htext x (List.mem_cons_of_mem _ hx))
    simp only [cstr, List.cons_append, List.takeWhile_cons, bne_iff_ne, ne_eq, hb,
      not_false_eq_true, decide_True, if_true, List.cons.injEq, true_and] at this ⊢
    exact this

theorem cstr_text_append_zeros (value rest : List Byte) (n : Nat)
    (htext : ∀ b ∈ value, b ≠ 0) (hn : 0 < n) :
    cstr (value ++ List.replicate n 0 ++ rest) = value := by
  cases n with
  | zero => omega
  | succ n =>
    rw [List.replicate_succ]
    have := cstr_text_append_nul value (List.replicate n 0 ++ rest) htext
    simpa [List.append_assoc] using this

/-- A visible password parameter of at most `ESPWIFI_WORD_LEN` cells gets a
submitted text that is not empty and fits into its buffer. -/
theorem applyParameters_sets_password (req : Request) (ps : List EspWifiParameter)
    (temp : List Byte) (i : Nat) (p : EspWifiParameter) (hp : ps[i]? = some p)
    (hid : p.getId.isSome = true) (hvis : p.visible = true)
    (hpw : p.isPassword = true) (hlen : p.getLength ≤ ESPWIFI_WORD_LEN)
    (hne : argOf req p.getId ≠ []) (htext : ∀ b ∈ argOf req p.getId, b ≠ 0)
    (hfits : (argOf req p.getId).length < p.getLength.toNat) :
    (applyParameters req temp ps)[i]? = some
      { p with valueBuffer :=
          argOf req p.getId ++
            List.replicate (p.getLength.toNat - (argOf req p.getId).length) 0 ++
            p.valueBuffer.drop p.getLength.toNat } := by
  induction ps generalizing temp i with
  | nil => simp at hp
  | cons q rest ih =>
    cases i with
    | zero =>
      simp only [List.getElem?_cons_zero, Option.some.injEq] at hp
      subst hp
      have hz : ¬ q.getLength.toNat = 0 := by omega
      have hl0 : ¬ (argOf req q.getId).length = 0 := by
        intro h; exact hne (List.length_eq_zero.1 h)
      have hmin : min (q.getLength.toNat - 1) (argOf req q.getId).length
          = (argOf req q.getId).length := by omega
      have htemp : readParamValue req q.getId temp q.getLength
          = argOf req q.getId ++ [0] ++ temp.drop ((argOf req q.getId).length + 1) := by
        simp only [readParamValue, toCharArray, hz, if_false, hl0, hmin, List.take_length]
      have hc : cstr (readParamValue req q.getId temp q.getLength) = argOf req q.getId := by
        rw [htemp]; exact cstr_text_append_nul _ _ htext
      have hfirst : firstChar (readParamValue req q.getId temp q.getLength) ≠ 0 := by
        rw [htemp]
        cases hv : argOf req q.getId with
        | nil => exact absurd hv hne
        | cons b bs =>
          simp only [firstChar, List.cons_append, List.headD_cons]
          exact htext b (by rw [hv]; exact List.mem_cons_self _ _)
      simp only [applyParameters, hid, hvis, and_self, if_true, hpw, hlen, hfirst, ne_eq,
        not_false_eq_true, List.getElem?_cons_zero, strncpy, hc]
      have htake : (argOf req q.getId).take q.getLength.toNat = argOf req q.getId :=
        List.take_of_length_le (by omega)
      rw [htake]
    | succ i =>
      simp only [List.getElem?_cons_succ] at hp
      simp only [applyParameters]
      split_ifs <;> simp only [List.getElem?_cons_succ] <;> exact ih _ i hp


theorem configLoad_emit (e : Event) (s : EspWifi) :
    (configLoad (emit e s)).1 = (configLoad s).1 ∧
    (configLoad (emit e s)).2.parameters = (configLoad s).2.parameters := by
  have ht : configTestVersion (emit e s) = configTestVersion s := rfl
  simp only [configLoad, ht]
  cases configTestVersion s
  · exact ⟨rfl, rfl⟩
  · refine ⟨rfl, ?_⟩
    simp only [if_true]
    rw [setParameters_parameters _ _ (loadParameters_length _ _ _),
      setParameters_parameters _ _ (loadParameters_length _ _ _)]
    rfl

theorem configSave_log (s : EspWifi) :
    (configSave s).log = s.log ++
      (Event.eepromCommit ::
        (if s.hasConfigSavedCallback then [Event.configSavedCallback] else [])) := by
  simp only [configSave]
  split_ifs with h <;> simp_all [emit_log]

/-- After `configSave`, the slot of each parameter with an id holds the cells of
its value buffer. -/
theorem configSave_read_slot (s : EspWifi)
    (hnn : ∀ p ∈ s.parameters, 0 ≤ p.getLength)
    (hfit : ESPWIFI_CONFIG_START + (ESPWIFI_CONFIG_VESION_LENGTH : Int) +
      ((s.parameters.filter (fun p => p.getId.isSome)).map (fun p => p.getLength)).sum
        ≤ (s.eeprom.length : Int))
    (i : Nat) (p : EspWifiParameter) (hp : s.parameters[i]? = some p)
    (hid : p.getId.isSome = true) (t : Nat) (ht : t < p.getLength.toNat) :
    eepromRead (configSave s).eeprom (specOffset s.parameters i + (t : Int))
      = p.valueBuffer.getD t 0 := by
  rw [configSave_eeprom]
  simp only [specOffset]
  exact saveParameters_read_slot s.parameters hnn _ _
    (by simp [ESPWIFI_CONFIG_VESION_LENGTH, ESPWIFI_CONFIG_START])
    (by rw [configSaveConfigVersion_length]; exact hfit) i p hp hid t ht

/-- `validateForm` keeps every parameter but for its error message. -/
theorem validateForm_getElem (req : Request) (s : EspWifi) (i : Nat) (p : EspWifiParameter)
    (hp : s.parameters[i]? = some p) :
    ∃ q, (validateForm req s).2.parameters[i]? = some q ∧
      clearErrorMessage q = clearErrorMessage p := by
  have h := congrArg (fun l => l[i]?) (validateForm_parameters_cleared req s)
  simp only [List.getElem?_map, hp, Option.map_some'] at h
  cases hq : (validateForm req s).2.parameters[i]? with
  | none => rw [hq] at h; simp at h
  | some q =>
    rw [hq] at h
    simp only [Option.map_some', Option.some.injEq] at h
    exact ⟨q, rfl, h⟩

theorem handleConfig_accepted_parameters (req : Request) (s : EspWifi)
    (hgate : s.state ≠ State.ONLINE ∨
      req.authenticate ESPWIFI_ADMIN_USER_NAME (cstr s.apPassword) = true)
    (hsave : req.hasArg "iotSave" = true) (hv : (validateForm req s).1 = true) :
    (handleConfig req s).parameters =
      applyParameters req (List.replicate ESPWIFI_WORD_LEN.toNat 0)
        (validateForm req s).2.parameters := by
  rw [handleConfig_accepted req s hgate hsave hv, emit_parameters, configSave_parameters,
    setParameters_parameters _ _ (applyParameters_length _ _ _)]

theorem handleConfig_accepted_shape (req : Request) (s : EspWifi)
    (hgate : s.state ≠ State.ONLINE ∨
      req.authenticate ESPWIFI_ADMIN_USER_NAME (cstr s.apPassword) = true)
    (hsave : req.hasArg "iotSave" = true) (hv : (validateForm req s).1 = true) :
    (handleConfig req s).parameters.map (fun p => (p.getId, p.getLength))
      = s.parameters.map (fun p => (p.getId, p.getLength)) := by
  rw [handleConfig_accepted_parameters req s hgate hsave hv, applyParameters_shape,
    validateForm_shape]

theorem handleConfig_accepted_log (req : Request) (s : EspWifi)
    (hgate : s.state ≠ State.ONLINE ∨
      req.authenticate ESPWIFI_ADMIN_USER_NAME (cstr s.apPassword) = true)
    (hsave : req.hasArg "iotSave" = true) (hv : (validateForm req s).1 = true) :
    (handleConfig req s).log = s.log ++
      (Event.eepromCommit ::
        (if s.hasConfigSavedCallback then [Event.configSavedCallback] else []) ++
          [Event.sendSavedPage]) := by
  rw [handleConfig_accepted req s hgate hsave hv, emit_log, configSave_log]
  simp

/-- After an accepted submission the slot of each parameter with an id holds the
cells of its new value buffer. -/
theorem handleConfig_accepted_read (req : Request) (s : EspWifi)
    (hgate : s.state ≠ State.ONLINE ∨
      req.authenticate ESPWIFI_ADMIN_USER_NAME (cstr s.apPassword) = true)
    (hsave : req.hasArg "iotSave" = true) (hv : (validateForm req s).1 = true)
    (hnn : ∀ p ∈ s.parameters, 0 ≤ p.getLength)
    (hfit : ESPWIFI_CONFIG_START + (ESPWIFI_CONFIG_VESION_LENGTH : Int) +
      ((s.parameters.filter (fun p => p.getId.isSome)).map (fun p => p.getLength)).sum
        ≤ (s.eeprom.length : Int))
    (i : Nat) (q : EspWifiParameter) (hq : (handleConfig req s).parameters[i]? = some q)
    (hid : q.getId.isSome = true) (t : Nat) (ht : t < q.getLength.toNat) :
    eepromRead (handleConfig req s).eeprom (specOffset s.parameters i + (t : Int))
      = q.valueBuffer.getD t 0 := by
  have hshape := handleConfig_accepted_shape req s hgate hsave hv
  have hpar := handleConfig_accepted_parameters req s hgate hsave hv
  rw [hpar] at hshape hq
  have hA := setParameters_parameters (validateForm req s).2
    (applyParameters req (List.replicate ESPWIFI_WORD_LEN.toNat 0)
      (validateForm req s).2.parameters) (applyParameters_length _ _ _)
  rw [← hA] at hshape hq
  rw [handleConfig_accepted req s hgate hsave hv, emit_eeprom,
    ← specOffset_congr _ _ hshape i]
  refine configSave_read_slot _ (nonneg_congr _ _ hshape hnn) ?_ i q hq hid t ht
  rw [idLengths_congr _ _ hshape]
  simpa using hfit

/-- After an accepted submission `configLoad` finds a valid region and gives each
parameter its new value buffer, the declared default taking the place of an
empty text. -/
theorem handleConfig_accepted_load (req : Request) (s : EspWifi)
    (hgate : s.state ≠ State.ONLINE ∨
      req.authenticate ESPWIFI_ADMIN_USER_NAME (cstr s.apPassword) = true)
    (hsave : req.hasArg "iotSave" = true) (hv : (validateForm req s).1 = true)
    (hnn : ∀ p ∈ s.parameters, 0 ≤ p.getLength)
    (hfit : ESPWIFI_CONFIG_START + (ESPWIFI_CONFIG_VESION_LENGTH : Int) +
      ((s.parameters.filter (fun p => p.getId.isSome)).map (fun p => p.getLength)).sum
        ≤ (s.eeprom.length : Int)) :
    (configLoad (handleConfig req s)).1 = true ∧
    (configLoad (handleConfig req s)).2.parameters =
      (handleConfig req s).parameters.map (fun p =>
        if p.getId.isSome ∧ strlen p.valueBuffer = 0 then
          { p with valueBuffer :=
              (p.defaultValue.map
                (fun d => strncpy p.valueBuffer d p.getLength.toNat)).getD p.valueBuffer }
        else p) := by
  have hshape := handleConfig_accepted_shape req s hgate hsave hv
  have hpar := handleConfig_accepted_parameters req s hgate hsave hv
  rw [hpar] at hshape
  have hA := setParameters_parameters (validateForm req s).2
    (applyParameters req (List.replicate ESPWIFI_WORD_LEN.toNat 0)
      (validateForm req s).2.parameters) (applyParameters_length _ _ _)
  have hshapeA : List.map (fun p => (p.getId, p.getLength))
      ((validateForm req s).2.setParameters
        (applyParameters req (List.replicate ESPWIFI_WORD_LEN.toNat 0)
          (validateForm req s).2.parameters)).parameters
        = List.map (fun p => (p.getId, p.getLength)) s.parameters := by
    rw [hA]; exact hshape
  rw [handleConfig_accepted req s hgate hsave hv, (configLoad_emit _ _).1,
    (configLoad_emit _ _).2, emit_parameters, configSave_parameters]
  refine configLoad_configSave _ (nonneg_congr _ _ hshapeA hnn) ?_
  rw [idLengths_congr _ _ hshapeA]
  simpa using hfit


/-- C13 (amended): for every password-kind parameter of at most `ESPWIFI_WORD_LEN`
(33) cells, a save submission that `handleConfig` accepts and in which the
submitted value of that parameter is empty leaves its value buffer unchanged; on
a registry with non-negative capacities and a region that holds the encoding, the
save writes that same buffer to the slot of the parameter. -/
theorem handleConfig_keeps_blank_password (req : Request) (s : EspWifi)
    (hgate : s.state ≠ State.ONLINE ∨
      req.authenticate ESPWIFI_ADMIN_USER_NAME (cstr s.apPassword) = true)
    (hsave : req.hasArg "iotSave" = true) (hv : (validateForm req s).1 = true)
    (i : Nat) (p : EspWifiParameter) (hp : s.parameters[i]? = some p)
    (hpw : p.isPassword = true) (hlen : p.getLength ≤ ESPWIFI_WORD_LEN)
    (hblank : argOf req p.getId = []) :
    (∃ q, (handleConfig req s).parameters[i]? = some q ∧ q.valueBuffer = p.valueBuffer) ∧
    ((∀ x ∈ s.parameters, 0 ≤ x.getLength) →
      ESPWIFI_CONFIG_START + (ESPWIFI_CONFIG_VESION_LENGTH : Int) +
        ((s.parameters.filter (fun x => x.getId.isSome)).map (fun x => x.getLength)).sum
          ≤ (s.eeprom.length : Int) →
      p.getId.isSome = true →
      ∀ t : Nat, t < p.getLength.toNat →
        eepromRead (handleConfig req s).eeprom (specOffset s.parameters i + (t : Int))
          = p.valueBuffer.getD t 0) := by
  obtain ⟨q, hq, hcq⟩ := validateForm_getElem req s i p hp
  have hqid : q.getId = p.getId := by
    have h := congrArg EspWifiParameter.getId hcq
    exact h
  have hqpw : q.isPassword = p.isPassword := by
    have h := congrArg EspWifiParameter.isPassword hcq
    exact h
  have hqlen : q.getLength = p.getLength := by
    have h := congrArg EspWifiParameter.getLength hcq
    exact h
  have hqbuf : q.valueBuffer = p.valueBuffer := by
    have h := congrArg EspWifiParameter.valueBuffer hcq
    exact h
  have hkeep := applyParameters_keeps_blank_password req (validateForm req s).2.parameters
    (List.replicate ESPWIFI_WORD_LEN.toNat 0) i q hq (by rw [hqpw]; exact hpw)
    (by rw [hqlen]; exact hlen) (by rw [hqid]; exact hblank)
  rw [← handleConfig_accepted_parameters req s hgate hsave hv] at hkeep
  refine ⟨⟨q, hkeep, hqbuf⟩, ?_⟩
  intro hnn hfit hid t ht
  rw [← hqbuf]
  exact handleConfig_accepted_read req s hgate hsave hv hnn hfit i q hkeep
    (by rw [hqid]; exact hid) t (by rw [hqlen]; exact ht)

/-- C13, at an instance: a save submission without AP password sent to the
configured object in `AP_MODE` keeps the AP password "password1" and writes its
first cell to the slot at offset 37. -/
theorem handleConfig_keeps_blank_password_witness :
    (validateForm nameOnlyRequest (configInit (fun _ => 255) apModeThing)).1 = true ∧
    argOf nameOnlyRequest apModeThing.apPasswordParameter.getId = [] ∧
    (∃ q, (handleConfig nameOnlyRequest (configInit (fun _ => 255) apModeThing)).parameters[1]?
        = some q ∧ q.valueBuffer = apModeThing.apPasswordParameter.valueBuffer) ∧
    eepromRead (handleConfig nameOnlyRequest (configInit (fun _ => 255) apModeThing)).eeprom
        (specOffset (configInit (fun _ => 255) apModeThing).parameters 1 + ((0 : Nat) : Int))
      = apModeThing.apPasswordParameter.valueBuffer.getD 0 0 :=
  ⟨by decide, by decide,
   (handleConfig_keeps_blank_password nameOnlyRequest (configInit (fun _ => 255) apModeThing)
      (by decide) (by decide) (by decide) 1 apModeThing.apPasswordParameter rfl (by decide)
      (by decide) (by decide)).1,
   (handleConfig_keeps_blank_password nameOnlyRequest (configInit (fun _ => 255) apModeThing)
      (by decide) (by decide) (by decide) 1 apModeThing.apPasswordParameter rfl (by decide)
      (by decide) (by decide)).2 (by decide) (configInit_fits _ _ (by decide)) (by decide) 0
      (by decide)⟩

/-- C13 as stated fails: the visible password parameter "apikey" has 40 cells,
more than `ESPWIFI_WORD_LEN`; an accepted save submission without a value for it
empties the stored text "key1234567". -/
theorem handleConfig_blank_long_password_emptied :
    longSecretThing.userParameters.map
        (fun p => (p.getId, p.visible, p.isPassword, p.getLength, cstr p.valueBuffer))
      = [(some "apikey", true, true, 40, [107, 101, 121, 49, 50, 51, 52, 53, 54, 55])] ∧
    argOf nameOnlyRequest (some "apikey") = [] ∧
    (validateForm nameOnlyRequest longSecretThing).1 = true ∧
    (handleConfig nameOnlyRequest longSecretThing).log
      = [Event.eepromCommit, Event.sendSavedPage] ∧
    (handleConfig nameOnlyRequest longSecretThing).userParameters.map
        (fun p => cstr p.valueBuffer) = [[]] := by
  decide


/-! ## One transition per tick -/

theorem changeStateCalls_emit (e : Event) (s : EspWifi) :
    changeStateCalls (emit e s).log
      = changeStateCalls s.log + (if isStateChanging e then 1 else 0) := by
  rw [emit_log]
  simp only [changeStateCalls, List.countP_append, List.countP_cons, List.countP_nil, zero_add]

theorem changeStateCalls_emit_other (e : Event) (s : EspWifi) (he : isStateChanging e = false) :
    changeStateCalls (emit e s).log = changeStateCalls s.log := by
  rw [changeStateCalls_emit, he]
  simp

theorem changeStateCalls_doBlink (now : Nat) (s : EspWifi) :
    changeStateCalls (doBlink now s).log = changeStateCalls s.log := by
  simp only [doBlink]
  split_ifs <;>
    simp only [changeStateCalls_emit, isStateChanging, Bool.false_eq_true, if_false, add_zero]

theorem changeStateCalls_setupAp (s : EspWifi) :
    changeStateCalls (setupAp s).log = changeStateCalls s.log := by
  simp only [setupAp]
  split_ifs <;>
    simp only [changeStateCalls_emit, isStateChanging, Bool.false_eq_true, if_false, add_zero]

theorem changeStateCalls_stateChanged (inp : TickInput) (o n : State) (s : EspWifi) :
    changeStateCalls (stateChanged inp o n s).log = changeStateCalls s.log := by
  cases n with
  | BOOT => rfl
  | NOT_CONFIGURED =>
    simp only [stateChanged]
    split_ifs <;>
      simp only [changeStateCalls_emit, isStateChanging, Bool.false_eq_true, if_false,
        add_zero, changeStateCalls_setupAp, blinkInternal_log]
  | AP_MODE =>
    simp only [stateChanged]
    split_ifs <;>
      simp only [changeStateCalls_emit, isStateChanging, Bool.false_eq_true, if_false,
        add_zero, changeStateCalls_setupAp, blinkInternal_log]
  | CONNECTING =>
    rw [stateChanged_CONNECTING_log]
    simp only [changeStateCalls, List.countP_append]
    split_ifs <;> simp [isStateChanging]
  | ONLINE =>
    simp only [stateChanged]
    split_ifs <;>
      simp only [changeStateCalls_emit, isStateChanging, Bool.false_eq_true, if_false,
        add_zero, blinkInternal_log]

/-- Each call of `changeState` is one more `stateChanging` event of the log. -/
theorem changeStateCalls_changeState (inp : TickInput) (n : State) (s : EspWifi) :
    changeStateCalls (changeState inp n s).log = changeStateCalls s.log + 1 := by
  simp only [changeState]
  rw [changeStateCalls_emit, changeStateCalls_stateChanged]
  simp only [isStateChanging, Bool.false_eq_true, if_false, add_zero]
  exact changeStateCalls_emit _ _

theorem handleConfig_plain (req : Request) (s : EspWifi)
    (hgate : s.state ≠ State.ONLINE ∨
      req.authenticate ESPWIFI_ADMIN_USER_NAME (cstr s.apPassword) = true)
    (hsave : req.hasArg "iotSave" = false) :
    handleConfig req s = emit .sendConfigPage s := by
  have hg : ¬ (s.state = State.ONLINE ∧
      ¬ req.authenticate ESPWIFI_ADMIN_USER_NAME (cstr s.apPassword) = true) := by
    rintro ⟨h1, h2⟩
    rcases hgate with h | h
    · exact h h1
    · exact h2 h
  unfold handleConfig
  rw [if_neg hg]
  simp [hsave]

theorem changeStateCalls_handleConfig (req : Request) (s : EspWifi) :
    changeStateCalls (handleConfig req s).log = changeStateCalls s.log := by
  by_cases hg : s.state = State.ONLINE ∧
      req.authenticate ESPWIFI_ADMIN_USER_NAME (cstr s.apPassword) = false
  · rw [handleConfig_unauthenticated req s hg.1 hg.2]
    exact changeStateCalls_emit_other _ _ rfl
  · have hgate : s.state ≠ State.ONLINE ∨
        req.authenticate ESPWIFI_ADMIN_USER_NAME (cstr s.apPassword) = true := by
      by_cases h1 : s.state = State.ONLINE
      · right
        cases ha : req.authenticate ESPWIFI_ADMIN_USER_NAME (cstr s.apPassword) with
        | true => rfl
        | false => exact absurd ⟨h1, ha⟩ hg
      · left; exact h1
    cases hsave : req.hasArg "iotSave" with
    | false =>
      rw [handleConfig_plain req s hgate hsave]
      exact changeStateCalls_emit_other _ _ rfl
    | true =>
      cases hv : (validateForm req s).1 with
      | false =>
        rw [handleConfig_rejected req s hgate hsave hv,
          changeStateCalls_emit_other Event.sendConfigPage _ rfl, validateForm_log]
      | true =>
        rw [handleConfig_accepted_log req s hgate hsave hv]
        by_cases hcb : s.hasConfigSavedCallback = true <;>
          simp [changeStateCalls, List.countP_append, List.countP_cons, isStateChanging, hcb]

theorem changeStateCalls_handleClient (inp : TickInput) (s : EspWifi) :
    changeStateCalls (handleClient inp s).log = changeStateCalls s.log := by
  unfold handleClient
  cases inp.configRequest with
  | none => rfl
  | some req => exact changeStateCalls_handleConfig req s

theorem changeStateCalls_checkApTimeout (inp : TickInput) (s : EspWifi) :
    changeStateCalls (checkApTimeout inp s).log ≤ changeStateCalls s.log + 1 := by
  simp only [checkApTimeout]
  split_ifs
  · rw [changeStateCalls_changeState]
  · omega
  · omega

theorem changeStateCalls_checkWifiConnection (inp : TickInput) (s : EspWifi) :
    ((checkWifiConnection inp s).1 = true →
      changeStateCalls (checkWifiConnection inp s).2.log = changeStateCalls s.log) ∧
    changeStateCalls (checkWifiConnection inp s).2.log ≤ changeStateCalls s.log + 1 := by
  have hd : changeStateCalls (emit Event.wifiDisconnect s).log = changeStateCalls s.log :=
    changeStateCalls_emit_other _ _ rfl
  unfold checkWifiConnection
  by_cases hc : inp.wifiConnected = true
  · simp [hc]
  · by_cases ht : s.wifiConnectionTimeoutMs < ulongSub inp.millisCheck s.wifiConnectionStart
    · simp only [hc, not_false_eq_true, if_true, ht]
      cases callWifiConnectionFailureHandler inp (emit .wifiDisconnect s) with
      | none =>
        refine ⟨by simp, ?_⟩
        show changeStateCalls (changeState inp State.AP_MODE (emit .wifiDisconnect s)).log ≤ _
        rw [changeStateCalls_changeState, hd]
      | some info =>
        refine ⟨by simp, ?_⟩
        show changeStateCalls (changeState inp State.CONNECTING
          { (emit .wifiDisconnect s) with wifiAuthInfo := .alternate info }).log ≤ _
        rw [changeStateCalls_changeState]
        exact le_of_eq (congrArg (· + 1) hd)
    · simp [hc, ht]

/-- C19: whatever the start state and the inputs of the tick, `doLoop` makes at most
one call of `changeState`: every call of `changeState` puts exactly one
`stateChanging` event into the log, and the log gains at most one such event in a
`doLoop`. -/
theorem doLoop_one_transition (inp : TickInput) (s : EspWifi) :
    (∀ (n : State) (t : EspWifi),
      changeStateCalls (changeState inp n t).log = changeStateCalls t.log + 1) ∧
    changeStateCalls (doLoop inp s).log ≤ changeStateCalls s.log + 1 := by
  refine ⟨fun n t => changeStateCalls_changeState inp n t, ?_⟩
  have hb := changeStateCalls_doBlink inp.millisBlink s
  cases hs : s.state with
  | BOOT =>
    simp only [doLoop, doBlink_state, hs]
    rw [changeStateCalls_changeState, hb]
  | NOT_CONFIGURED =>
    simp only [doLoop, doBlink_state, hs]
    rw [changeStateCalls_handleClient,
      changeStateCalls_emit_other Event.dnsProcessNextRequest _ rfl]
    refine le_trans (changeStateCalls_checkApTimeout _ _) ?_
    rw [checkConnection_log, hb]
  | AP_MODE =>
    simp only [doLoop, doBlink_state, hs]
    rw [changeStateCalls_handleClient,
      changeStateCalls_emit_other Event.dnsProcessNextRequest _ rfl]
    refine le_trans (changeStateCalls_checkApTimeout _ _) ?_
    rw [checkConnection_log, hb]
  | CONNECTING =>
    simp only [doLoop, doBlink_state, hs]
    have h := changeStateCalls_checkWifiConnection inp (doBlink inp.millisBlink s)
    rw [hb] at h
    cases hc : (checkWifiConnection inp (doBlink inp.millisBlink s)).1 with
    | true =>
      have h1 := h.1 hc
      revert h1 hc
      cases checkWifiConnection inp (doBlink inp.millisBlink s) with
      | mk c t =>
        intro hc h1
        simp only at hc h1
        simp only [hc, if_true, changeStateCalls_changeState, h1]
        omega
    | false =>
      have h2 := h.2
      revert h2 hc
      cases checkWifiConnection inp (doBlink inp.millisBlink s) with
      | mk c t =>
        intro hc h2
        simp only at hc h2
        simp only [hc]
        simpa using h2
  | ONLINE =>
    simp only [doLoop, doBlink_state, hs]
    split_ifs
    · rw [changeStateCalls_handleClient, hb]
      omega
    · rw [changeStateCalls_changeState, changeStateCalls_handleClient, hb]


/-! ## Startup on a region without valid configuration -/

theorem eepromRead_eepromBegin (stored : Nat → Byte) (size : Int) (t : Nat)
    (ht : (t : Int) < size) :
    eepromRead (eepromBegin stored size) (ESPWIFI_CONFIG_START + (t : Int)) = stored t := by
  have hlen : (eepromBegin stored size).length = size.toNat := by simp [eepromBegin]
  have h1 : ¬ ((ESPWIFI_CONFIG_START + (t : Int)) < 0 ∨
      ((eepromBegin stored size).length : Int) ≤ ESPWIFI_CONFIG_START + (t : Int)) := by
    rw [hlen]
    simp only [ESPWIFI_CONFIG_START]
    omega
  have h2 : (ESPWIFI_CONFIG_START + (t : Int)).toNat = t := by
    simp [ESPWIFI_CONFIG_START]
  have h3 : t < size.toNat := by omega
  simp only [eepromRead, h1, if_false, h2]
  simp [eepromBegin, List.getD_eq_getElem?_getD, List.getElem?_map, List.getElem?_range h3]

/-- When the region that `configInit` opens does not start with the version tag,
`init` answers false, empties the texts of the AP password, the station SSID and
the station password, resets the AP timeout, and leaves every other parameter
(device name, timeout text, user parameters) as it was. -/
theorem init_invalid (configPinLow : Bool) (stored : Nat → Byte) (s : EspWifi)
    (h : configTestVersion (configInit stored s) = false) :
    (init configPinLow stored s).1 = false ∧
    (init configPinLow stored s).2.userParameters = s.userParameters ∧
    (init configPinLow stored s).2.thingNameParameter = s.thingNameParameter ∧
    (init configPinLow stored s).2.apTimeoutParameter = s.apTimeoutParameter ∧
    (init configPinLow stored s).2.apPassword = s.apPassword.set 0 0 ∧
    (init configPinLow stored s).2.wifiSsid = s.wifiSsid.set 0 0 ∧
    (init configPinLow stored s).2.wifiPassword = s.wifiPassword.set 0 0 ∧
    (init configPinLow stored s).2.apTimeoutMs = ESPWIFI_DEFAULT_AP_MODE_TIMEOUT_MS := by
  have key : ∀ S : EspWifi, S.parameters = s.parameters → S.configVersion = s.configVersion →
      configLoad (configInit stored S) = (false, configInit stored S) := by
    intro S hp hc
    have ht : configTestVersion (configInit stored S) = false := by
      rw [← h]
      simp only [configTestVersion, configInit, configVersionAt, hp, hc]
    simp [configLoad, ht]
  unfold init
  by_cases h1 : 0 ≤ s.configPin <;> by_cases h2 : 0 ≤ s.statusPin
  · simp only [h1, h2, if_true, emit_statusPin]
    generalize hS : emit (Event.digitalWrite 0) _ = S
    have hp : S.parameters = s.parameters := by rw [← hS]; rfl
    have hc : S.configVersion = s.configVersion := by rw [← hS]; rfl
    rw [key S hp hc]
    clear hS key h
    simp only [parameters, List.cons.injEq] at hp
    obtain ⟨e1, e2, e3, e4, e5, e6⟩ := hp
    refine ⟨rfl, e6, e1, e5, ?_, ?_, ?_, rfl⟩
    · show S.apPasswordParameter.valueBuffer.set 0 0 = _
      rw [e2]; rfl
    · show S.wifiSsidParameter.valueBuffer.set 0 0 = _
      rw [e3]; rfl
    · show S.wifiPasswordParameter.valueBuffer.set 0 0 = _
      rw [e4]; rfl
  · simp only [h1, h2, if_true, if_false, emit_statusPin]
    rw [key _ ?_ ?_]
    · exact ⟨rfl, rfl, rfl, rfl, rfl, rfl, rfl, rfl⟩
    · rfl
    · rfl
  · simp only [h1, h2, if_true, if_false, emit_statusPin]
    generalize hS : emit (Event.digitalWrite 0) _ = S
    have hp : S.parameters = s.parameters := by rw [← hS]; rfl
    have hc : S.configVersion = s.configVersion := by rw [← hS]; rfl
    rw [key S hp hc]
    clear hS key h
    simp only [parameters, List.cons.injEq] at hp
    obtain ⟨e1, e2, e3, e4, e5, e6⟩ := hp
    refine ⟨rfl, e6, e1, e5, ?_, ?_, ?_, rfl⟩
    · show S.apPasswordParameter.valueBuffer.set 0 0 = _
      rw [e2]; rfl
    · show S.wifiSsidParameter.valueBuffer.set 0 0 = _
      rw [e3]; rfl
    · show S.wifiPasswordParameter.valueBuffer.set 0 0 = _
      rw [e4]; rfl
  · simp only [h1, h2, if_false]
    rw [key _ ?_ ?_]
    · exact ⟨rfl, rfl, rfl, rfl, rfl, rfl, rfl, rfl⟩
    · rfl
    · rfl

theorem configTestVersion_configInit_blank (stored : Nat → Byte) (s : EspWifi) (t : Nat)
    (ht : t < ESPWIFI_CONFIG_VESION_LENGTH) (hnn : ∀ p ∈ s.parameters, 0 ≤ p.getLength)
    (hdiff : stored t ≠ s.configVersionAt t) :
    configTestVersion (configInit stored s) = false := by
  rw [Bool.eq_false_iff]
  intro hv
  rw [configTestVersion_eq_true_iff] at hv
  have h := hv t ht
  have hsum : 0 ≤ (s.parameters.map (fun p => p.getLength)).sum := by
    apply List.sum_nonneg
    intro x hx
    obtain ⟨p, hp, rfl⟩ := List.mem_map.1 hx
    exact hnn p hp
  have hlt : (t : Int) < ESPWIFI_CONFIG_START + (ESPWIFI_CONFIG_VESION_LENGTH : Int) +
      s.parameters.foldl (fun size current => size + current.getLength) 0 := by
    rw [foldl_add_getLength]
    simp only [ESPWIFI_CONFIG_START, ESPWIFI_CONFIG_VESION_LENGTH] at ht ⊢
    omega
  have hr := eepromRead_eepromBegin stored _ t hlt
  have he : (configInit stored s).eeprom = eepromBegin stored
      (ESPWIFI_CONFIG_START + (ESPWIFI_CONFIG_VESION_LENGTH : Int) +
        s.parameters.foldl (fun size current => size + current.getLength) 0) := rfl
  rw [he, hr] at h
  exact hdiff h

/-- C17 fails on the code: `defaultedThing` declares the default "hi" for its
parameter "greeting"; after `init` on a blank region (every cell 255, so that the
tag "init" is not there) `init` answers false and the buffer of "greeting" still
holds the empty text it held before, not the declared default. -/
theorem init_blank_region_default_not_applied :
    (init false (fun _ => 255) defaultedThing).1 = false ∧
    (init false (fun _ => 255) defaultedThing).2.userParameters.map
        (fun p => (p.getId, p.defaultValue, p.valueBuffer))
      = [(some "greeting", some [104, 105], [0, 0, 0])] := by
  have h := init_invalid false (fun _ => 255) defaultedThing
    (configTestVersion_configInit_blank (fun _ => 255) defaultedThing 0 (by decide) (by decide)
      (by decide))
  refine ⟨h.1, ?_⟩
  rw [h.2.1]
  decide

/-- C20 fails on the code: `skipApNoSsidThing` asked for `skipApStartup`, holds an
AP password and no station SSID, and the config pin does not force AP mode; its
first `doLoop` from `BOOT` enters `CONNECTING` and calls the connection handler
with an empty SSID. -/
theorem doLoop_boot_skip_without_ssid :
    skipApNoSsidThing.state = State.BOOT ∧
    skipApNoSsidThing.skipApStartup = true ∧
    skipApNoSsidThing.forceDefaultPassword = false ∧
    cstr skipApNoSsidThing.wifiSsid = [] ∧
    (doLoop (quietTick 0) skipApNoSsidThing).state = State.CONNECTING ∧
    (doLoop (quietTick 0) skipApNoSsidThing).log
      = [Event.stateChanging State.BOOT State.CONNECTING,
         Event.wifiConnectionHandler [] [],
         Event.stateChanged State.BOOT State.CONNECTING] := by
  decide

/-! ## Blink signal -/

theorem toULong_of_lt (n : Nat) (h : n < ULONG_SIZE) : toULong n = n := Nat.mod_eq_of_lt h

theorem blink_durations (repeatMs dutyCyclePercent : Nat) (s : EspWifi)
    (h0 : toULong repeatMs ≠ 0) :
    (blink repeatMs dutyCyclePercent s).blinkOnMs
      = toULong (toULong repeatMs * (dutyCyclePercent % 256)) / 100 ∧
    (blink repeatMs dutyCyclePercent s).blinkOffMs
      = toULong (toULong repeatMs *
          intToULong (100 - ((dutyCyclePercent % 256 : Nat) : Int))) / 100 := by
  simp only [blink, h0, if_false]
  trivial

/-- C21 (amended): for every period greater than 0 and every duty percent from 0 to
100 such that the two products `period * duty` and `period * (100 - duty)` fit
into an `unsigned long` (they do for every period up to 42949672), `blink` sets
the on-duration to `period * duty / 100` and the off-duration to
`period * (100 - duty) / 100`, rounded down. -/
theorem blink_pattern (repeatMs dutyCyclePercent : Nat) (s : EspWifi)
    (hpos : 0 < repeatMs) (hduty : dutyCyclePercent ≤ 100)
    (hon : repeatMs * dutyCyclePercent < ULONG_SIZE)
    (hoff : repeatMs * (100 - dutyCyclePercent) < ULONG_SIZE) :
    (blink repeatMs dutyCyclePercent s).blinkOnMs = repeatMs * dutyCyclePercent / 100 ∧
    (blink repeatMs dutyCyclePercent s).blinkOffMs
      = repeatMs * (100 - dutyCyclePercent) / 100 := by
  have hr : repeatMs < ULONG_SIZE := by
    rcases Nat.lt_or_ge dutyCyclePercent 1 with h | h
    · have : 100 - dutyCyclePercent = 100 := by omega
      rw [this] at hoff
      omega
    · calc repeatMs = repeatMs * 1 := (Nat.mul_one _).symm
        _ ≤ repeatMs * dutyCyclePercent := Nat.mul_le_mul_left _ h
        _ < ULONG_SIZE := hon
  have hr2 : toULong repeatMs = repeatMs := toULong_of_lt _ hr
  have h0 : toULong repeatMs ≠ 0 := by rw [hr2]; omega
  have hd : dutyCyclePercent % 256 = dutyCyclePercent := Nat.mod_eq_of_lt (by omega)
  have hi : intToULong (100 - (dutyCyclePercent : Int)) = 100 - dutyCyclePercent := by
    simp only [intToULong, ULONG_SIZE]
    omega
  obtain ⟨h1, h2⟩ := blink_durations repeatMs dutyCyclePercent s h0
  rw [h1, h2, hr2, hd, hi, toULong_of_lt _ hon, toULong_of_lt _ hoff]
  exact ⟨rfl, rfl⟩

/-- C21, at an instance: period 1000 and duty 30 give 300 on and 700 off. -/
theorem blink_pattern_witness :
    (blink 1000 30 freshThing).blinkOnMs = 1000 * 30 / 100 ∧
    (blink 1000 30 freshThing).blinkOffMs = 1000 * (100 - 30) / 100 :=
  blink_pattern 1000 30 freshThing (by decide) (by decide) (by decide) (by decide)

/-- C21 as stated fails: the period 42949673 with duty 100 gives the product
4294967300, which wraps around to 4 as `unsigned long`; the on-duration becomes 0
and not 42949673. -/
theorem blink_long_period_wraps :
    (0 : Nat) < 42949673 ∧ 42949673 < ULONG_SIZE ∧ (100 : Nat) ≤ 100 ∧
    (blink 42949673 100 freshThing).blinkOnMs = 0 ∧
    42949673 * 100 / 100 = 42949673 := by
  decide

/-- C23: `stopCustomBlink` is idempotent: a second call right after the first
leaves the object as the first left it, so the active and the state-default on
and off durations are the same. -/
theorem stopCustomBlink_idempotent (s : EspWifi) :
    stopCustomBlink (stopCustomBlink s) = stopCustomBlink s ∧
    (stopCustomBlink (stopCustomBlink s)).blinkOnMs = (stopCustomBlink s).blinkOnMs ∧
    (stopCustomBlink (stopCustomBlink s)).blinkOffMs = (stopCustomBlink s).blinkOffMs ∧
    (stopCustomBlink (stopCustomBlink s)).internalBlinkOnMs
      = (stopCustomBlink s).internalBlinkOnMs ∧
    (stopCustomBlink (stopCustomBlink s)).internalBlinkOffMs
      = (stopCustomBlink s).internalBlinkOffMs :=
  ⟨rfl, rfl, rfl, rfl, rfl⟩

theorem blinkInternal_installs (repeatMs dutyCyclePercent : Nat) (s : EspWifi) :
    (blinkInternal repeatMs dutyCyclePercent s).internalBlinkOnMs
      = (blinkInternal repeatMs dutyCyclePercent s).blinkOnMs ∧
    (blinkInternal repeatMs dutyCyclePercent s).internalBlinkOffMs
      = (blinkInternal repeatMs dutyCyclePercent s).blinkOffMs :=
  ⟨rfl, rfl⟩

/-- Every state entry but the one into `BOOT`, which the code never makes, leaves
the pattern of the state both as the state default and as the active pattern. -/
theorem stateChanged_installs (inp : TickInput) (o n : State) (s : EspWifi)
    (hn : n ≠ State.BOOT) :
    (stateChanged inp o n s).internalBlinkOnMs = (stateChanged inp o n s).blinkOnMs ∧
    (stateChanged inp o n s).internalBlinkOffMs = (stateChanged inp o n s).blinkOffMs := by
  cases n with
  | BOOT => exact absurd rfl hn
  | NOT_CONFIGURED =>
    simp only [stateChanged]
    split_ifs <;> simp [(blinkInternal_installs _ _ _).1, (blinkInternal_installs _ _ _).2]
  | AP_MODE =>
    simp only [stateChanged]
    split_ifs <;> simp [(blinkInternal_installs _ _ _).1, (blinkInternal_installs _ _ _).2]
  | CONNECTING =>
    simp only [stateChanged]
    split_ifs <;> simp [(blinkInternal_installs _ _ _).1, (blinkInternal_installs _ _ _).2]
  | ONLINE =>
    simp only [stateChanged]
    split_ifs <;> simp [(blinkInternal_installs _ _ _).1, (blinkInternal_installs _ _ _).2]

theorem changeState_installs (inp : TickInput) (n : State) (s : EspWifi)
    (hn : n ≠ State.BOOT) :
    (changeState inp n s).internalBlinkOnMs = (changeState inp n s).blinkOnMs ∧
    (changeState inp n s).internalBlinkOffMs = (changeState inp n s).blinkOffMs := by
  simp only [changeState, emit_internalBlinkOnMs, emit_internalBlinkOffMs, emit_blinkOnMs,
    emit_blinkOffMs]
  apply stateChanged_installs
  cases n <;> first | exact absurd rfl hn | (split_ifs <;> simp)

theorem customBlinks_internal (calls : List BlinkCall) (s : EspWifi) :
    (customBlinks calls s).internalBlinkOnMs = s.internalBlinkOnMs ∧
    (customBlinks calls s).internalBlinkOffMs = s.internalBlinkOffMs := by
  induction calls generalizing s with
  | nil => exact ⟨rfl, rfl⟩
  | cons c rest ih =>
    cases c with
    | blink r d =>
      simp only [customBlinks]
      rw [(ih _).1, (ih _).2, blink_internalBlinkOnMs, blink_internalBlinkOffMs]
      exact ⟨rfl, rfl⟩
    | fineBlink a b =>
      simp only [customBlinks]
      rw [(ih _).1, (ih _).2]
      exact ⟨rfl, rfl⟩

/-- C22: after a state entry (`changeState` to any state but `BOOT`, which is never
entered) the state default is the active pattern; whatever calls of `blink` and
`fineBlink` follow, `stopCustomBlink`, and likewise `blink` with period 0, makes
the active on and off durations those that the state entry installed. -/
theorem stopCustomBlink_restores (inp : TickInput) (n : State) (s : EspWifi)
    (calls : List BlinkCall) (dutyCyclePercent : Nat) (hn : n ≠ State.BOOT) :
    (changeState inp n s).internalBlinkOnMs = (changeState inp n s).blinkOnMs ∧
    (changeState inp n s).internalBlinkOffMs = (changeState inp n s).blinkOffMs ∧
    (stopCustomBlink (customBlinks calls (changeState inp n s))).blinkOnMs
      = (changeState inp n s).blinkOnMs ∧
    (stopCustomBlink (customBlinks calls (changeState inp n s))).blinkOffMs
      = (changeState inp n s).blinkOffMs ∧
    (blink 0 dutyCyclePercent (customBlinks calls (changeState inp n s))).blinkOnMs
      = (changeState inp n s).blinkOnMs ∧
    (blink 0 dutyCyclePercent (customBlinks calls (changeState inp n s))).blinkOffMs
      = (changeState inp n s).blinkOffMs := by
  obtain ⟨h1, h2⟩ := changeState_installs inp n s hn
  obtain ⟨h3, h4⟩ := customBlinks_internal calls (changeState inp n s)
  have hb : ∀ t : EspWifi, blink 0 dutyCyclePercent t = stopCustomBlink t := by
    intro t
    simp [blink, toULong]
  have hs : ∀ t : EspWifi, (stopCustomBlink t).blinkOnMs = t.internalBlinkOnMs ∧
      (stopCustomBlink t).blinkOffMs = t.internalBlinkOffMs := fun _ => ⟨rfl, rfl⟩
  refine ⟨h1, h2, ?_, ?_, ?_, ?_⟩
  · rw [(hs _).1, h3, h1]
  · rw [(hs _).2, h4, h2]
  · rw [hb, (hs _).1, h3, h1]
  · rw [hb, (hs _).2, h4, h2]

/-- C22, at an instance: the configured object enters `CONNECTING` (pattern 500 on,
500 off); after `blink 200 10` and `fineBlink 7 9`, `stopCustomBlink` brings the
500 back. -/
theorem stopCustomBlink_restores_witness :
    State.CONNECTING ≠ State.BOOT ∧
    (changeState (quietTick 0) State.CONNECTING configuredThing).blinkOnMs = 500 ∧
    (customBlinks [BlinkCall.blink 200 10, BlinkCall.fineBlink 7 9]
      (changeState (quietTick 0) State.CONNECTING configuredThing)).blinkOnMs = 7 ∧
    (stopCustomBlink (customBlinks [BlinkCall.blink 200 10, BlinkCall.fineBlink 7 9]
      (changeState (quietTick 0) State.CONNECTING configuredThing))).blinkOnMs
        = (changeState (quietTick 0) State.CONNECTING configuredThing).blinkOnMs :=
  ⟨by decide, by decide, by decide,
   (stopCustomBlink_restores (quietTick 0) State.CONNECTING configuredThing
      [BlinkCall.blink 200 10, BlinkCall.fineBlink 7 9] 0 (by decide)).2.2.1⟩

/-- C24 fails on the code: `statusThing` has a status pin and its output is on
(`LOW`). After `blink 1000 100` (1000 on, 0 off) the tick at clock value 1001
writes `HIGH`: the output is off after that tick. After `blink 1000 0` (0 on, 1000
off) the tick at clock value 1 turns the output off and the tick at clock value
1002 writes `LOW`: the output is on after that tick. -/
theorem doLoop_full_duty_toggles :
    0 ≤ statusThing.statusPin ∧
    statusThing.blinkState = 0 ∧
    ((blink 1000 100 statusThing).blinkOnMs, (blink 1000 100 statusThing).blinkOffMs)
      = (1000, 0) ∧
    (doLoop (linkedTick 1001) (blink 1000 100 statusThing)).blinkState = 1 ∧
    (doLoop (linkedTick 1001) (blink 1000 100 statusThing)).log = [Event.digitalWrite 1] ∧
    ((blink 1000 0 statusThing).blinkOnMs, (blink 1000 0 statusThing).blinkOffMs)
      = (0, 1000) ∧
    (doLoops [linkedTick 1, linkedTick 1002] (blink 1000 0 statusThing)).blinkState = 0 ∧
    (doLoops [linkedTick 1, linkedTick 1002] (blink 1000 0 statusThing)).log
      = [Event.digitalWrite 1, Event.digitalWrite 0] := by
  decide

/-! ## Clients on the AP -/

/-- A tick in `AP_MODE` or `NOT_CONFIGURED` with a client on the AP keeps the state
as long as no client has been seen leaving before (the AP connection status is
not `DC`). -/
theorem doLoop_ap_client_keeps_state (inp : TickInput) (s : EspWifi)
    (hs : s.state = State.AP_MODE ∨ s.state = State.NOT_CONFIGURED)
    (hclient : 0 < inp.softAPgetStationNum)
    (hdc : s.apConnectionStatus ≠ ApConnectionState.DC) :
    (doLoop inp s).state = s.state := by
  have hst : (checkConnection inp (doBlink inp.millisBlink s)).apConnectionStatus
      = ApConnectionState.C := by
    have hne : ¬ inp.softAPgetStationNum = 0 := by omega
    have hb : (doBlink inp.millisBlink s).apConnectionStatus = s.apConnectionStatus := by simp
    simp only [checkConnection, hb, hne, and_false, if_false]
    split_ifs with h
    · rfl
    · rw [hb]
      cases hc : s.apConnectionStatus with
      | NC => exact absurd ⟨hc, hclient⟩ h
      | C => rfl
      | DC => exact absurd hc hdc
  rw [doLoop_ap_state inp s hs, checkApTimeout_state_eq, hst]
  simp

/-- C25 fails on the code: after the ticks of a first configuration (a client
joined the AP and left while no SSID was stored, then came back and submitted the
configuration) the object is in `NOT_CONFIGURED` with the AP connection status
`DC`; the next tick, with the client still on the AP, enters `CONNECTING`. -/
theorem doLoop_ap_leaves_with_client :
    (doLoops firstConfigurationTicks freshThing).state = State.NOT_CONFIGURED ∧
    (doLoops firstConfigurationTicks freshThing).apConnectionStatus = ApConnectionState.DC ∧
    (clientTick 40).softAPgetStationNum = 1 ∧
    (doLoop (clientTick 40) (doLoops firstConfigurationTicks freshThing)).state
      = State.CONNECTING := by
  decide

/-! ## AP password in `CONNECTING` and `ONLINE` -/

theorem firstChar_strncpy (dst src : List Byte) (n : Nat) (hd : firstChar dst ≠ 0)
    (hs : firstChar src ≠ 0) : firstChar (strncpy dst src n) ≠ 0 := by
  cases n with
  | zero => simpa [strncpy] using hd
  | succ n =>
    cases src with
    | nil => exact absurd rfl hs
    | cons b bs =>
      have hb : b ≠ 0 := hs
      simp [strncpy, cstr, firstChar, List.takeWhile_cons, hb]

/-- The save loop of `handleConfig` keeps a password parameter of at most
`ESPWIFI_WORD_LEN` cells a password parameter of that capacity, and never empties
its text. -/
theorem applyParameters_password_first (req : Request) (ps : List EspWifiParameter)
    (temp : List Byte) (i : Nat) (q : EspWifiParameter) (hq : ps[i]? = some q)
    (hpw : q.isPassword = true) (hlen : q.getLength ≤ ESPWIFI_WORD_LEN) :
    ∃ r, (applyParameters req temp ps)[i]? = some r ∧ r.isPassword = true ∧
      r.getLength = q.getLength ∧
      (firstChar q.valueBuffer ≠ 0 → firstChar r.valueBuffer ≠ 0) := by
  induction ps generalizing temp i with
  | nil => simp at hq
  | cons p rest ih =>
    cases i with
    | zero =>
      simp only [List.getElem?_cons_zero, Option.some.injEq] at hq
      subst hq
      simp only [applyParameters]
      by_cases hvis : p.getId.isSome = true ∧ p.visible = true
      · rw [if_pos hvis, if_pos ⟨hpw, hlen⟩]
        by_cases ht : firstChar (readParamValue req p.getId temp p.getLength) ≠ 0
        · rw [if_pos ht, List.getElem?_cons_zero]
          exact ⟨_, rfl, hpw, rfl, fun hd => firstChar_strncpy _ _ _ hd ht⟩
        · rw [if_neg ht, List.getElem?_cons_zero]
          exact ⟨_, rfl, hpw, rfl, id⟩
      · rw [if_neg hvis, List.getElem?_cons_zero]
        exact ⟨_, rfl, hpw, rfl, id⟩
    | succ i =>
      simp only [List.getElem?_cons_succ] at hq
      simp only [applyParameters]
      split_ifs <;> simp only [List.getElem?_cons_succ] <;> exact ih _ i hq

/-- A portal request keeps the AP-password parameter a password parameter of at
most `ESPWIFI_WORD_LEN` cells, and never empties the AP password. -/
theorem handleConfig_apPassword_kept (req : Request) (s : EspWifi)
    (hpw : s.apPasswordParameter.isPassword = true)
    (hlen : s.apPasswordParameter.getLength ≤ ESPWIFI_WORD_LEN) :
    (handleConfig req s).apPasswordParameter.isPassword = true ∧
    (handleConfig req s).apPasswordParameter.getLength ≤ ESPWIFI_WORD_LEN ∧
    (firstChar s.apPassword ≠ 0 → firstChar (handleConfig req s).apPassword ≠ 0) := by
  obtain ⟨q, hq, hcq⟩ := validateForm_getElem req s 1 s.apPasswordParameter rfl
  have hqpw : q.isPassword = s.apPasswordParameter.isPassword := by
    have h := congrArg EspWifiParameter.isPassword hcq
    exact h
  have hqlen : q.getLength = s.apPasswordParameter.getLength := by
    have h := congrArg EspWifiParameter.getLength hcq
    exact h
  have hqbuf : q.valueBuffer = s.apPasswordParameter.valueBuffer := by
    have h := congrArg EspWifiParameter.valueBuffer hcq
    exact h
  have hq1 : (validateForm req s).2.apPasswordParameter = q := by
    have h : (validateForm req s).2.parameters[1]?
        = some (validateForm req s).2.apPasswordParameter := rfl
    rw [h] at hq
    exact Option.some.inj hq
  by_cases hg : s.state = State.ONLINE ∧
      req.authenticate ESPWIFI_ADMIN_USER_NAME (cstr s.apPassword) = false
  · rw [handleConfig_unauthenticated req s hg.1 hg.2]
    exact ⟨hpw, hlen, id⟩
  · have hgate : s.state ≠ State.ONLINE ∨
        req.authenticate ESPWIFI_ADMIN_USER_NAME (cstr s.apPassword) = true := by
      by_cases h1 : s.state = State.ONLINE
      · right
        cases ha : req.authenticate ESPWIFI_ADMIN_USER_NAME (cstr s.apPassword) with
        | true => rfl
        | false => exact absurd ⟨h1, ha⟩ hg
      · left; exact h1
    cases hsave : req.hasArg "iotSave" with
    | false =>
      rw [handleConfig_plain req s hgate hsave]
      exact ⟨hpw, hlen, id⟩
    | true =>
      cases hv : (validateForm req s).1 with
      | false =>
        rw [handleConfig_rejected req s hgate hsave hv]
        simp only [apPassword, emit_apPasswordParameter, hq1, hqpw, hqlen, hqbuf]
        exact ⟨hpw, hlen, id⟩
      | true =>
        obtain ⟨r, hr, hrpw, hrlen, hrbuf⟩ := applyParameters_password_first req
          (validateForm req s).2.parameters (List.replicate ESPWIFI_WORD_LEN.toNat 0) 1 q hq
          (by rw [hqpw]; exact hpw) (by rw [hqlen]; exact hlen)
        rw [← handleConfig_accepted_parameters req s hgate hsave hv] at hr
        have h : (handleConfig req s).parameters[1]?
            = some (handleConfig req s).apPasswordParameter := rfl
        rw [h] at hr
        have hr1 := Option.some.inj hr
        simp only [apPassword, hr1, hrpw, hrlen, hqlen]
        rw [hqbuf] at hrbuf
        exact ⟨trivial, hlen, hrbuf⟩

theorem handleClient_apPassword_kept (inp : TickInput) (s : EspWifi)
    (hpw : s.apPasswordParameter.isPassword = true)
    (hlen : s.apPasswordParameter.getLength ≤ ESPWIFI_WORD_LEN) :
    (handleClient inp s).apPasswordParameter.isPassword = true ∧
    (handleClient inp s).apPasswordParameter.getLength ≤ ESPWIFI_WORD_LEN ∧
    (firstChar s.apPassword ≠ 0 → firstChar (handleClient inp s).apPassword ≠ 0) := by
  unfold handleClient
  cases inp.configRequest with
  | none => exact ⟨hpw, hlen, id⟩
  | some req => exact handleConfig_apPassword_kept req s hpw hlen

theorem doLoop_connecting_frame (inp : TickInput) (s : EspWifi)
    (hs : s.state = State.CONNECTING) :
    (doLoop inp s).apPasswordParameter = s.apPasswordParameter ∧
    (doLoop inp s).forceDefaultPassword = s.forceDefaultPassword := by
  by_cases hc : inp.wifiConnected = true
  · rw [doLoop_connecting_online inp s hs hc]
    simp
  · have hc2 : inp.wifiConnected = false := by simpa using hc
    by_cases ht : s.wifiConnectionTimeoutMs < ulongSub inp.millisCheck s.wifiConnectionStart
    · cases hh : callWifiConnectionFailureHandler inp s with
      | none =>
        rw [doLoop_connecting_fallback inp s hs hc2 ht hh]
        simp
      | some alt =>
        rw [doLoop_connecting_retry inp s alt hs hc2 ht hh]
        simp
    · rw [doLoop_connecting_wait inp s hs hc2 ht]
      simp

theorem doLoop_ap_eq (inp : TickInput) (s : EspWifi)
    (hs : s.state = State.AP_MODE ∨ s.state = State.NOT_CONFIGURED) :
    doLoop inp s = handleClient inp (emit .dnsProcessNextRequest
      (checkApTimeout inp (checkConnection inp (doBlink inp.millisBlink s)))) := by
  rcases hs with hs | hs <;> simp only [doLoop, doBlink_state, hs]

theorem doLoop_ap_password (inp : TickInput) (s : EspWifi)
    (hs : s.state = State.AP_MODE ∨ s.state = State.NOT_CONFIGURED)
    (hpw : s.apPasswordParameter.isPassword = true)
    (hlen : s.apPasswordParameter.getLength ≤ ESPWIFI_WORD_LEN) :
    (doLoop inp s).apPasswordParameter.isPassword = true ∧
    (doLoop inp s).apPasswordParameter.getLength ≤ ESPWIFI_WORD_LEN ∧
    ((doLoop inp s).state = State.CONNECTING ∨ (doLoop inp s).state = State.ONLINE →
      firstChar (doLoop inp s).apPassword ≠ 0 ∧ (doLoop inp s).forceDefaultPassword = false) := by
  have hk := handleClient_apPassword_kept inp (emit .dnsProcessNextRequest
    (checkApTimeout inp (checkConnection inp (doBlink inp.millisBlink s))))
    (by simpa using hpw) (by simpa using hlen)
  rw [doLoop_ap_eq inp s hs]
  refine ⟨hk.1, hk.2.1, ?_⟩
  intro hst
  simp only [handleClient_state, emit_state, checkApTimeout_state_eq, checkConnection_state,
    doBlink_state] at hst
  have hcond : firstChar (checkConnection inp (doBlink inp.millisBlink s)).apPassword ≠ 0 ∧
      ¬ (checkConnection inp (doBlink inp.millisBlink s)).forceDefaultPassword = true := by
    split_ifs at hst with hc
    · exact ⟨hc.1.2.1, hc.1.2.2⟩
    · rcases hs with hs | hs <;> rw [hs] at hst <;> simp at hst
  refine ⟨hk.2.2 ?_, ?_⟩
  · simpa [apPassword] using hcond.1
  · simpa using hcond.2

/-- One `doLoop` keeps the AP-password parameter a password parameter of at most
`ESPWIFI_WORD_LEN` cells, and keeps: in `CONNECTING` and `ONLINE` the AP password
is not empty and the default password is not forced. -/
theorem doLoop_password_invariant (inp : TickInput) (s : EspWifi)
    (hpw : s.apPasswordParameter.isPassword = true)
    (hlen : s.apPasswordParameter.getLength ≤ ESPWIFI_WORD_LEN)
    (hinv : s.state = State.CONNECTING ∨ s.state = State.ONLINE →
      firstChar s.apPassword ≠ 0 ∧ s.forceDefaultPassword = false) :
    (doLoop inp s).apPasswordParameter.isPassword = true ∧
    (doLoop inp s).apPasswordParameter.getLength ≤ ESPWIFI_WORD_LEN ∧
    ((doLoop inp s).state = State.CONNECTING ∨ (doLoop inp s).state = State.ONLINE →
      firstChar (doLoop inp s).apPassword ≠ 0 ∧ (doLoop inp s).forceDefaultPassword = false) := by
  cases hs : s.state with
  | BOOT =>
    have hp : (doLoop inp s).apPasswordParameter = s.apPasswordParameter := by
      simp only [doLoop, doBlink_state, hs, changeState_apPasswordParameter,
        doBlink_apPasswordParameter]
    have hf : (doLoop inp s).forceDefaultPassword = s.forceDefaultPassword := by
      simp only [doLoop, doBlink_state, hs, changeState_forceDefaultPassword,
        doBlink_forceDefaultPassword]
    refine ⟨by rw [hp]; exact hpw, by rw [hp]; exact hlen, ?_⟩
    intro hst
    have hposs : isWifiModePossible s = false := by
      by_contra hne
      have hposs : isWifiModePossible s = true := by simpa using hne
      simp only [doLoop, doBlink_state, hs, doBlink_skipApStartup, changeState_state_eq,
        doBlink_isWifiModePossible, hposs, if_true] at hst
      split_ifs at hst <;> simp at hst
    have hn := (isWifiModePossible_eq_true_iff s).not.1 (by simp [hposs])
    push_neg at hn
    simp only [apPassword, hp, hf]
    exact ⟨hn.2, by simpa using hn.1⟩
  | NOT_CONFIGURED => exact doLoop_ap_password inp s (Or.inr hs) hpw hlen
  | AP_MODE => exact doLoop_ap_password inp s (Or.inl hs) hpw hlen
  | CONNECTING =>
    obtain ⟨hp, hf⟩ := doLoop_connecting_frame inp s hs
    have h := hinv (Or.inl hs)
    simp only [apPassword, hp, hf]
    exact ⟨hpw, hlen, fun _ => h⟩
  | ONLINE =>
    have h := hinv (Or.inr hs)
    have hk := handleClient_apPassword_kept inp (doBlink inp.millisBlink s)
      (by simpa using hpw) (by simpa using hlen)
    have h1 : firstChar (doBlink inp.millisBlink s).apPassword ≠ 0 := by
      simpa [apPassword] using h.1
    simp only [doLoop, doBlink_state, hs]
    split_ifs
    · exact ⟨hk.1, hk.2.1, fun _ => ⟨hk.2.2 h1, by simpa using h.2⟩⟩
    · simp only [apPassword, changeState_apPasswordParameter, changeState_forceDefaultPassword]
      exact ⟨hk.1, hk.2.1, fun _ => ⟨hk.2.2 h1, by simpa using h.2⟩⟩

theorem configLoad_shape (s : EspWifi) :
    (configLoad s).2.state = s.state ∧
    (configLoad s).2.apPasswordParameter.isPassword = s.apPasswordParameter.isPassword ∧
    (configLoad s).2.apPasswordParameter.getLength = s.apPasswordParameter.getLength := by
  cases hv : configTestVersion s with
  | false => simp [configLoad, hv]
  | true =>
    obtain ⟨_, h2⟩ := configLoad_parameters_of_valid s hv
    have h1 : (configLoad s).2.parameters[1]? = some (configLoad s).2.apPasswordParameter := rfl
    have hst : (configLoad s).2.state = s.state := by simp [configLoad, hv]
    rw [h2, loadParameters_getElem _ _ _ 1 s.apPasswordParameter rfl] at h1
    have h3 := (Option.some.inj h1).symm
    refine ⟨hst, ?_, ?_⟩
    · rw [h3]; split_ifs <;> rfl
    · rw [h3]; split_ifs <;> rfl

/-- The state of the object and the kind and capacity of the AP-password parameter
pass through `init` as they are. -/
theorem init_shape (configPinLow : Bool) (stored : Nat → Byte) (s : EspWifi) :
    (init configPinLow stored s).2.state = s.state ∧
    (init configPinLow stored s).2.apPasswordParameter.isPassword
      = s.apPasswordParameter.isPassword ∧
    (init configPinLow stored s).2.apPasswordParameter.getLength
      = s.apPasswordParameter.getLength := by
  unfold init
  by_cases h1 : 0 ≤ s.configPin <;> by_cases h2 : 0 ≤ s.statusPin
  · simp only [h1, h2, if_true, emit_statusPin]
    generalize hT : configInit stored _ = T
    have hp : T.state = s.state := by rw [← hT]; rfl
    have hc : T.apPasswordParameter = s.apPasswordParameter := by rw [← hT]; rfl
    obtain ⟨a, b, c⟩ := configLoad_shape T
    clear hT
    cases hL : configLoad T with
    | mk v X =>
      rw [hL] at a b c
      simp only at a b c
      rw [hp] at a
      rw [hc] at b c
      cases v <;> exact ⟨a, b, c⟩
  · simp only [h1, h2, if_true, if_false, emit_statusPin]
    generalize hT : configInit stored _ = T
    have hp : T.state = s.state := by rw [← hT]; rfl
    have hc : T.apPasswordParameter = s.apPasswordParameter := by rw [← hT]; rfl
    obtain ⟨a, b, c⟩ := configLoad_shape T
    clear hT
    cases hL : configLoad T with
    | mk v X =>
      rw [hL] at a b c
      simp only at a b c
      rw [hp] at a
      rw [hc] at b c
      cases v <;> exact ⟨a, b, c⟩
  · simp only [h1, h2, if_true, if_false, emit_statusPin]
    generalize hT : configInit stored _ = T
    have hp : T.state = s.state := by rw [← hT]; rfl
    have hc : T.apPasswordParameter = s.apPasswordParameter := by rw [← hT]; rfl
    obtain ⟨a, b, c⟩ := configLoad_shape T
    clear hT
    cases hL : configLoad T with
    | mk v X =>
      rw [hL] at a b c
      simp only at a b c
      rw [hp] at a
      rw [hc] at b c
      cases v <;> exact ⟨a, b, c⟩
  · simp only [h1, h2, if_false]
    generalize hT : configInit stored _ = T
    have hp : T.state = s.state := by rw [← hT]; rfl
    have hc : T.apPasswordParameter = s.apPasswordParameter := by rw [← hT]; rfl
    obtain ⟨a, b, c⟩ := configLoad_shape T
    clear hT
    cases hL : configLoad T with
    | mk v X =>
      rw [hL] at a b c
      simp only at a b c
      rw [hp] at a
      rw [hc] at b c
      cases v <;> exact ⟨a, b, c⟩

theorem run_password_invariant (steps : List Step) (s : EspWifi)
    (hpw : s.apPasswordParameter.isPassword = true)
    (hlen : s.apPasswordParameter.getLength ≤ ESPWIFI_WORD_LEN)
    (hinv : s.state = State.CONNECTING ∨ s.state = State.ONLINE →
      firstChar s.apPassword ≠ 0 ∧ s.forceDefaultPassword = false) :
    (run steps s).state = State.CONNECTING ∨ (run steps s).state = State.ONLINE →
      firstChar (run steps s).apPassword ≠ 0 ∧ (run steps s).forceDefaultPassword = false := by
  induction steps generalizing s with
  | nil => exact hinv
  | cons st rest ih =>
    cases st with
    | tick inp =>
      obtain ⟨h1, h2, h3⟩ := doLoop_password_invariant inp s hpw hlen hinv
      exact ih (doLoop inp s) h1 h2 h3
    | request req =>
      obtain ⟨h1, h2, h3⟩ := handleConfig_apPassword_kept req s hpw hlen
      refine ih (handleConfig req s) h1 h2 ?_
      intro hst
      simp only [handleConfig_state] at hst
      exact ⟨h3 (hinv hst).1, by simpa using (hinv hst).2⟩

/-- A tick in `CONNECTING` with the AP password set and the default password not
forced does not end in `NOT_CONFIGURED`. -/
theorem doLoop_connecting_not_NOT_CONFIGURED (inp : TickInput) (s : EspWifi)
    (hs : s.state = State.CONNECTING) (hp : firstChar s.apPassword ≠ 0)
    (hf : s.forceDefaultPassword = false) :
    (doLoop inp s).state ≠ State.NOT_CONFIGURED := by
  by_cases hc : inp.wifiConnected = true
  · rw [doLoop_connecting_online inp s hs hc, changeState_state_eq]
    simp
  · have hc2 : inp.wifiConnected = false := by simpa using hc
    by_cases ht : s.wifiConnectionTimeoutMs < ulongSub inp.millisCheck s.wifiConnectionStart
    · cases hh : callWifiConnectionFailureHandler inp s with
      | none =>
        have hposs : isWifiModePossible (emit .wifiDisconnect (doBlink inp.millisBlink s))
            = false := by
          have h : isWifiModePossible (emit .wifiDisconnect (doBlink inp.millisBlink s))
              = isWifiModePossible s := by
            simp [isWifiModePossible, apPassword]
          rw [h, Bool.eq_false_iff, Ne, isWifiModePossible_eq_true_iff]
          push_neg
          exact ⟨by simp [hf], hp⟩
        rw [doLoop_connecting_fallback inp s hs hc2 ht hh, changeState_state_eq]
        simp [hposs]
      | some alt =>
        rw [doLoop_connecting_retry inp s alt hs hc2 ht hh, changeState_state_eq]
        simp
    · rw [doLoop_connecting_wait inp s hs hc2 ht]
      simp [hs]

/-- C26: let `init` run on an object in `BOOT` whose AP-password parameter is, as
the constructor builds it, a password parameter of at most `ESPWIFI_WORD_LEN`
cells. In every state reached from there by ticks and portal requests in any
order, if the state is `CONNECTING` or `ONLINE` then the AP password is not empty
and the default password is not forced; hence a tick in `CONNECTING` never ends in
`NOT_CONFIGURED`. -/
theorem run_connecting_password (configPinLow : Bool) (stored : Nat → Byte) (s : EspWifi)
    (steps : List Step) (hboot : s.state = State.BOOT)
    (hpw : s.apPasswordParameter.isPassword = true)
    (hlen : s.apPasswordParameter.getLength ≤ ESPWIFI_WORD_LEN) :
    ((run steps (init configPinLow stored s).2).state = State.CONNECTING ∨
        (run steps (init configPinLow stored s).2).state = State.ONLINE →
      firstChar (run steps (init configPinLow stored s).2).apPassword ≠ 0 ∧
      (run steps (init configPinLow stored s).2).forceDefaultPassword = false) ∧
    ((run steps (init configPinLow stored s).2).state = State.CONNECTING →
      ∀ inp : TickInput,
        (doLoop inp (run steps (init configPinLow stored s).2)).state
          ≠ State.NOT_CONFIGURED) := by
  obtain ⟨h1, h2, h3⟩ := init_shape configPinLow stored s
  have hinv := run_password_invariant steps (init configPinLow stored s).2
    (by rw [h2]; exact hpw) (by rw [h3]; exact hlen)
    (by
      intro hst
      rw [h1, hboot] at hst
      rcases hst with h | h <;> simp at h)
  refine ⟨hinv, ?_⟩
  intro hst inp
  obtain ⟨hp, hf⟩ := hinv (Or.inl hst)
  exact doLoop_connecting_not_NOT_CONFIGURED inp _ hst hp hf

set_option maxRecDepth 100000

/-- C26, at an instance: the fresh object after `init` on a blank region, the
ticks of a first configuration and one more tick, which enters `CONNECTING`: the
AP password is there, and the tick at clock value 30041, at which the connection
attempt has timed out, does not end in `NOT_CONFIGURED`. -/
theorem run_connecting_password_witness :
    freshThing.state = State.BOOT ∧
    (run ((firstConfigurationTicks ++ [clientTick 40]).map Step.tick)
      (init false (fun _ => 255) freshThing).2).state = State.CONNECTING ∧
    firstChar (run ((firstConfigurationTicks ++ [clientTick 40]).map Step.tick)
      (init false (fun _ => 255) freshThing).2).apPassword ≠ 0 ∧
    (doLoop (quietTick 30041) (run ((firstConfigurationTicks ++ [clientTick 40]).map Step.tick)
      (init false (fun _ => 255) freshThing).2)).state ≠ State.NOT_CONFIGURED :=
  ⟨rfl, by decide,
   ((run_connecting_password false (fun _ => 255) freshThing
      ((firstConfigurationTicks ++ [clientTick 40]).map Step.tick) rfl (by decide)
      (by decide)).1 (Or.inl (by decide))).1,
   (run_connecting_password false (fun _ => 255) freshThing
      ((firstConfigurationTicks ++ [clientTick 40]).map Step.tick) rfl (by decide)
      (by decide)).2 (by decide) (quietTick 30041)⟩

set_option maxRecDepth 512

/-! ## Offsets handed to the persistent region -/

theorem zip_map_self {α β : Type} (l : List α) (f : α → β) :
    l.zip (l.map f) = l.map (fun a => (a, f a)) := by
  induction l with
  | nil => rfl
  | cons a rest ih => simp [ih]

/-- The loop of `readEepromValue` reads the region at the offsets `valueOffsets`,
in that order. -/
theorem readEepromValue_offsets (data : List Byte) (start : Int) (valueBuffer : List Byte)
    (length : Int) :
    readEepromValue data start valueBuffer length =
      ((List.range length.toNat).zip (valueOffsets start length)).foldl
        (fun buf ta => buf.set ta.1 (eepromRead data ta.2)) valueBuffer := by
  simp only [readEepromValue, valueOffsets, zip_map_self, List.foldl_map]

/-- The loop of `writeEepromValue` writes the region at the offsets `valueOffsets`,
in that order. -/
theorem writeEepromValue_offsets (data : List Byte) (start : Int) (valueBuffer : List Byte)
    (length : Int) :
    writeEepromValue data start valueBuffer length =
      ((List.range length.toNat).zip (valueOffsets start length)).foldl
        (fun d ta => eepromWrite d ta.2 (valueBuffer.getD ta.1 0)) data := by
  simp only [writeEepromValue, valueOffsets, zip_map_self, List.foldl_map]

/-- The loops of `configTestVersion` and `configSaveConfigVersion` go to the region
at the offsets `versionOffsets`. -/
theorem configVersion_offsets (s : EspWifi) :
    configTestVersion s
      = ((List.range ESPWIFI_CONFIG_VESION_LENGTH).zip versionOffsets).all
          (fun ta => eepromRead s.eeprom ta.2 == s.configVersionAt ta.1) ∧
    configSaveConfigVersion s
      = ((List.range ESPWIFI_CONFIG_VESION_LENGTH).zip versionOffsets).foldl
          (fun d ta => eepromWrite d ta.2 (s.configVersionAt ta.1)) s.eeprom := by
  refine ⟨?_, ?_⟩
  · simp only [configTestVersion, versionOffsets, zip_map_self, List.all_map]
    rfl
  · simp only [configSaveConfigVersion, versionOffsets, zip_map_self, List.foldl_map]

theorem valueOffsets_bound (start length : Int) (a : Int) (ha : a ∈ valueOffsets start length) :
    start ≤ a ∧ a < start + length := by
  simp only [valueOffsets, List.mem_map, List.mem_range] at ha
  obtain ⟨t, ht, rfl⟩ := ha
  omega

theorem parameterOffsets_bound (ps : List EspWifiParameter)
    (hnn : ∀ p ∈ ps, 0 ≤ p.getLength) (start : Int) (a : Int)
    (ha : a ∈ parameterOffsets start ps) :
    start ≤ a ∧
    a < start + ((ps.filter (fun p => p.getId.isSome)).map (fun p => p.getLength)).sum := by
  induction ps generalizing start with
  | nil => simp [parameterOffsets] at ha
  | cons p rest ih =>
    have hp : 0 ≤ p.getLength := hnn p (List.mem_cons_self _ _)
    have hrest : ∀ x ∈ rest, 0 ≤ x.getLength := fun x hx => hnn x (List.mem_cons_of_mem _ hx)
    have hs := idLengths_nonneg rest hrest
    by_cases hid : p.getId.isSome = true
    · simp only [parameterOffsets, hid, if_true, List.mem_append] at ha
      simp only [List.filter_cons, hid, if_true, List.map_cons, List.sum_cons]
      rcases ha with ha | ha
      · have := valueOffsets_bound _ _ _ ha
        omega
      · have := ih hrest _ ha
        omega
    · simp only [parameterOffsets, hid, Bool.false_eq_true, if_false] at ha
      simp only [List.filter_cons, hid, Bool.false_eq_true, if_false]
      exact ih hrest _ ha

theorem zip_map_map {α β γ : Type} (l : List α) (f : α → β) (g : α → γ) :
    (l.map f).zip (l.map g) = l.map (fun a => (f a, g a)) := by
  induction l with
  | nil => rfl
  | cons a rest ih => simp [ih]

/-- The loop of `writeEepromValue` writes the cells of the buffer at the offsets
`valueOffsets`, in that order. -/
theorem writeEepromValue_writes (data : List Byte) (start : Int) (valueBuffer : List Byte)
    (length : Int) :
    writeEepromValue data start valueBuffer length =
      ((valueOffsets start length).zip
          ((List.range length.toNat).map (fun (t : Nat) => valueBuffer.getD t 0))).foldl
        (fun d av => eepromWrite d av.1 av.2) data := by
  simp only [writeEepromValue, valueOffsets, zip_map_map, List.foldl_map]

/-- The loop over the chain in `configSave` writes the cells `parameterCells` at the
offsets `parameterOffsets`, in that order, and nothing else. -/
theorem saveParameters_writes (ps : List EspWifiParameter) (data : List Byte) (start : Int) :
    saveParameters data start ps =
      ((parameterOffsets start ps).zip (parameterCells ps)).foldl
        (fun d av => eepromWrite d av.1 av.2) data := by
  induction ps generalizing data start with
  | nil => rfl
  | cons p rest ih =>
    by_cases hid : p.getId.isSome = true
    · simp only [saveParameters, parameterOffsets, parameterCells, hid, if_true]
      rw [List.zip_append (by simp [valueOffsets]), List.foldl_append, ih,
        writeEepromValue_writes]
    · simp only [saveParameters, parameterOffsets, parameterCells, hid, Bool.false_eq_true,
        if_false]
      exact ih data start

/-- The region after `configSave` is the region before with the cells
`configSaveCells` written at the offsets `configSaveOffsets`, in that order. -/
theorem configSave_writes (s : EspWifi) :
    (configSave s).eeprom =
      ((configSaveOffsets s).zip (configSaveCells s)).foldl
        (fun d av => eepromWrite d av.1 av.2) s.eeprom := by
  have hver : s.configSaveConfigVersion =
      (versionOffsets.zip ((List.range ESPWIFI_CONFIG_VESION_LENGTH).map
          (fun (t : Nat) => s.configVersionAt t))).foldl
        (fun d av => eepromWrite d av.1 av.2) s.eeprom := by
    simp only [configSaveConfigVersion, versionOffsets, zip_map_map, List.foldl_map]
  rw [configSave_eeprom, saveParameters_writes, hver]
  simp only [configSaveOffsets, configSaveCells]
  rw [List.zip_append (by simp [versionOffsets]), List.foldl_append]

theorem foldl_congr_mem {α β : Type} (l : List α) (f g : β → α → β)
    (h : ∀ b, ∀ a ∈ l, f b a = g b a) (b : β) : l.foldl f b = l.foldl g b := by
  induction l generalizing b with
  | nil => rfl
  | cons a rest ih =>
    simp only [List.foldl_cons]
    rw [h b a (List.mem_cons_self _ _)]
    exact ih (fun b x hx => h b x (List.mem_cons_of_mem _ hx)) _

/-- The loop of `readEepromValue` looks at the region at the offsets `valueOffsets`
only. -/
theorem readEepromValue_reads (data other : List Byte) (start : Int) (valueBuffer : List Byte)
    (length : Int)
    (h : ∀ a ∈ valueOffsets start length, eepromRead other a = eepromRead data a) :
    readEepromValue other start valueBuffer length
      = readEepromValue data start valueBuffer length := by
  simp only [readEepromValue]
  apply foldl_congr_mem
  intro buf t ht
  rw [h (start + (t : Int))]
  simp only [valueOffsets, List.mem_map]
  exact ⟨t, ht, rfl⟩

/-- The loop over the chain in `configLoad` looks at the region at the offsets
`parameterOffsets` only: two regions that agree there give the same parameters. -/
theorem loadParameters_reads (ps : List EspWifiParameter) (data other : List Byte)
    (start : Int)
    (h : ∀ a ∈ parameterOffsets start ps, eepromRead other a = eepromRead data a) :
    loadParameters other start ps = loadParameters data start ps := by
  induction ps generalizing start with
  | nil => rfl
  | cons p rest ih =>
    by_cases hid : p.getId.isSome = true
    · simp only [parameterOffsets, hid, if_true, List.mem_append] at h
      have h1 := readEepromValue_reads data other start p.valueBuffer p.getLength
        (fun a ha => h a (Or.inl ha))
      have h2 := ih (start + p.getLength) (fun a ha => h a (Or.inr ha))
      simp only [loadParameters, hid, if_true, h1, h2]
    · simp only [parameterOffsets, hid, Bool.false_eq_true, if_false] at h
      simp only [loadParameters, hid, Bool.false_eq_true, if_false, ih start h]

theorem all_congr_mem {α : Type} (l : List α) (f g : α → Bool)
    (h : ∀ a ∈ l, f a = g a) : l.all f = l.all g := by
  induction l with
  | nil => rfl
  | cons a rest ih =>
    simp only [List.all_cons]
    rw [h a (List.mem_cons_self _ _), ih (fun x hx => h x (List.mem_cons_of_mem _ hx))]

/-- The member `configTestVersion` looks at the region at the offsets
`versionOffsets` only. -/
theorem configTestVersion_reads (s : EspWifi) (other : List Byte)
    (h : ∀ a ∈ versionOffsets, eepromRead other a = eepromRead s.eeprom a) :
    configTestVersion { s with eeprom := other } = configTestVersion s := by
  simp only [configTestVersion, configVersionAt]
  apply all_congr_mem
  intro t ht
  rw [h (ESPWIFI_CONFIG_START + (t : Int))]
  simp only [versionOffsets, List.mem_map]
  exact ⟨t, ht, rfl⟩

/-- The member `configLoad` looks at the region at the offsets `configLoadOffsets`
only: on a region that agrees with the one of the object there it gives the same
answer and the same parameters. -/
theorem configLoad_reads (s : EspWifi) (other : List Byte)
    (h : ∀ a ∈ configLoadOffsets s, eepromRead other a = eepromRead s.eeprom a) :
    (configLoad { s with eeprom := other }).1 = (configLoad s).1 ∧
    (configLoad { s with eeprom := other }).2.parameters = (configLoad s).2.parameters := by
  have hv := configTestVersion_reads s other
    (fun a ha => h a (by simp only [configLoadOffsets, List.mem_append]; exact Or.inl ha))
  cases hs : configTestVersion s with
  | false =>
    rw [hs] at hv
    simp only [configLoad, hv, hs]
    exact ⟨rfl, rfl⟩
  | true =>
    rw [hs] at hv
    obtain ⟨a1, a2⟩ := configLoad_parameters_of_valid s hs
    obtain ⟨b1, b2⟩ := configLoad_parameters_of_valid { s with eeprom := other } hv
    rw [a1, a2, b1, b2]
    refine ⟨rfl, ?_⟩
    exact loadParameters_reads s.parameters s.eeprom other _
      (fun a ha => h a (by
        simp only [configLoadOffsets, List.mem_append, hs, if_true]
        exact Or.inr ha))

set_option maxRecDepth 100000

set_option maxRecDepth 512

end EspWifi

end EspWifiConf
